import Mathlib

/-!
# DoowanStats-Server: match submission and season roster operations

A shallow embedding of

* `src/functions/apiV1/matchSubmit/matchSubmit.js`
  (`submitMatchSetup`, `validateSetupFormFields`), and
* `src/functions/apiV1/seasonData.js`
  (`getSeasonRosterById`, `putSeasonRosterTeams`, `addProfilesToRoster`,
  `removeProfileFromRoster`).

JavaScript objects used as string-keyed maps are association lists in
insertion order; promises are values of `Outcome` (resolved or rejected);
the stores and the cache are fields of an explicit world state threaded
through each operation, together with the ordered log of effects.
-/

namespace DoowanStats

/-! ## JavaScript values -/

/-- What a rejected promise carries: an error thrown on the way, a failure of a
collaborator, or the text handed to `reject`. -/
inductive JsError where
  | referenceError (identifier : String)
  | typeError (what : String)
  | infrastructure (what : String)
  | rejection (reason : String)
  deriving DecidableEq, Repr

/-- Settled state of a promise. -/
inductive Outcome (α : Type) where
  | resolved (value : α)
  | rejected (error : JsError)
  deriving DecidableEq, Repr

/-- A string-keyed JavaScript object: its own properties in insertion order. -/
abbrev JsObj (α : Type) := List (String × α)

namespace JsObj

/-- Property read `obj[k]`; `none` is `undefined`. -/
def get {α : Type} (obj : JsObj α) (k : String) : Option α :=
  match obj with
  | [] => none
  | (k', v) :: rest => if k' = k then some v else get rest k

/-- The test `k in obj`. -/
def has {α : Type} (obj : JsObj α) (k : String) : Bool :=
  match obj with
  | [] => false
  | (k', _) :: rest => if k' = k then true else has rest k

/-- Assignment `obj[k] = v`: an existing property keeps its place, a new one
is appended. -/
def set {α : Type} (obj : JsObj α) (k : String) (v : α) : JsObj α :=
  match obj with
  | [] => [(k, v)]
  | (k', v') :: rest => if k' = k then (k, v) :: rest else (k', v') :: set rest k v

/-- Statement `delete obj[k]`. -/
def del {α : Type} (obj : JsObj α) (k : String) : JsObj α :=
  obj.filter (fun kv => decide (kv.1 ≠ k))

/-- Property names of the object, as `for (const k in obj)` visits them. -/
def keys {α : Type} (obj : JsObj α) : List String :=
  obj.map Prod.fst

end JsObj

/-- Truthiness of a value that is a string, `null` or `undefined`: only a
non-empty string is truthy. -/
def truthy : Option String → Bool
  | some s => decide (s ≠ "")
  | none => false

/-- Template-literal rendering `${v}` of a string-or-null value. -/
def render : Option String → String
  | some s => s
  | none => "null"

/-! ## Match setup (`matchSubmit.js`) -/

/-- The two sides of a match. -/
inductive TeamColor where
  | Blue
  | Red
  deriving DecidableEq, Repr

/-- Modelled from the spec: the constants `TEAM_STRING.BLUE` and
`TEAM_STRING.RED` of `services/constants` are not among the sources. The
code writes through the key built as color followed by `Team` into the
properties it reads as `BlueTeam` and `RedTeam`, which fixes the two
strings. -/
def TEAM_STRING : TeamColor → String
  | TeamColor.Blue => "Blue"
  | TeamColor.Red => "Red"

/-- Modelled from the spec: `AWS_RDS_STATUS.AVAILABLE` of `services/constants`
is not among the sources; the relational store reports this status when it
is in the "available" state. -/
def AWS_RDS_STATUS_AVAILABLE : String := "available"

/-- One entry of a side's `Players` list. `Role` is `none` when the property
is missing; `ProfilePId` is what validation writes back. -/
structure PlayerObject where
  ProfileName : String
  Role : Option String
  ProfilePId : Option String
  deriving DecidableEq, Repr

/-- One side (`BlueTeam` or `RedTeam`) of `Setup.Teams`; `Bans` holds numeric
champion ids. -/
structure TeamSetup where
  TeamName : String
  Bans : List Nat
  Players : List PlayerObject
  TeamPId : Option String
  deriving DecidableEq, Repr

/-- The object `Setup.Teams` handed to `validateSetupFormFields`. -/
structure SetupTeams where
  BlueTeam : TeamSetup
  RedTeam : TeamSetup
  deriving DecidableEq, Repr

/-- The collaborators `validateSetupFormFields` awaits: the champion catalog
(`getChampIdObject`, by its keys), the two name lookups and the health probe
of the relational store. -/
structure ValidationEnv where
  champObject : List Nat
  getProfilePIdByName : String → Option String
  getTeamPIdByName : String → Option String
  checkRdsStatus : String

/-- Read of `setupTeamsDbObject[color + 'Team']`. -/
def SetupTeams.team (s : SetupTeams) : TeamColor → TeamSetup
  | TeamColor.Blue => s.BlueTeam
  | TeamColor.Red => s.RedTeam

/-- Assignment `setupTeamsDbObject[color + 'Team'].Players[i].ProfilePId = pid`. -/
def SetupTeams.setProfilePId (s : SetupTeams) (color : TeamColor) (i : Nat)
    (pid : Option String) : SetupTeams :=
  match color with
  | TeamColor.Blue =>
    { s with BlueTeam := { s.BlueTeam with
        Players := s.BlueTeam.Players.modify (fun p => { p with ProfilePId := pid }) i } }
  | TeamColor.Red =>
    { s with RedTeam := { s.RedTeam with
        Players := s.RedTeam.Players.modify (fun p => { p with ProfilePId := pid }) i } }

/-- Assignment `setupTeamsDbObject[color + 'Team'].TeamPId = pid`. -/
def SetupTeams.setTeamPId (s : SetupTeams) (color : TeamColor)
    (pid : Option String) : SetupTeams :=
  match color with
  | TeamColor.Blue => { s with BlueTeam := { s.BlueTeam with TeamPId := pid } }
  | TeamColor.Red => { s with RedTeam := { s.RedTeam with TeamPId := pid } }

/-- The mutable state of one run of `validateSetupFormFields`: the array
`validateList` and the setup object it annotates in place. -/
structure ValidateState where
  validateList : List String
  setupTeamsDbObject : SetupTeams
  deriving DecidableEq, Repr

/-- Call `validateList.push(msg)`. -/
def ValidateState.push (st : ValidateState) (msg : String) : ValidateState :=
  { st with validateList := st.validateList ++ [msg] }

def msgBanInvalid (color : TeamColor) (banId i : Nat) : String :=
  TEAM_STRING color ++ " Team Bans of Id '" ++ toString banId ++ "' at index "
    ++ toString i ++ " is invalid."

def msgBanDuplicate (color : TeamColor) (banId : Nat) : String :=
  TEAM_STRING color ++ " Team Bans of Id '" ++ toString banId
    ++ "' is a duplicate in Textfields."

def msgProfileMissing (color : TeamColor) (profileName : String) : String :=
  TEAM_STRING color ++ " Team Profile Name '" ++ profileName
    ++ "' does not exist in database."

def msgProfileDuplicate (color : TeamColor) (profileName : String) : String :=
  TEAM_STRING color ++ " Team Profile Name '" ++ profileName
    ++ "' duplicate in Textfields."

def msgRoleEmpty (color : TeamColor) : String :=
  TEAM_STRING color ++ " Team has an empty textfield for its Role."

def msgRoleDuplicate (color : TeamColor) (role : Option String) : String :=
  TEAM_STRING color ++ " Team duplicate Role '" ++ render role ++ "'."

def msgTeamNameMissing (color : TeamColor) (teamName : String) : String :=
  TEAM_STRING color ++ " Team Name '" ++ teamName ++ "' does not exist in database."

def msgSameTeamNames : String := "Team Names are the same."

def msgRdsInactive : String := "MySQL Database is inactive. Start it first."

/-- The loop of `checkBans` from entry `i` on: `rest` are the entries not yet
visited, `checkDuplicateBanList` the local array of accepted bans. -/
def checkBansLoop (env : ValidationEnv) (color : TeamColor) :
    (i : Nat) → (rest : List Nat) → (checkDuplicateBanList : List Nat) →
    ValidateState → ValidateState
  | _, [], _, st => st
  | i, banId :: rest, checkDuplicateBanList, st =>
    if ¬ (banId ∈ env.champObject) then
      checkBansLoop env color (i + 1) rest checkDuplicateBanList
        (st.push (msgBanInvalid color banId i))
    else if banId ∈ checkDuplicateBanList then
      checkBansLoop env color (i + 1) rest checkDuplicateBanList
        (st.push (msgBanDuplicate color banId))
    else
      checkBansLoop env color (i + 1) rest (checkDuplicateBanList ++ [banId]) st

/-- The closure `checkBans(color, banList)`. -/
def checkBans (env : ValidationEnv) (color : TeamColor) (banList : List Nat)
    (st : ValidateState) : ValidateState :=
  checkBansLoop env color 0 banList [] st

/-- The loop of `checkProfiles` from entry `i` on, with its two local arrays.
The entries are those of the list the loop was started on: the write-back
touches only `ProfilePId`, which the loop never reads. -/
def checkProfilesLoop (env : ValidationEnv) (color : TeamColor) :
    (i : Nat) → (rest : List PlayerObject) → (roleList : List (Option String)) →
    (checkDuplicateProfileList : List (Option String)) →
    ValidateState → ValidateState
  | _, [], _, _, st => st
  | i, playerObject :: rest, roleList, checkDuplicateProfileList, st =>
    let profilePId := env.getProfilePIdByName playerObject.ProfileName
    let afterProfile : List (Option String) × ValidateState :=
      if ¬ (truthy profilePId = true) then
        (checkDuplicateProfileList, st.push (msgProfileMissing color playerObject.ProfileName))
      else if profilePId ∈ checkDuplicateProfileList then
        (checkDuplicateProfileList, st.push (msgProfileDuplicate color playerObject.ProfileName))
      else
        (checkDuplicateProfileList ++ [profilePId],
          { st with setupTeamsDbObject :=
              st.setupTeamsDbObject.setProfilePId color i profilePId })
    let afterRole : List (Option String) × ValidateState :=
      if ¬ (truthy playerObject.Role = true) then
        (roleList, afterProfile.2.push (msgRoleEmpty color))
      else if playerObject.Role ∈ roleList then
        (roleList, afterProfile.2.push (msgRoleDuplicate color playerObject.Role))
      else
        (roleList ++ [playerObject.Role], afterProfile.2)
    checkProfilesLoop env color (i + 1) rest afterRole.1 afterProfile.1 afterRole.2

/-- The closure `checkProfiles(color, playerList)`. -/
def checkProfiles (env : ValidationEnv) (color : TeamColor)
    (playerList : List PlayerObject) (st : ValidateState) : ValidateState :=
  checkProfilesLoop env color 0 playerList [] [] st

/-- The closure `checkTeamName(color, teamName)`. -/
def checkTeamName (env : ValidationEnv) (color : TeamColor) (teamName : String)
    (st : ValidateState) : ValidateState :=
  let teamPId := env.getTeamPIdByName teamName
  if ¬ (truthy teamPId = true) then
    st.push (msgTeamNameMissing color teamName)
  else
    { st with setupTeamsDbObject := st.setupTeamsDbObject.setTeamPId color teamPId }

/-- The function `validateSetupFormFields(setupTeamsDbObject)`: the statements of
its body in source order, each reading the object as the previous ones left
it. The result is the final `validateList` with the annotated object. -/
def validateSetupFormFields (env : ValidationEnv) (setupTeamsDbObject : SetupTeams) :
    ValidateState :=
  let st0 : ValidateState := { validateList := [], setupTeamsDbObject := setupTeamsDbObject }
  let st1 := checkBans env TeamColor.Blue st0.setupTeamsDbObject.BlueTeam.Bans st0
  let st2 := checkBans env TeamColor.Red st1.setupTeamsDbObject.RedTeam.Bans st1
  let st3 := checkProfiles env TeamColor.Blue st2.setupTeamsDbObject.BlueTeam.Players st2
  let st4 := checkProfiles env TeamColor.Red st3.setupTeamsDbObject.RedTeam.Players st3
  let st5 := checkTeamName env TeamColor.Blue st4.setupTeamsDbObject.BlueTeam.TeamName st4
  let st6 := checkTeamName env TeamColor.Red st5.setupTeamsDbObject.RedTeam.TeamName st5
  let st7 :=
    if st6.setupTeamsDbObject.BlueTeam.TeamName = st6.setupTeamsDbObject.RedTeam.TeamName then
      st6.push msgSameTeamNames
    else st6
  let st8 :=
    if env.checkRdsStatus ≠ AWS_RDS_STATUS_AVAILABLE then st7.push msgRdsInactive else st7
  st8

/-! ### The checks as functions of their own input only -/

/-- Messages of one `checkBans` run from entry `i` on, without the accumulator. -/
def banErrorsFrom (env : ValidationEnv) (color : TeamColor) :
    (i : Nat) → (rest : List Nat) → (accepted : List Nat) → List String
  | _, [], _ => []
  | i, banId :: rest, accepted =>
    if ¬ (banId ∈ env.champObject) then
      msgBanInvalid color banId i :: banErrorsFrom env color (i + 1) rest accepted
    else if banId ∈ accepted then
      msgBanDuplicate color banId :: banErrorsFrom env color (i + 1) rest accepted
    else
      banErrorsFrom env color (i + 1) rest (accepted ++ [banId])

/-- Ban errors of one side. -/
def banErrors (env : ValidationEnv) (color : TeamColor) (banList : List Nat) : List String :=
  banErrorsFrom env color 0 banList []

/-- Messages of one `checkProfiles` run over `rest`, without the accumulator
and without the setup object. -/
def playerErrorsFrom (env : ValidationEnv) (color : TeamColor) :
    (rest : List PlayerObject) → (roleList : List (Option String)) →
    (accepted : List (Option String)) → List String
  | [], _, _ => []
  | playerObject :: rest, roleList, accepted =>
    let profilePId := env.getProfilePIdByName playerObject.ProfileName
    let profileMsgs : List String :=
      if ¬ (truthy profilePId = true) then [msgProfileMissing color playerObject.ProfileName]
      else if profilePId ∈ accepted then [msgProfileDuplicate color playerObject.ProfileName]
      else []
    let accepted' : List (Option String) :=
      if truthy profilePId = true ∧ ¬ (profilePId ∈ accepted) then accepted ++ [profilePId]
      else accepted
    let roleMsgs : List String :=
      if ¬ (truthy playerObject.Role = true) then [msgRoleEmpty color]
      else if playerObject.Role ∈ roleList then [msgRoleDuplicate color playerObject.Role]
      else []
    let roleList' : List (Option String) :=
      if truthy playerObject.Role = true ∧ ¬ (playerObject.Role ∈ roleList) then
        roleList ++ [playerObject.Role]
      else roleList
    profileMsgs ++ roleMsgs ++ playerErrorsFrom env color rest roleList' accepted'

/-- Player errors of one side. -/
def playerErrors (env : ValidationEnv) (color : TeamColor)
    (playerList : List PlayerObject) : List String :=
  playerErrorsFrom env color playerList [] []

/-- Team-name error of one side. -/
def teamNameErrors (env : ValidationEnv) (color : TeamColor) (teamName : String) :
    List String :=
  if truthy (env.getTeamPIdByName teamName) = true then [] else [msgTeamNameMissing color teamName]

/-- The same-team-names error. -/
def sameTeamNamesErrors (s : SetupTeams) : List String :=
  if s.BlueTeam.TeamName = s.RedTeam.TeamName then [msgSameTeamNames] else []

/-- The database-status error. -/
def rdsErrors (env : ValidationEnv) : List String :=
  if env.checkRdsStatus ≠ AWS_RDS_STATUS_AVAILABLE then [msgRdsInactive] else []

/-- A ban list without fault: every ID is in the catalog and none repeats. -/
def CleanBans (env : ValidationEnv) (banList : List Nat) : Prop :=
  (∀ b ∈ banList, b ∈ env.champObject) ∧ banList.Nodup

/-- A ban list whose only fault is one ID, at index `i`, absent from the catalog. -/
def OneBadBan (env : ValidationEnv) (banList : List Nat) (i : Nat) : Prop :=
  ∃ banId, banList.get? i = some banId ∧ ¬ (banId ∈ env.champObject) ∧
    CleanBans env (banList.eraseIdx i)

/-- A player list without fault: every name resolves, no profile id repeats,
every role is non-empty and no role repeats. -/
def CleanPlayers (env : ValidationEnv) (playerList : List PlayerObject) : Prop :=
  (∀ p ∈ playerList, truthy (env.getProfilePIdByName p.ProfileName) = true ∧
      truthy p.Role = true) ∧
    (playerList.map (fun p => env.getProfilePIdByName p.ProfileName)).Nodup ∧
    (playerList.map (fun p => p.Role)).Nodup

/-! ### The ban rule as the specification words it -/

/-- Accepted bans before index `i`: the distinct catalog IDs among the earlier
entries of the list (each was accepted at its first occurrence). -/
def acceptedBansBefore (env : ValidationEnv) (banList : List Nat) (i : Nat) : List Nat :=
  ((banList.take i).filter (fun b => decide (b ∈ env.champObject))).dedup

/-- The message the ban rule gives to the entry at index `i`, if any: an ID
outside the catalog is invalid, a catalog ID equal to an earlier accepted ban
is a duplicate, a first occurrence of a catalog ID gives nothing. -/
def banMessageSpec (env : ValidationEnv) (color : TeamColor) (banList : List Nat)
    (i : Nat) : Option String :=
  match banList.get? i with
  | none => none
  | some banId =>
    if ¬ (banId ∈ env.champObject) then some (msgBanInvalid color banId i)
    else if banId ∈ acceptedBansBefore env banList i then some (msgBanDuplicate color banId)
    else none

/-- The ban errors of one side by the rule, in index order. -/
def banErrorsSpec (env : ValidationEnv) (color : TeamColor) (banList : List Nat) :
    List String :=
  (List.range banList.length).filterMap (banMessageSpec env color banList)

/-- The setup with both ban lists emptied. -/
def SetupTeams.withoutBans (s : SetupTeams) : SetupTeams :=
  { BlueTeam := { s.BlueTeam with Bans := [] }, RedTeam := { s.RedTeam with Bans := [] } }

/-! ### Concrete inputs -/

/-- A catalog with champions 1, 2 and 3, lookups that resolve every non-empty
name to itself, and a stopped relational store. -/
def demoEnvDown : ValidationEnv :=
  { champObject := [1, 2, 3],
    getProfilePIdByName := fun n => if n = "" then none else some n,
    getTeamPIdByName := fun n => if n = "" then none else some n,
    checkRdsStatus := "stopped" }

/-- The same collaborators with the relational store available. -/
def demoEnvUp : ValidationEnv :=
  { demoEnvDown with checkRdsStatus := "available" }

/-- A setup whose only fault is Blue's ban 99 at index 1. -/
def demoSetupOneBadBan : SetupTeams :=
  { BlueTeam := { TeamName := "Alpha", Bans := [1, 99],
                  Players := [{ ProfileName := "ann", Role := some "Top", ProfilePId := none }],
                  TeamPId := none },
    RedTeam := { TeamName := "Beta", Bans := [1],
                 Players := [{ ProfileName := "bob", Role := some "Top", ProfilePId := none }],
                 TeamPId := none } }

/-- A setup without fault in which both sides ban champions 1 and 2. -/
def demoSetupSharedBans : SetupTeams :=
  { BlueTeam := { TeamName := "Alpha", Bans := [1, 2],
                  Players := [{ ProfileName := "ann", Role := some "Top", ProfilePId := none }],
                  TeamPId := none },
    RedTeam := { TeamName := "Beta", Bans := [2, 1],
                 Players := [{ ProfileName := "bob", Role := some "Top", ProfilePId := none }],
                 TeamPId := none } }

/-- A setup whose two sides carry the same team name, which resolves. -/
def demoSetupSameNames : SetupTeams :=
  { BlueTeam := { TeamName := "Alpha", Bans := [1],
                  Players := [{ ProfileName := "ann", Role := some "Top", ProfilePId := none }],
                  TeamPId := none },
    RedTeam := { TeamName := "Alpha", Bans := [2],
                 Players := [{ ProfileName := "bob", Role := some "Top", ProfilePId := none }],
                 TeamPId := none } }

/-! ## Match submission (`submitMatchSetup`) -/

/-- The `Setup` sub-document of a pending match: the `Teams` object that is
validated, and its further attributes. -/
structure MatchSetup where
  Teams : SetupTeams
  attributes : List (String × String)
  deriving DecidableEq, Repr

/-- An item of the `Matches` table: a pending match carries a `Setup`
property, a canonical record need not. `attributes` stands for every other
property of the item. -/
structure MatchDbObject where
  Setup : Option MatchSetup
  attributes : List (String × String)
  deriving DecidableEq, Repr

/-- A write `submitMatchSetup` performs, in the words of its call. -/
inductive Effect where
  | mySqlInsertMatch (newMatchDbObject : MatchDbObject) (setup : MatchSetup)
  | putMatch (id : String) (item : MatchDbObject)
  | putMatchSetupIds (MatchSetupIdMap : JsObj String)
  deriving DecidableEq, Repr

/-- The stores `submitMatchSetup` works on: the `Matches` table, the
`MatchSetupIdMap` of the Miscellaneous table (the pending-setup index), the
rows of the relational store, and the log of writes in the order made. -/
structure MatchWorld where
  Matches : JsObj MatchDbObject
  matchSetupIdMap : JsObj String
  mySqlMatches : List (MatchDbObject × MatchSetup)
  effects : List Effect
  deriving DecidableEq, Repr

/-- The awaited store calls of `submitMatchSetup`, by call site. -/
inductive StoreCall where
  | getMatch
  | mySqlInsertMatch
  | putMatch
  | getMatchSetupMap
  | putMatchSetupIds
  deriving DecidableEq, Repr

/-- The collaborators of `submitMatchSetup`: those of validation, the external
transform `createDbMatchV5Object`, and for each store call the error it
throws, if it fails. -/
structure SubmitEnv where
  validation : ValidationEnv
  createDbMatchV5Object : String → MatchSetup → Except JsError MatchDbObject
  fault : StoreCall → Option JsError

/-- What the promise of `submitMatchSetup` resolves with. -/
inductive SubmitResult where
  | null
  | invalid (error : String) (setupObject : MatchSetup) (validateMessages : List String)
  | submitted (newMatchDbObject : MatchDbObject)
  deriving DecidableEq, Repr

/-- The names bound where the body of `submitMatchSetup` runs: its parameter
`id`, the executor's `resolve` and `reject`, the local `matchDbObject`, the
imports and functions of the module, and the global `console`. -/
def submitMatchSetupScope : List String :=
  ["id", "resolve", "reject", "matchDbObject",
   "createDbMatchV5Object", "getProfilePIdByName", "getTeamPIdByName", "checkRdsStatus",
   "dynamoDbGetItem", "dynamoDbPutItem", "AWS_RDS_STATUS", "DYNAMODB_TABLENAMES",
   "MISC_KEYS", "TEAM_STRING", "mySqlInsertMatch", "getMatchSetupMap", "getChampIdObject",
   "submitMatchSetup", "validateSetupFormFields", "console"]

/-- Evaluation of a reference to the identifier `name`: a name bound nowhere
throws a `ReferenceError`. -/
def evalIdentifier (scope : List String) (name : String) : Except JsError Unit :=
  if name ∈ scope then Except.ok () else Except.error (JsError.referenceError name)

/-- The two early exits of `submitMatchSetup`: the `console.error` call, whose
template literal reads the identifier `matchId`, then `resolve(null)`. What
is thrown on the way is caught by the `catch` of the body, which rejects. -/
def logAndResolveNull (w : MatchWorld) : Outcome SubmitResult × MatchWorld :=
  match evalIdentifier submitMatchSetupScope "matchId" with
  | Except.error e => (Outcome.rejected e, w)
  | Except.ok _ => (Outcome.resolved SubmitResult.null, w)

/-- Modelled from the spec: `getMatchSetupMap` of `matchData` is not among the
sources; it loads the pending-setup index, the `MatchSetupIdMap` of the
Miscellaneous table. -/
def getMatchSetupMap (w : MatchWorld) : JsObj String :=
  w.matchSetupIdMap

/-- The function `submitMatchSetup(id)`: the outcome of its promise and the
stores after it. -/
def submitMatchSetup (env : SubmitEnv) (id : String) (w : MatchWorld) :
    Outcome SubmitResult × MatchWorld :=
  match env.fault StoreCall.getMatch with
  | some e => (Outcome.rejected e, w)
  | none =>
  match w.Matches.get id with
  | none => logAndResolveNull w
  | some matchDbObject =>
  match matchDbObject.Setup with
  | none => logAndResolveNull w
  | some setup =>
  let st := validateSetupFormFields env.validation setup.Teams
  -- `matchDbObject.Setup` after validation annotated its `Teams` in place
  let setupObject : MatchSetup := { setup with Teams := st.setupTeamsDbObject }
  if st.validateList.length > 0 then
    (Outcome.resolved (SubmitResult.invalid "Form fields from Match Setup are not valid."
      setupObject st.validateList), w)
  else
  match env.createDbMatchV5Object id setupObject with
  | Except.error e => (Outcome.rejected e, w)
  | Except.ok newMatchDbObject =>
  match env.fault StoreCall.mySqlInsertMatch with
  | some e => (Outcome.rejected e, w)
  | none =>
  let w1 : MatchWorld :=
    { w with mySqlMatches := w.mySqlMatches ++ [(newMatchDbObject, setupObject)],
             effects := w.effects ++ [Effect.mySqlInsertMatch newMatchDbObject setupObject] }
  match env.fault StoreCall.putMatch with
  | some e => (Outcome.rejected e, w1)
  | none =>
  let w2 : MatchWorld :=
    { w1 with Matches := w1.Matches.set id newMatchDbObject,
              effects := w1.effects ++ [Effect.putMatch id newMatchDbObject] }
  match env.fault StoreCall.getMatchSetupMap with
  | some e => (Outcome.rejected e, w2)
  | none =>
  let setupIdMap := (getMatchSetupMap w2).del id
  match env.fault StoreCall.putMatchSetupIds with
  | some e => (Outcome.rejected e, w2)
  | none =>
  let w3 : MatchWorld :=
    { w2 with matchSetupIdMap := setupIdMap,
              effects := w2.effects ++ [Effect.putMatchSetupIds setupIdMap] }
  (Outcome.resolved (SubmitResult.submitted newMatchDbObject), w3)

/-- Collaborators for submission over `demoEnvUp`: the transform gives a
record without `Setup` that keeps the match id, and no store call fails. -/
def demoSubmitEnv : SubmitEnv :=
  { validation := demoEnvUp,
    createDbMatchV5Object := fun id _ => Except.ok { Setup := none, attributes := [("MatchPId", id)] },
    fault := fun _ => none }

/-- Stores holding the pending match `m1` (a setup without fault), the item
`m2` without `Setup`, and an index listing `m1` and `m3`. -/
def demoMatchWorld : MatchWorld :=
  { Matches := [("m1", { Setup := some { Teams := demoSetupSharedBans, attributes := [] },
                         attributes := [] }),
                ("m2", { Setup := none, attributes := [] }),
                ("m4", { Setup := some { Teams := demoSetupSameNames, attributes := [] },
                         attributes := [] })],
    matchSetupIdMap := [("m1", "week 1"), ("m3", "week 2")],
    mySqlMatches := [],
    effects := [] }

/-! ## Season roster (`seasonData.js`) -/

/-- A value of a team's `Players` mapping. `ProfileName` and `ProfileHId` are
what `getSeasonRosterById` attaches; `attributes` is every other property. -/
structure PlayerJson where
  ProfileName : Option String
  ProfileHId : Option String
  attributes : List (String × String)
  deriving DecidableEq, Repr

/-- A value of `Roster.Teams`. `Players` is `none` when the property is
missing; `TeamName` and `TeamHId` are what `getSeasonRosterById` attaches. -/
structure TeamJson where
  Players : Option (JsObj PlayerJson)
  TeamName : Option String
  TeamHId : Option String
  attributes : List (String × String)
  deriving DecidableEq, Repr

/-- A value of `Roster.Profiles`. -/
structure ProfileJson where
  MostRecentTeamHId : String
  deriving DecidableEq, Repr

/-- The `Roster` property of a season document. -/
structure SeasonRoster where
  Teams : Option (JsObj TeamJson)
  Profiles : Option (JsObj ProfileJson)
  attributes : List (String × String)
  deriving DecidableEq, Repr

/-- The `TournamentPIds` of a season's `Information`; the two short names are
what `getSeasonInformation` attaches. -/
structure TournamentPIdsJson where
  RegTournamentPId : Option Nat
  PostTournamentPId : Option Nat
  RegTournamentShortName : Option String
  PostTournamentShortName : Option String
  deriving DecidableEq, Repr

/-- An entry of `Information.FinalStandings`. -/
structure FinalStandingJson where
  TeamHId : Option String
  TeamName : Option String
  attributes : List (String × String)
  deriving DecidableEq, Repr

/-- The `Information.AllStars` object. -/
structure AllStarsJson where
  TopHId : Option String
  JungleHId : Option String
  MidHId : Option String
  BotHId : Option String
  SupportHId : Option String
  TopName : Option String
  JungleName : Option String
  MidName : Option String
  BotName : Option String
  SupportName : Option String
  deriving DecidableEq, Repr

/-- The `Information` property of a season document: the properties
`createNewSeason` writes, and the optional ones `getSeasonInformation` looks
for (`none` when the property is missing). -/
structure SeasonInformation where
  Status : String
  DateOpened : Nat
  SeasonTabName : String
  Description : String
  LeagueRank : String
  SeasonName : String
  LeagueType : String
  SeasonShortName : String
  LeagueCode : String
  TournamentPIds : TournamentPIdsJson
  SeasonTime : String
  FinalStandings : Option (List FinalStandingJson)
  FinalsMvpHId : Option String
  FinalsMvpName : Option String
  AllStars : Option AllStarsJson
  deriving DecidableEq, Repr

/-- A team of a regular-season division. -/
structure RegularTeamJson where
  TeamHId : Option String
  TeamName : Option String
  attributes : List (String × String)
  deriving DecidableEq, Repr

/-- An entry of `Regular.RegularSeasonDivisions`. -/
structure RegularDivisionJson where
  RegularSeasonTeams : List RegularTeamJson
  attributes : List (String × String)
  deriving DecidableEq, Repr

/-- An entry of `RegularSeasonGames` or `PlayoffGames`. `RedTeamHid` is the
property `getSeasonRegular` reads for the red name. -/
structure GameJson where
  BlueTeamHId : Option String
  RedTeamHId : Option String
  RedTeamHid : Option String
  ModeratorHId : Option String
  MvpHId : Option String
  BlueTeamName : Option String
  RedTeamName : Option String
  ModeratorName : Option String
  MvpName : Option String
  attributes : List (String × String)
  deriving DecidableEq, Repr

/-- The `Regular` property of a season document. -/
structure SeasonRegular where
  RegularSeasonDivisions : List RegularDivisionJson
  RegularSeasonGames : List GameJson
  attributes : List (String × String)
  deriving DecidableEq, Repr

/-- A series of a playoff round. -/
structure PlayoffSeriesJson where
  HigherTeamHId : Option String
  LowerTeamHId : Option String
  SeriesMvpHId : Option String
  HigherTeamName : Option String
  LowerTeamName : Option String
  SeriesMvpName : Option String
  attributes : List (String × String)
  deriving DecidableEq, Repr

/-- The `Playoffs` property of a season document; `PlayoffBracket` maps a
round to its series. -/
structure SeasonPlayoffs where
  PlayoffBracket : JsObj (List PlayoffSeriesJson)
  PlayoffGames : List GameJson
  attributes : List (String × String)
  deriving DecidableEq, Repr

/-- A record of a week's `Primary` list. `Team2` is `none` when the list of
teams ran out. -/
structure PrimaryCodesJson where
  Team1 : String
  Team2 : Option String
  Codes : List String
  deriving DecidableEq, Repr

/-- A value of `Codes.Weeks`. -/
structure WeekCodesJson where
  Timestamp : Nat
  Primary : List PrimaryCodesJson
  Backups : List String
  deriving DecidableEq, Repr

/-- The `Codes` property of a season document. -/
structure SeasonCodes where
  RiotTournamentId : Option Nat
  Weeks : Option (JsObj WeekCodesJson)
  deriving DecidableEq, Repr

/-- An item of the Season table, stored under its `SeasonPId`. A property is
`none` when the item lacks it; `attributes` is every property not named
here. -/
structure SeasonDbObject where
  Roster : Option SeasonRoster
  attributes : List (String × String)
  SeasonShortName : Option String := none
  Information : Option SeasonInformation := none
  Regular : Option SeasonRegular := none
  Playoffs : Option SeasonPlayoffs := none
  Codes : Option SeasonCodes := none
  deriving DecidableEq, Repr

/-- The object literal `{}` stored for a new player. -/
def PlayerJson.empty : PlayerJson :=
  { ProfileName := none, ProfileHId := none, attributes := [] }

/-- The object literal `{ Players: {} }` stored for a new team. -/
def TeamJson.empty : TeamJson :=
  { Players := some [], TeamName := none, TeamHId := none, attributes := [] }

/-- What an operation on a season does to the document store and the cache,
in the words of its call. -/
inductive SeasonEffect where
  | dynamoDbGetItem (seasonId : Nat)
  | dynamoDbPutItem (seasonId : Nat) (item : SeasonDbObject)
  | dynamoDbScanTable (filterValue : String)
  | cacheGet (key : String)
  | cacheSet (key : String) (value : String)
  | cacheDel (key : String)
  deriving DecidableEq, Repr

/-- The Season table of the document store (items by `SeasonPId`), the cache
(text by key) and the log of effects in the order made. -/
structure SeasonWorld where
  Season : List (Nat × SeasonDbObject)
  cache : JsObj String
  effects : List SeasonEffect
  deriving DecidableEq, Repr

/-- Call `dynamoDbGetItem(DYNAMODB_TABLENAMES.SEASON, seasonId)`; `none` when
the table has no such item. -/
def seasonGetItem (table : List (Nat × SeasonDbObject)) (seasonId : Nat) :
    Option SeasonDbObject :=
  match table with
  | [] => none
  | (k, v) :: rest => if k = seasonId then some v else seasonGetItem rest seasonId

/-- Call `dynamoDbPutItem(DYNAMODB_TABLENAMES.SEASON, item, seasonId)`: the item
replaces the one stored under the key. -/
def seasonPutItem (table : List (Nat × SeasonDbObject)) (seasonId : Nat)
    (item : SeasonDbObject) : List (Nat × SeasonDbObject) :=
  match table with
  | [] => [(seasonId, item)]
  | (k, v) :: rest =>
    if k = seasonId then (seasonId, item) :: rest else (k, v) :: seasonPutItem rest seasonId item

/-- The awaited calls of the season operations that can fail. -/
inductive SeasonCall where
  | dynamoDbGetItem
  | dynamoDbPutItem
  | dynamoDbScanTable
  | cacheGet
  deriving DecidableEq, Repr

/-- The collaborators of the season operations: the two hash functions and the
two name lookups of the entity resolver, the key prefix
`CACHE_KEYS.SEASON_ROSTER_PREFIX`, the text form of a roster
(`JSON.stringify`, `JSON.parse`), and for each call the error it gives, if it
fails. -/
structure SeasonEnv where
  getTeamHashId : String → String
  getProfileHashId : String → String
  getTeamName : String → Option String
  getProfileName : String → Option String
  SEASON_ROSTER_PREFIX : String
  jsonStringify : SeasonRoster → String
  jsonParse : String → SeasonRoster
  fault : SeasonCall → Option JsError

/-- The cache key of the roster view of a season. -/
def rosterCacheKey (env : SeasonEnv) (seasonId : Nat) : String :=
  env.SEASON_ROSTER_PREFIX ++ toString seasonId

/-- Append to the log of effects. -/
def SeasonWorld.log (w : SeasonWorld) (e : SeasonEffect) : SeasonWorld :=
  { w with effects := w.effects ++ [e] }

/-- Call `cache.del(key)`. -/
def SeasonWorld.cacheDel (w : SeasonWorld) (key : String) : SeasonWorld :=
  { w with cache := w.cache.del key, effects := w.effects ++ [SeasonEffect.cacheDel key] }

/-- Call `cache.set(key, value, 'EX', ttl)`; expiry is not modelled. -/
def SeasonWorld.cacheSet (w : SeasonWorld) (key value : String) : SeasonWorld :=
  { w with cache := w.cache.set key value,
           effects := w.effects ++ [SeasonEffect.cacheSet key value] }

/-- A successful `dynamoDbPutItem` on the Season table. -/
def SeasonWorld.putItem (w : SeasonWorld) (seasonId : Nat) (item : SeasonDbObject) :
    SeasonWorld :=
  { w with Season := seasonPutItem w.Season seasonId item,
           effects := w.effects ++ [SeasonEffect.dynamoDbPutItem seasonId item] }

/-- The enrichment loops of `getSeasonRosterById`: every team gets `TeamName`
and `TeamHId`, every player `ProfileName` and `ProfileHId`. -/
def enrichRoster (env : SeasonEnv) (seasonRosterJson : SeasonRoster) : SeasonRoster :=
  { seasonRosterJson with
    Teams := seasonRosterJson.Teams.map (fun teams =>
      teams.map (fun (entry : String × TeamJson) =>
        (entry.1,
          { entry.2 with
            TeamName := env.getTeamName entry.1,
            TeamHId := some entry.1,
            Players := entry.2.Players.map (fun players =>
              players.map (fun (pe : String × PlayerJson) =>
                (pe.1, { pe.2 with ProfileName := env.getProfileName pe.1,
                                   ProfileHId := some pe.1 }))) }))) }

/-- The function `getSeasonRosterById(seasonId)`: `none` is the `null` it
resolves with when the season or its `Roster` is missing. -/
def getSeasonRosterById (env : SeasonEnv) (seasonId : Nat) (w : SeasonWorld) :
    Outcome (Option SeasonRoster) × SeasonWorld :=
  let cacheKey := rosterCacheKey env seasonId
  let w0 := w.log (SeasonEffect.cacheGet cacheKey)
  match env.fault SeasonCall.cacheGet with
  | some err => (Outcome.rejected err, w0)
  | none =>
  if truthy (w0.cache.get cacheKey) = true then
    (Outcome.resolved (some (env.jsonParse ((w0.cache.get cacheKey).getD ""))), w0)
  else
  let w1 := w0.log (SeasonEffect.dynamoDbGetItem seasonId)
  match env.fault SeasonCall.dynamoDbGetItem with
  | some err => (Outcome.rejected err, w1)
  | none =>
  match seasonGetItem w1.Season seasonId with
  | none => (Outcome.resolved none, w1)
  | some seasonJson =>
  match seasonJson.Roster with
  | none => (Outcome.resolved none, w1)
  | some seasonRosterJson =>
    let enriched := enrichRoster env seasonRosterJson
    (Outcome.resolved (some enriched), w1.cacheSet cacheKey (env.jsonStringify enriched))

/-- What `putSeasonRosterTeams` resolves with. -/
inductive PutTeamsResult where
  | errorList (errorList : List String)
  | done (SeasonId : Nat) (SeasonRoster : Option SeasonRoster)
  deriving DecidableEq, Repr

def msgTeamAlreadyInRoster (teamName : Option String) : String :=
  render teamName ++ " - Team already in the season Roster."

/-- The loop of `putSeasonRosterTeams` over the ids not yet visited, on the
in-memory `seasonObject.Roster` and `errorList`. Reading `Teams` of a missing
roster, or testing `in` on a missing `Teams`, throws. -/
def putSeasonRosterTeamsLoop (env : SeasonEnv) :
    (rest : List String) → (seasonRosterObject : Option SeasonRoster) →
    (errorList : List String) → Except JsError (Option SeasonRoster × List String)
  | [], seasonRosterObject, errorList => Except.ok (seasonRosterObject, errorList)
  | _ :: _, none, _ => Except.error (JsError.typeError "seasonRosterObject.Teams")
  | teamPId :: rest, some roster, errorList =>
    let teamHId := env.getTeamHashId teamPId
    match roster.Teams with
    | none => Except.error (JsError.typeError "teamHId in seasonRosterObject.Teams")
    | some teams =>
      if teams.has teamHId = true then
        putSeasonRosterTeamsLoop env rest (some roster)
          (errorList ++ [msgTeamAlreadyInRoster (env.getTeamName teamHId)])
      else
        putSeasonRosterTeamsLoop env rest
          (some { roster with Teams := some (teams.set teamHId TeamJson.empty) }) errorList

/-- The function `putSeasonRosterTeams(seasonId, teamPIdList)`. -/
def putSeasonRosterTeams (env : SeasonEnv) (seasonId : Nat) (teamPIdList : List String)
    (w : SeasonWorld) : Outcome PutTeamsResult × SeasonWorld :=
  let w0 := w.log (SeasonEffect.dynamoDbGetItem seasonId)
  match env.fault SeasonCall.dynamoDbGetItem with
  | some err => (Outcome.rejected err, w0)
  | none =>
  match seasonGetItem w0.Season seasonId with
  | none => (Outcome.rejected (JsError.typeError "seasonObject.Roster"), w0)
  | some seasonObject =>
  match putSeasonRosterTeamsLoop env teamPIdList seasonObject.Roster [] with
  | Except.error err => (Outcome.rejected err, w0)
  | Except.ok (seasonRosterObject, errorList) =>
    if errorList.length > 0 then
      (Outcome.resolved (PutTeamsResult.errorList errorList), w0)
    else
      let w1 := w0.cacheDel (rosterCacheKey env seasonId)
      match env.fault SeasonCall.dynamoDbPutItem with
      | some err => (Outcome.rejected err, w1)
      | none =>
        (Outcome.resolved (PutTeamsResult.done seasonId seasonRosterObject),
          w1.putItem seasonId { seasonObject with Roster := seasonRosterObject })

/-- What `addProfilesToRoster` and `removeProfileFromRoster` resolve with: the
object with `errorList` (a text in `addProfilesToRoster`, a list in its
branch on a non-empty `errorList`), the object with `error`, or the summary
whose `SeasonRoster` maps the team hash id to its `Players`. -/
inductive RosterProfilesResult where
  | errorListText (errorList : String)
  | errorList (errorList : List String)
  | error (error : String)
  | done (SeasonId : Nat) (TeamName : Option String) (Profiles : List String)
      (teamHId : String) (rosterPlayersDbObject : Option (JsObj PlayerJson))
  deriving DecidableEq, Repr

def msgTeamNotInRoster (teamName : Option String) : String :=
  render teamName ++ " - Team is not in the Season Roster"

def msgProfileAlreadyInTeam (profileName : Option String) : String :=
  render profileName ++ " - Profile is already in the Team."

def msgProfileAdded (profileName : Option String) : String :=
  render profileName ++ " - Profile added to the Team."

def msgProfileRemoved (profileName : Option String) : String :=
  render profileName ++ " - Profile removed from Team"

def msgProfileNotFound (profileName : Option String) : String :=
  render profileName ++ " - Profile not found in Team"

/-- The season document with the `Players` of one team and the `Profiles`
mapping as the loops left them: both are objects nested in the document the
operation then writes. -/
def SeasonDbObject.withTeamPlayers (seasonDbObject : SeasonDbObject) (roster : SeasonRoster)
    (teams : JsObj TeamJson) (teamHId : String) (team : TeamJson)
    (players : Option (JsObj PlayerJson)) (profiles : Option (JsObj ProfileJson)) :
    SeasonDbObject :=
  { seasonDbObject with
    Roster := some { roster with
      Teams := some (teams.set teamHId { team with Players := players }),
      Profiles := profiles } }

/-- The loop of `addProfilesToRoster` over the ids not yet visited, on the
team's `Players`, the roster's `Profiles` and `profileMessages`. Assigning a
property of a missing mapping throws. -/
def addProfilesLoop (env : SeasonEnv) (teamHId : String) :
    (rest : List String) → (rosterPlayersDbObject : Option (JsObj PlayerJson)) →
    (rosterProfilesDbObject : Option (JsObj ProfileJson)) → (profileMessages : List String) →
    Except JsError (Option (JsObj PlayerJson) × Option (JsObj ProfileJson) × List String)
  | [], players, profiles, profileMessages => Except.ok (players, profiles, profileMessages)
  | profilePId :: rest, players, profiles, profileMessages =>
    let profileHId := env.getProfileHashId profilePId
    let profileName := env.getProfileName profileHId
    match players with
    | none => Except.error (JsError.typeError "rosterPlayersDbObject[profileHId]")
    | some ps =>
      if ps.has profileHId = true then
        addProfilesLoop env teamHId rest players profiles
          (profileMessages ++ [msgProfileAlreadyInTeam profileName])
      else
        match profiles with
        | none => Except.error (JsError.typeError "rosterProfilesDbObject[profileHId]")
        | some pf =>
          addProfilesLoop env teamHId rest (some (ps.set profileHId PlayerJson.empty))
            (some (pf.set profileHId { MostRecentTeamHId := teamHId }))
            (profileMessages ++ [msgProfileAdded profileName])

/-- The function `addProfilesToRoster(seasonId, teamPId, profilePIdList)`. The
test `teamHId in rosterTeamDbObject` and the read `rosterTeamDbObject[teamHId]`
are the one lookup `teams.get teamHId`. Its `errorList` stays empty, so the
branch on its length always takes the write. -/
def addProfilesToRoster (env : SeasonEnv) (seasonId : Nat) (teamPId : String)
    (profilePIdList : List String) (w : SeasonWorld) :
    Outcome RosterProfilesResult × SeasonWorld :=
  let w0 := w.log (SeasonEffect.dynamoDbGetItem seasonId)
  match env.fault SeasonCall.dynamoDbGetItem with
  | some err => (Outcome.rejected err, w0)
  | none =>
  match seasonGetItem w0.Season seasonId with
  | none => (Outcome.rejected (JsError.typeError "seasonDbObject.Roster"), w0)
  | some seasonDbObject =>
  let errorList : List String := []
  match seasonDbObject.Roster with
  | none => (Outcome.rejected (JsError.typeError "seasonDbObject.Roster.Teams"), w0)
  | some roster =>
  let teamHId := env.getTeamHashId teamPId
  let teamName := env.getTeamName teamHId
  match roster.Teams with
  | none => (Outcome.rejected (JsError.typeError "teamHId in rosterTeamDbObject"), w0)
  | some teams =>
  match teams.get teamHId with
  | none => (Outcome.resolved (RosterProfilesResult.errorListText (msgTeamNotInRoster teamName)), w0)
  | some team =>
  match addProfilesLoop env teamHId profilePIdList team.Players roster.Profiles [] with
  | Except.error err => (Outcome.rejected err, w0)
  | Except.ok (players, profiles, profileMessages) =>
    if errorList.length > 0 then
      (Outcome.resolved (RosterProfilesResult.errorList errorList), w0)
    else
      let w1 := w0.cacheDel (rosterCacheKey env seasonId)
      match env.fault SeasonCall.dynamoDbPutItem with
      | some err => (Outcome.rejected err, w1)
      | none =>
        (Outcome.resolved
          (RosterProfilesResult.done seasonId teamName profileMessages teamHId players),
          w1.putItem seasonId
            (seasonDbObject.withTeamPlayers roster teams teamHId team players profiles))

/-- The loop of `removeProfileFromRoster` over the ids not yet visited, on the
team's `Players` and `profileMessages`. Testing `in` on a missing mapping
throws. -/
def removeProfilesLoop (env : SeasonEnv) :
    (rest : List String) → (rosterPlayersDbObject : Option (JsObj PlayerJson)) →
    (profileMessages : List String) →
    Except JsError (Option (JsObj PlayerJson) × List String)
  | [], players, profileMessages => Except.ok (players, profileMessages)
  | profilePId :: rest, players, profileMessages =>
    let profileHId := env.getProfileHashId profilePId
    let profileName := env.getProfileName profileHId
    match players with
    | none => Except.error (JsError.typeError "profileHId in rosterPlayersDbObject")
    | some ps =>
      if ps.has profileHId = true then
        removeProfilesLoop env rest (some (ps.del profileHId))
          (profileMessages ++ [msgProfileRemoved profileName])
      else
        removeProfilesLoop env rest players
          (profileMessages ++ [msgProfileNotFound profileName])

/-- The function `removeProfileFromRoster(seasonId, teamPId, profilePIdList)`; the
test `teamHId in rosterTeamDbObject` and the read of the team are the one
lookup `teams.get teamHId`. -/
def removeProfileFromRoster (env : SeasonEnv) (seasonId : Nat) (teamPId : String)
    (profilePIdList : List String) (w : SeasonWorld) :
    Outcome RosterProfilesResult × SeasonWorld :=
  let w0 := w.log (SeasonEffect.dynamoDbGetItem seasonId)
  match env.fault SeasonCall.dynamoDbGetItem with
  | some err => (Outcome.rejected err, w0)
  | none =>
  match seasonGetItem w0.Season seasonId with
  | none => (Outcome.rejected (JsError.typeError "'Roster' in seasonDbObject"), w0)
  | some seasonDbObject =>
  match seasonDbObject.Roster with
  | none =>
    (Outcome.resolved (RosterProfilesResult.error "Season Object does not have Roster."), w0)
  | some roster =>
  match roster.Teams with
  | none =>
    (Outcome.resolved (RosterProfilesResult.error "Season Object does not have Roster."), w0)
  | some teams =>
  let teamHId := env.getTeamHashId teamPId
  let teamName := env.getTeamName teamHId
  match teams.get teamHId with
  | none => (Outcome.resolved (RosterProfilesResult.error (msgTeamNotInRoster teamName)), w0)
  | some team =>
  match removeProfilesLoop env profilePIdList team.Players [] with
  | Except.error err => (Outcome.rejected err, w0)
  | Except.ok (players, profileMessages) =>
    let w1 := w0.cacheDel (rosterCacheKey env seasonId)
    match env.fault SeasonCall.dynamoDbPutItem with
    | some err => (Outcome.rejected err, w1)
    | none =>
      (Outcome.resolved
        (RosterProfilesResult.done seasonId teamName profileMessages teamHId players),
        w1.putItem seasonId
          (seasonDbObject.withTeamPlayers roster teams teamHId team players roster.Profiles))

/-- The `Players` mapping of a team in the season document the store holds. -/
def storedPlayers (w : SeasonWorld) (seasonId : Nat) (teamHId : String) :
    Option (JsObj PlayerJson) :=
  match seasonGetItem w.Season seasonId with
  | none => none
  | some seasonDbObject =>
    match seasonDbObject.Roster with
    | none => none
    | some roster =>
      match roster.Teams with
      | none => none
      | some teams =>
        match teams.get teamHId with
        | none => none
        | some team => team.Players

/-- The roster invariant on a season document: a profile hash id is a key of
the `Players` mapping of at most one team. -/
def RosterInvariant (seasonDbObject : SeasonDbObject) : Prop :=
  ∀ (roster : SeasonRoster) (teams : JsObj TeamJson) (t1 t2 : String) (team1 team2 : TeamJson)
    (ps1 ps2 : JsObj PlayerJson) (p : String),
    seasonDbObject.Roster = some roster → roster.Teams = some teams → t1 ≠ t2 →
    teams.get t1 = some team1 → teams.get t2 = some team2 →
    team1.Players = some ps1 → team2.Players = some ps2 →
    ps1.has p = true → ps2.has p = false

/-- The roster view computed from the season document the store holds: what
`getSeasonRosterById` resolves with when the cache has no entry. -/
def storedRosterView (env : SeasonEnv) (w : SeasonWorld) (seasonId : Nat) :
    Option SeasonRoster :=
  match seasonGetItem w.Season seasonId with
  | none => none
  | some seasonJson => seasonJson.Roster.map (enrichRoster env)

/-! ### The roster rules as the specification words them -/

/-- The message `putSeasonRosterTeams` gives the id at index `i` by the rule: it
is reported when its hash id is a key of `Roster.Teams` by then, that is, a key
of the loaded mapping or the hash id of an earlier id of the list. -/
def teamMessageSpec (env : SeasonEnv) (teams : JsObj TeamJson) (teamPIdList : List String)
    (i : Nat) : Option String :=
  match teamPIdList.get? i with
  | none => none
  | some teamPId =>
    if teams.has (env.getTeamHashId teamPId) = true ∨
        env.getTeamHashId teamPId ∈ (teamPIdList.take i).map env.getTeamHashId then
      some (msgTeamAlreadyInRoster (env.getTeamName (env.getTeamHashId teamPId)))
    else none

/-- The messages of `putSeasonRosterTeams` by the rule, in index order. -/
def teamErrorsSpec (env : SeasonEnv) (teams : JsObj TeamJson) (teamPIdList : List String) :
    List String :=
  (List.range teamPIdList.length).filterMap (teamMessageSpec env teams teamPIdList)

/-- The `Roster.Teams` mapping after `putSeasonRosterTeams` by the rule, key by
key: a team already there is unchanged, the hash id of a listed id that was
not there maps to a team with empty `Players`, any other key is absent. -/
def teamsAfterSpec (env : SeasonEnv) (teams : JsObj TeamJson) (teamPIdList : List String)
    (teamHId : String) : Option TeamJson :=
  if teams.has teamHId = true then teams.get teamHId
  else if teamHId ∈ teamPIdList.map env.getTeamHashId then some TeamJson.empty
  else none

/-! ### Concrete season -/

/-- Hash ids are the id prefixed with `h`, names the hash id prefixed with a
label; no call fails. -/
def demoSeasonEnv : SeasonEnv :=
  { getTeamHashId := fun p => "h" ++ p,
    getProfileHashId := fun p => "h" ++ p,
    getTeamName := fun h => some ("Team " ++ h),
    getProfileName := fun h => some ("Player " ++ h),
    SEASON_ROSTER_PREFIX := "snRoster-",
    jsonStringify := fun r => if r.Teams.isSome then "with teams" else "without teams",
    jsonParse := fun _ => { Teams := none, Profiles := none, attributes := [] },
    fault := fun _ => none }

/-- A roster with team `hA` (player `hp1`) and team `hB` (no player). -/
def demoRoster : SeasonRoster :=
  { Teams := some [("hA", { Players := some [("hp1", PlayerJson.empty)],
                            TeamName := none, TeamHId := none, attributes := [] }),
                   ("hB", TeamJson.empty)],
    Profiles := some [("hp1", { MostRecentTeamHId := "hA" })],
    attributes := [] }

/-- Season 7 with `demoRoster`, and a cached roster view of season 7. -/
def demoSeasonWorld : SeasonWorld :=
  { Season := [(7, { Roster := some demoRoster,
                     attributes := [], SeasonShortName := some "w2020pl" })],
    cache := [("snRoster-7", "stale view")],
    effects := [] }

/-- The roster invariant of the season document the store holds under the id. -/
def StoredInvariant (w : SeasonWorld) (seasonId : Nat) : Prop :=
  ∀ doc, seasonGetItem w.Season seasonId = some doc → RosterInvariant doc

/-- A computable test that implies the roster invariant: for every two distinct
keys of `Roster.Teams`, no key of the one team's `Players` is a key of the
other's. -/
def rosterInvariantCheck (seasonDbObject : SeasonDbObject) : Bool :=
  match seasonDbObject.Roster with
  | none => true
  | some roster =>
    match roster.Teams with
    | none => true
    | some teams =>
      teams.keys.all (fun t1 => teams.keys.all (fun t2 =>
        decide (t1 = t2) ||
          (match teams.get t1, teams.get t2 with
           | some team1, some team2 =>
             (match team1.Players, team2.Players with
              | some ps1, some ps2 => ps1.keys.all (fun p => !ps2.has p)
              | _, _ => true)
           | _, _ => true)))

/-- The state a roster mutation leaves when it has written: after the read is
logged, the roster cache entry of the season is deleted and the item is put. -/
def writtenWorld (env : SeasonEnv) (seasonId : Nat) (w : SeasonWorld) (item : SeasonDbObject) :
    SeasonWorld :=
  ((w.log (SeasonEffect.dynamoDbGetItem seasonId)).cacheDel
    (rosterCacheKey env seasonId)).putItem seasonId item

/-- After a roster mutation that wrote: the cache has no entry under the roster
key of the season, the store holds the item the mutation put, and
`getSeasonRosterById` resolves with the view computed from that item. -/
def ReadsWrittenRoster (env : SeasonEnv) (seasonId : Nat) (w' : SeasonWorld) : Prop :=
  w'.cache.has (rosterCacheKey env seasonId) = false ∧
  ∃ item, SeasonEffect.dynamoDbPutItem seasonId item ∈ w'.effects ∧
    seasonGetItem w'.Season seasonId = some item ∧
    (getSeasonRosterById env seasonId w').1 =
      Outcome.resolved (item.Roster.map (enrichRoster env))

/-! ### Order of write and invalidation -/

/-- In the log, a put of the season document comes before a deletion of the
cache key. -/
def WriteBeforeInvalidate (seasonId : Nat) (key : String) (effects : List SeasonEffect) :
    Prop :=
  ∃ (i j : Nat) (item : SeasonDbObject), i < j ∧
    effects.get? i = some (SeasonEffect.dynamoDbPutItem seasonId item) ∧
    effects.get? j = some (SeasonEffect.cacheDel key)

/-- In the log, a deletion of the cache key comes before a put of the season
document. -/
def InvalidateBeforeWrite (seasonId : Nat) (key : String) (effects : List SeasonEffect) :
    Prop :=
  ∃ (i j : Nat) (item : SeasonDbObject), i < j ∧
    effects.get? i = some (SeasonEffect.cacheDel key) ∧
    effects.get? j = some (SeasonEffect.dynamoDbPutItem seasonId item)

/-! ### The write-back of profile ids -/

/-- The players of one side as `checkProfiles` leaves them, without the
accumulators of messages and roles: a player gets the id its name resolves to
when the id is truthy and not among the ids accepted before it, and is left
as it was otherwise. -/
def annotateFrom (env : ValidationEnv) :
    (accepted : List (Option String)) → List PlayerObject → List PlayerObject
  | _, [] => []
  | accepted, playerObject :: rest =>
    let profilePId := env.getProfilePIdByName playerObject.ProfileName
    if truthy profilePId = true ∧ ¬ (profilePId ∈ accepted) then
      { playerObject with ProfilePId := profilePId } ::
        annotateFrom env (accepted ++ [profilePId]) rest
    else
      playerObject :: annotateFrom env accepted rest

/-- The profile ids the names of the players before index `i` resolve to. -/
def earlierProfilePIds (env : ValidationEnv) (playerList : List PlayerObject) (i : Nat) :
    List (Option String) :=
  (playerList.take i).map (fun q => env.getProfilePIdByName q.ProfileName)

/-- A setup in which both Blue players are named ann. -/
def demoSetupTwiceAnn : SetupTeams :=
  { BlueTeam := { TeamName := "Alpha", Bans := [1],
                  Players := [{ ProfileName := "ann", Role := some "Top", ProfilePId := none },
                              { ProfileName := "ann", Role := some "Mid", ProfilePId := none }],
                  TeamPId := none },
    RedTeam := { TeamName := "Beta", Bans := [2],
                 Players := [{ ProfileName := "", Role := some "Top", ProfilePId := none }],
                 TeamPId := none } }

/-! ## Read accessors of a season (`seasonData.js`) -/

/-- Function `parseInt` on the text of a cache entry: the number its leading
decimal digits spell, `none` (NaN) when it starts with none. Sign and leading
blanks are not modelled. -/
def parseInt (data : String) : Option Nat :=
  match data.data.takeWhile Char.isDigit with
  | [] => none
  | ds => some (ds.foldl (fun acc c => acc * 10 + (c.toNat - 48)) 0)

/-- The collaborators of the read accessors, over those of the roster
operations: `filterName`, the lookup of a tournament's short name, what the
two name lookups give for an id that is `undefined`, the key prefixes of
`CACHE_KEYS`, and the text forms (`JSON.stringify`, `JSON.parse`) of the
three other views. -/
structure AccessorEnv extends SeasonEnv where
  filterName : String → String
  getTournamentShortName : Nat → Option String
  teamNameOfUndefined : Option String
  profileNameOfUndefined : Option String
  SEASON_ID_PREFIX : String
  SEASON_CODE_PREFIX : String
  SEASON_NAME_PREFIX : String
  SEASON_TIME_PREFIX : String
  SEASON_TAB_PREFIX : String
  SEASON_INFO_PREFIX : String
  SEASON_REGULAR_PREFIX : String
  SEASON_PLAYOFF_PREFIX : String
  infoStringify : SeasonInformation → String
  infoParse : String → SeasonInformation
  regularStringify : SeasonRegular → String
  regularParse : String → SeasonRegular
  playoffsStringify : SeasonPlayoffs → String
  playoffsParse : String → SeasonPlayoffs

/-- Call `getTeamName(id)` on a property that may be missing. -/
def AccessorEnv.teamNameOf (env : AccessorEnv) : Option String → Option String
  | some teamHId => env.getTeamName teamHId
  | none => env.teamNameOfUndefined

/-- Call `getProfileName(id)` on a property that may be missing. -/
def AccessorEnv.profileNameOf (env : AccessorEnv) : Option String → Option String
  | some profileHId => env.getProfileName profileHId
  | none => env.profileNameOfUndefined

/-- What the body of an accessor does on a cache miss, once it has the answer
of the document store: it resolves with `null` and caches nothing, or it
calls `cache.set(cacheKey, text)` and resolves with the value. -/
inductive Loaded (α : Type) where
  | null
  | cached (value : α) (text : String)
  deriving DecidableEq, Repr

/-- The shape the read accessors share. `cache.get(cacheKey, ...)`: an error
rejects; data that passes the accessor's test (`isHit`) is decoded and
resolved with; otherwise the document store is read (`read`, failing as
`readCall` does) and `load` is the rest of the body on what the store holds:
it throws or rejects, or ends as `Loaded` says. `none` is the `null` the
accessor resolves with. -/
def cacheAside {α : Type} (env : SeasonEnv) (cacheKey : String)
    (isHit : Option String → Bool) (decode : String → α)
    (read : SeasonEffect) (readCall : SeasonCall)
    (load : List (Nat × SeasonDbObject) → Outcome (Loaded α))
    (w : SeasonWorld) : Outcome (Option α) × SeasonWorld :=
  let w0 := w.log (SeasonEffect.cacheGet cacheKey)
  match env.fault SeasonCall.cacheGet with
  | some err => (Outcome.rejected err, w0)
  | none =>
  if isHit (w0.cache.get cacheKey) = true then
    (Outcome.resolved (some (decode ((w0.cache.get cacheKey).getD ""))), w0)
  else
  let w1 := w0.log read
  match env.fault readCall with
  | some err => (Outcome.rejected err, w1)
  | none =>
  match load w1.Season with
  | Outcome.rejected err => (Outcome.rejected err, w1)
  | Outcome.resolved Loaded.null => (Outcome.resolved none, w1)
  | Outcome.resolved (Loaded.cached value text) =>
    (Outcome.resolved (some value), w1.cacheSet cacheKey text)

/-- The test `data != null` of `getSeasonPlayoffs`. -/
def notNull : Option String → Bool
  | some _ => true
  | none => false

/-- The scan `dynamoDbScanTable(SEASON, ['SeasonPId'], 'SeasonShortName', name)`:
the ids of the items with that short name, in table order. -/
def scanSeasonIds (table : List (Nat × SeasonDbObject)) (simpleName : String) : List Nat :=
  (table.filter (fun e => decide (e.2.SeasonShortName = some simpleName))).map Prod.fst

/-- The body of `getSeasonId` after the scan: an empty answer is `null`, else
the first id is cached (as its decimal text) and resolved with. -/
def loadSeasonId (simpleName : String) (table : List (Nat × SeasonDbObject)) :
    Outcome (Loaded (Option Nat)) :=
  match scanSeasonIds table simpleName with
  | [] => Outcome.resolved Loaded.null
  | Id :: _ => Outcome.resolved (Loaded.cached (some Id) (toString Id))

/-- The function `getSeasonId(shortName)`. The value is a number, `some none`
standing for the NaN `parseInt` can give on a cached text. -/
def getSeasonId (env : AccessorEnv) (shortName : String) (w : SeasonWorld) :
    Outcome (Option (Option Nat)) × SeasonWorld :=
  let simpleName := env.filterName shortName
  cacheAside env.toSeasonEnv (env.SEASON_ID_PREFIX ++ simpleName) truthy parseInt
    (SeasonEffect.dynamoDbScanTable simpleName) SeasonCall.dynamoDbScanTable
    (loadSeasonId simpleName) w

/-- The body of `getSeasonShortName` on the item read: the property is read
off the item without a test, so a missing item throws; a falsy short name is
`null`. -/
def loadSeasonShortName (obj : Option SeasonDbObject) : Outcome (Loaded String) :=
  match obj with
  | none => Outcome.rejected (JsError.typeError "obj['SeasonShortName']")
  | some o =>
    if ¬ (truthy o.SeasonShortName = true) then Outcome.resolved Loaded.null
    else Outcome.resolved (Loaded.cached (o.SeasonShortName.getD "") (o.SeasonShortName.getD ""))

/-- The function `getSeasonShortName(seasonId)`. -/
def getSeasonShortName (env : AccessorEnv) (seasonId : Nat) (w : SeasonWorld) :
    Outcome (Option String) × SeasonWorld :=
  cacheAside env.toSeasonEnv (env.SEASON_CODE_PREFIX ++ toString seasonId) truthy id
    (SeasonEffect.dynamoDbGetItem seasonId) SeasonCall.dynamoDbGetItem
    (fun table => loadSeasonShortName (seasonGetItem table seasonId)) w

/-- The body shared by `getSeasonName`, `getSeasonTime` and `getSeasonTabName`
on the item read: a missing item is `null`; the text is read off
`obj['Information']`, which throws when the item has none. -/
def loadInformationText (field : SeasonInformation → String) (obj : Option SeasonDbObject) :
    Outcome (Loaded String) :=
  match obj with
  | none => Outcome.resolved Loaded.null
  | some o =>
    match o.Information with
    | none => Outcome.rejected (JsError.typeError "obj['Information']")
    | some info => Outcome.resolved (Loaded.cached (field info) (field info))

/-- The function `getSeasonName(seasonId)`. -/
def getSeasonName (env : AccessorEnv) (seasonId : Nat) (w : SeasonWorld) :
    Outcome (Option String) × SeasonWorld :=
  cacheAside env.toSeasonEnv (env.SEASON_NAME_PREFIX ++ toString seasonId) truthy id
    (SeasonEffect.dynamoDbGetItem seasonId) SeasonCall.dynamoDbGetItem
    (fun table => loadInformationText (fun info => info.SeasonName)
      (seasonGetItem table seasonId)) w

/-- The function `getSeasonTime(seasonId)`. -/
def getSeasonTime (env : AccessorEnv) (seasonId : Nat) (w : SeasonWorld) :
    Outcome (Option String) × SeasonWorld :=
  cacheAside env.toSeasonEnv (env.SEASON_TIME_PREFIX ++ toString seasonId) truthy id
    (SeasonEffect.dynamoDbGetItem seasonId) SeasonCall.dynamoDbGetItem
    (fun table => loadInformationText (fun info => info.SeasonTime)
      (seasonGetItem table seasonId)) w

/-- The function `getSeasonTabName(seasonId)`. -/
def getSeasonTabName (env : AccessorEnv) (seasonId : Nat) (w : SeasonWorld) :
    Outcome (Option String) × SeasonWorld :=
  cacheAside env.toSeasonEnv (env.SEASON_TAB_PREFIX ++ toString seasonId) truthy id
    (SeasonEffect.dynamoDbGetItem seasonId) SeasonCall.dynamoDbGetItem
    (fun table => loadInformationText (fun info => info.SeasonTabName)
      (seasonGetItem table seasonId)) w

/-- Truthiness of a number that may be missing: zero and `undefined` are
falsy. -/
def numberTruthy : Option Nat → Bool
  | some n => decide (n ≠ 0)
  | none => false

/-- The enrichment of `getSeasonInformation`: the short names of the two
tournaments whose ids are truthy, the team name of every final standing, the
name of the finals MVP and the five all-star names, each only when the
property it hangs on is there. -/
def enrichInformation (env : AccessorEnv) (seasonInfoJson : SeasonInformation) :
    SeasonInformation :=
  let ids := seasonInfoJson.TournamentPIds
  let ids1 : TournamentPIdsJson :=
    if numberTruthy ids.RegTournamentPId = true then
      { ids with RegTournamentShortName :=
          env.getTournamentShortName (ids.RegTournamentPId.getD 0) }
    else ids
  let ids2 : TournamentPIdsJson :=
    if numberTruthy ids1.PostTournamentPId = true then
      { ids1 with PostTournamentShortName :=
          env.getTournamentShortName (ids1.PostTournamentPId.getD 0) }
    else ids1
  { seasonInfoJson with
    TournamentPIds := ids2,
    FinalStandings := seasonInfoJson.FinalStandings.map (fun standings =>
      standings.map (fun teamObject =>
        { teamObject with TeamName := env.teamNameOf teamObject.TeamHId })),
    FinalsMvpName :=
      match seasonInfoJson.FinalsMvpHId with
      | some mvp => env.getProfileName mvp
      | none => seasonInfoJson.FinalsMvpName,
    AllStars := seasonInfoJson.AllStars.map (fun stars =>
      { stars with
        TopName := env.profileNameOf stars.TopHId,
        JungleName := env.profileNameOf stars.JungleHId,
        MidName := env.profileNameOf stars.MidHId,
        BotName := env.profileNameOf stars.BotHId,
        SupportName := env.profileNameOf stars.SupportHId }) }

/-- The body of `getSeasonInformation` on the item read: `Information` is read
off the item without a test, so a missing item throws; a missing
`Information` is `null`. -/
def loadSeasonInformation (env : AccessorEnv) (obj : Option SeasonDbObject) :
    Outcome (Loaded SeasonInformation) :=
  match obj with
  | none => Outcome.rejected (JsError.typeError "(await dynamoDbGetItem(..))['Information']")
  | some o =>
    match o.Information with
    | none => Outcome.resolved Loaded.null
    | some seasonInfoJson =>
      Outcome.resolved (Loaded.cached (enrichInformation env seasonInfoJson)
        (env.infoStringify (enrichInformation env seasonInfoJson)))

/-- The function `getSeasonInformation(seasonId)`. -/
def getSeasonInformation (env : AccessorEnv) (seasonId : Nat) (w : SeasonWorld) :
    Outcome (Option SeasonInformation) × SeasonWorld :=
  cacheAside env.toSeasonEnv (env.SEASON_INFO_PREFIX ++ toString seasonId) truthy env.infoParse
    (SeasonEffect.dynamoDbGetItem seasonId) SeasonCall.dynamoDbGetItem
    (fun table => loadSeasonInformation env (seasonGetItem table seasonId)) w

/-- The body of `getSeasonRosterById` on the item read. -/
def loadSeasonRoster (env : SeasonEnv) (obj : Option SeasonDbObject) :
    Outcome (Loaded SeasonRoster) :=
  match obj with
  | none => Outcome.resolved Loaded.null
  | some seasonJson =>
    match seasonJson.Roster with
    | none => Outcome.resolved Loaded.null
    | some seasonRosterJson =>
      Outcome.resolved (Loaded.cached (enrichRoster env seasonRosterJson)
        (env.jsonStringify (enrichRoster env seasonRosterJson)))

/-- The name loops of `getSeasonRegular` and `getSeasonPlayoffs` on one game;
`redId` is the property read for the red name. -/
def enrichGame (env : AccessorEnv) (redId : GameJson → Option String) (gameJson : GameJson) :
    GameJson :=
  { gameJson with
    BlueTeamName := env.teamNameOf gameJson.BlueTeamHId,
    RedTeamName := env.teamNameOf (redId gameJson),
    ModeratorName := env.profileNameOf gameJson.ModeratorHId,
    MvpName := env.profileNameOf gameJson.MvpHId }

/-- The enrichment of `getSeasonRegular`; the red name of a game is looked up
by the property `RedTeamHid`. -/
def enrichRegular (env : AccessorEnv) (seasonRegularJson : SeasonRegular) : SeasonRegular :=
  { seasonRegularJson with
    RegularSeasonDivisions := seasonRegularJson.RegularSeasonDivisions.map (fun divisionJson =>
      { divisionJson with
        RegularSeasonTeams := divisionJson.RegularSeasonTeams.map (fun teamJson =>
          { teamJson with TeamName := env.teamNameOf teamJson.TeamHId }) }),
    RegularSeasonGames :=
      seasonRegularJson.RegularSeasonGames.map (enrichGame env (fun g => g.RedTeamHid)) }

/-- The body of `getSeasonRegular` on the item read: `Regular` is read off the
item without a test, so a missing item throws; a missing `Regular` is
`null`. -/
def loadSeasonRegular (env : AccessorEnv) (obj : Option SeasonDbObject) :
    Outcome (Loaded SeasonRegular) :=
  match obj with
  | none => Outcome.rejected (JsError.typeError "(await dynamoDbGetItem(..))['Regular']")
  | some o =>
    match o.Regular with
    | none => Outcome.resolved Loaded.null
    | some seasonRegularJson =>
      Outcome.resolved (Loaded.cached (enrichRegular env seasonRegularJson)
        (env.regularStringify (enrichRegular env seasonRegularJson)))

/-- The function `getSeasonRegular(seasonId)`. -/
def getSeasonRegular (env : AccessorEnv) (seasonId : Nat) (w : SeasonWorld) :
    Outcome (Option SeasonRegular) × SeasonWorld :=
  cacheAside env.toSeasonEnv (env.SEASON_REGULAR_PREFIX ++ toString seasonId) truthy
    env.regularParse (SeasonEffect.dynamoDbGetItem seasonId) SeasonCall.dynamoDbGetItem
    (fun table => loadSeasonRegular env (seasonGetItem table seasonId)) w

/-- The enrichment of `getSeasonPlayoffs`; the three names of a series are
looked up with `getProfileName`, as the code does. -/
def enrichPlayoffs (env : AccessorEnv) (playoffJson : SeasonPlayoffs) : SeasonPlayoffs :=
  { playoffJson with
    PlayoffBracket := playoffJson.PlayoffBracket.map (fun round =>
      (round.1, round.2.map (fun seriesJson =>
        { seriesJson with
          HigherTeamName := env.profileNameOf seriesJson.HigherTeamHId,
          LowerTeamName := env.profileNameOf seriesJson.LowerTeamHId,
          SeriesMvpName := env.profileNameOf seriesJson.SeriesMvpHId }))),
    PlayoffGames := playoffJson.PlayoffGames.map (enrichGame env (fun g => g.RedTeamHId)) }

/-- The body of `getSeasonPlayoffs` on the item read: `Playoffs` is read off
the item without a test, so a missing item throws; a missing `Playoffs` is
`null`. -/
def loadSeasonPlayoffs (env : AccessorEnv) (obj : Option SeasonDbObject) :
    Outcome (Loaded SeasonPlayoffs) :=
  match obj with
  | none => Outcome.rejected (JsError.typeError "(await dynamoDbGetItem(..))['Playoffs']")
  | some o =>
    match o.Playoffs with
    | none => Outcome.resolved Loaded.null
    | some playoffJson =>
      Outcome.resolved (Loaded.cached (enrichPlayoffs env playoffJson)
        (env.playoffsStringify (enrichPlayoffs env playoffJson)))

/-- The function `getSeasonPlayoffs(seasonId)`; its cache test is
`data != null`. -/
def getSeasonPlayoffs (env : AccessorEnv) (seasonId : Nat) (w : SeasonWorld) :
    Outcome (Option SeasonPlayoffs) × SeasonWorld :=
  cacheAside env.toSeasonEnv (env.SEASON_PLAYOFF_PREFIX ++ toString seasonId) notNull
    env.playoffsParse (SeasonEffect.dynamoDbGetItem seasonId) SeasonCall.dynamoDbGetItem
    (fun table => loadSeasonPlayoffs env (seasonGetItem table seasonId)) w

/-- A second call of an accessor, on the state its first call left, gives the
result of the first. -/
def SameResultTwice {α : Type} (accessor : SeasonWorld → Outcome α × SeasonWorld)
    (w : SeasonWorld) : Prop :=
  (accessor (accessor w).2).1 = (accessor w).1

/-- A second call of an accessor, on the state its first call left, adds to the
log the lookup of the cache key and nothing else: it reads no document. -/
def SecondCallFromCache {α : Type} (accessor : SeasonWorld → Outcome α × SeasonWorld)
    (cacheKey : String) (w : SeasonWorld) : Prop :=
  (accessor (accessor w).2).2.effects = (accessor w).2.effects ++ [SeasonEffect.cacheGet cacheKey]

/-- The text form of the roster view of the stored season parses back to it. -/
def RosterTextParses (env : SeasonEnv) (w : SeasonWorld) (seasonId : Nat) : Prop :=
  ∀ doc r, seasonGetItem w.Season seasonId = some doc → doc.Roster = some r →
    env.jsonParse (env.jsonStringify (enrichRoster env r)) = enrichRoster env r

/-- The text form of the information view of the stored season parses back to
it. -/
def InformationTextParses (env : AccessorEnv) (w : SeasonWorld) (seasonId : Nat) : Prop :=
  ∀ doc x, seasonGetItem w.Season seasonId = some doc → doc.Information = some x →
    env.infoParse (env.infoStringify (enrichInformation env x)) = enrichInformation env x

/-- The text form of the regular-season view of the stored season parses back
to it. -/
def RegularTextParses (env : AccessorEnv) (w : SeasonWorld) (seasonId : Nat) : Prop :=
  ∀ doc x, seasonGetItem w.Season seasonId = some doc → doc.Regular = some x →
    env.regularParse (env.regularStringify (enrichRegular env x)) = enrichRegular env x

/-- The text form of the playoffs view of the stored season parses back to
it. -/
def PlayoffsTextParses (env : AccessorEnv) (w : SeasonWorld) (seasonId : Nat) : Prop :=
  ∀ doc x, seasonGetItem w.Season seasonId = some doc → doc.Playoffs = some x →
    env.playoffsParse (env.playoffsStringify (enrichPlayoffs env x)) = enrichPlayoffs env x

/-! ### Concrete season with its views -/

/-- The `Information` of season 3 as stored. -/
def demoInformation : SeasonInformation :=
  { Status := "Open", DateOpened := 1620000000, SeasonTabName := "Summer 2021 Guardians",
    Description := "Description here.", LeagueRank := "Diamond",
    SeasonName := "Summer 2021 Aegis Guardians League", LeagueType := "Guardians",
    SeasonShortName := "s2021agl", LeagueCode := "AGL",
    TournamentPIds := { RegTournamentPId := some 11, PostTournamentPId := some 12,
                        RegTournamentShortName := none, PostTournamentShortName := none },
    SeasonTime := "Summer 2021", FinalStandings := none, FinalsMvpHId := none,
    FinalsMvpName := none, AllStars := none }

/-- The `Information` of season 3 as `getSeasonInformation` returns it. -/
def demoInformationView : SeasonInformation :=
  { demoInformation with
    TournamentPIds := { RegTournamentPId := some 11, PostTournamentPId := some 12,
                        RegTournamentShortName := some "s2021aglreg",
                        PostTournamentShortName := some "s2021aglpost" } }

/-- The `Playoffs` of season 3: one final, no game yet. -/
def demoPlayoffs : SeasonPlayoffs :=
  { PlayoffBracket := [("Finals", [{ HigherTeamHId := some "hA", LowerTeamHId := some "hB",
                                     SeriesMvpHId := none, HigherTeamName := none,
                                     LowerTeamName := none, SeriesMvpName := none,
                                     attributes := [] }])],
    PlayoffGames := [], attributes := [] }

/-- The collaborators of the accessors over `demoSeasonEnv`; the text forms
parse back to the views of season 3. -/
def demoAccessorEnv : AccessorEnv :=
  { toSeasonEnv := demoSeasonEnv,
    filterName := fun n => n,
    getTournamentShortName := fun t =>
      if t = 11 then some "s2021aglreg" else if t = 12 then some "s2021aglpost" else none,
    teamNameOfUndefined := none,
    profileNameOfUndefined := none,
    SEASON_ID_PREFIX := "snId-",
    SEASON_CODE_PREFIX := "snCode-",
    SEASON_NAME_PREFIX := "snName-",
    SEASON_TIME_PREFIX := "snTime-",
    SEASON_TAB_PREFIX := "snTab-",
    SEASON_INFO_PREFIX := "snInfo-",
    SEASON_REGULAR_PREFIX := "snRegular-",
    SEASON_PLAYOFF_PREFIX := "snPlayoff-",
    infoStringify := fun x => "info of " ++ x.SeasonShortName,
    infoParse := fun _ => demoInformationView,
    regularStringify := fun _ => "regular",
    regularParse := fun _ => { RegularSeasonDivisions := [], RegularSeasonGames := [],
                               attributes := [] },
    playoffsStringify := fun _ => "playoffs",
    playoffsParse := fun _ =>
      { demoPlayoffs with
        PlayoffBracket := [("Finals", [{ HigherTeamHId := some "hA", LowerTeamHId := some "hB",
                                         SeriesMvpHId := none,
                                         HigherTeamName := some "Player hA",
                                         LowerTeamName := some "Player hB",
                                         SeriesMvpName := none, attributes := [] }])] } }

/-- Season 3, freshly set up: short name, `Information`, `Playoffs`, an empty
roster, no `Regular`; the cache is empty. -/
def demoFullSeasonWorld : SeasonWorld :=
  { Season := [(3, { Roster := some { Teams := some [], Profiles := some [], attributes := [] },
                     attributes := [], SeasonShortName := some "s2021agl",
                     Information := some demoInformation, Playoffs := some demoPlayoffs })],
    cache := [],
    effects := [] }

/-! ## Season creation and tournament codes (`createNewSeason`, `generateNewCodes`) -/

/-- The `Information` of an item of the Tournament table. -/
structure TournamentInformation where
  TournamentName : String
  TournamentType : String
  TournamentShortName : String
  TournamentTabName : String
  SeasonPId : Nat
  deriving DecidableEq, Repr

/-- An item of the Tournament table, stored under its `TournamentPId`. -/
structure TournamentDbObject where
  TournamentShortName : String
  Information : TournamentInformation
  deriving DecidableEq, Repr

/-- The arguments of one call
`generateTournamentCodes(week, tournamentId, seasonShortName, team1, team2, count)`;
`none` is a `null` or omitted argument. -/
structure CodesRequest where
  week : String
  riotTournamentId : Option Nat
  seasonShortName : Option String
  team1 : Option String
  team2 : Option String
  count : Option Nat
  deriving DecidableEq, Repr

/-- What `generateTournamentCodes` resolves with. -/
structure AwsResponse where
  data : List String
  timedOut : Nat
  deriving DecidableEq, Repr

/-- What `createNewSeason` and `generateNewCodes` do to the outside, in the
words of the call. A call of the code-generation API is logged with what it
answered, `none` when it failed. An item's `SeasonPId` or `TournamentPId` is
the key it is stored under. -/
inductive AdminEffect where
  | createTournamentId (seasonShortName : String)
  | scanSeason
  | scanTournament
  | putTournament (TournamentPId : Nat) (item : TournamentDbObject)
  | putSeason (SeasonPId : Nat) (item : SeasonDbObject)
  | getSeason (seasonId : Nat)
  | generateTournamentCodes (request : CodesRequest) (response : Option AwsResponse)
  | updateSeasonCodesWeeks (seasonId : Nat) (weeks : JsObj WeekCodesJson)
  deriving DecidableEq, Repr

/-- The two tables `createNewSeason` and `generateNewCodes` work on and the log
of their effects in the order made. -/
structure AdminWorld where
  Season : List (Nat × SeasonDbObject)
  Tournament : List (Nat × TournamentDbObject)
  effects : List AdminEffect
  deriving DecidableEq, Repr

/-- The awaited calls of `createNewSeason` and `generateNewCodes` that can fail,
by kind; the code-generation API fails as its own answer says. -/
inductive AdminCall where
  | createTournamentId
  | scanSeason
  | scanTournament
  | putTournament
  | putSeason
  | getSeason
  | updateSeason
  deriving DecidableEq, Repr

/-- The collaborators of `createNewSeason` and `generateNewCodes`: the id the
tournament API creates, the answer of the code-generation API to a request
given everything done before it, the clock (`Date.now()`, in milliseconds),
and for each other call the error it gives, if it fails. -/
structure AdminEnv where
  createTournamentId : String → Nat
  generateTournamentCodes : List AdminEffect → CodesRequest → Except JsError AwsResponse
  dateNow : Nat
  fault : AdminCall → Option JsError

/-- Append to the log of effects. -/
def AdminWorld.log (w : AdminWorld) (e : AdminEffect) : AdminWorld :=
  { w with effects := w.effects ++ [e] }

/-- Expression `Math.ceil(Date.now() / 1000)`. -/
def nowSeconds (env : AdminEnv) : Nat :=
  (env.dateNow + 999) / 1000

/-- Template-literal rendering of a property that may be `undefined`. -/
def renderProperty : Option String → String
  | some s => s
  | none => "undefined"

/-- The pieces of a text between single spaces: `cur` holds, reversed, the
characters of the piece being read. -/
def splitOnSpace : List Char → List Char → List String
  | [], cur => [String.mk cur.reverse]
  | c :: rest, cur =>
    if c = ' ' then String.mk cur.reverse :: splitOnSpace rest []
    else splitOnSpace rest (c :: cur)

/-- Call `text.split(' ')`. -/
def jsSplitSpace (text : String) : List String :=
  splitOnSpace text.data []

/-- Call `text.toUpperCase()`, on the letters a to z. -/
def toUpperCase (text : String) : String :=
  String.mk (text.data.map Char.toUpper)

/-- Call `Math.max.apply(Math, list)`; `none` is the `-Infinity` of an empty
list. -/
def maxOf : List Nat → Option Nat
  | [] => none
  | x :: xs =>
    match maxOf xs with
    | none => some x
    | some m => some (max x m)

/-- The `body` of `createNewSeason`. -/
structure NewSeasonBody where
  seasonName : String
  seasonShortName : String
  leagueCode : String
  leagueRank : String
  deriving DecidableEq, Repr

def msgNotFiveTokens (seasonName : String) : String :=
  "'" ++ seasonName ++ "' does not have proper length of 5."

/-- The tournament item `createNewSeason` builds at index `idx` of its loop. -/
def newTournamentItem (body : NewSeasonBody) (seasonTime : String) (newSeasonId : Nat)
    (idx : Nat) : TournamentDbObject :=
  let tournamentShortName := body.seasonShortName ++ (if idx = 0 then "reg" else "post")
  { TournamentShortName := tournamentShortName,
    Information :=
      { TournamentName :=
          body.seasonName ++ " " ++ (if idx = 0 then "Regular Season" else "Playoffs"),
        TournamentType := if idx = 0 then "Regular" else "Playoffs",
        TournamentShortName := tournamentShortName,
        TournamentTabName := seasonTime ++ " " ++ (if idx = 0 then "Regular" else "Playoffs"),
        SeasonPId := newSeasonId } }

/-- The season item `createNewSeason` builds. -/
def newSeasonItem (env : AdminEnv) (body : NewSeasonBody) (tabName seasonTime leagueType : String)
    (riotTournamentId regId postId : Nat) : SeasonDbObject :=
  { Roster := some { Teams := some [], Profiles := some [], attributes := [] },
    attributes := [],
    SeasonShortName := some body.seasonShortName,
    Information := some
      { Status := "Open", DateOpened := nowSeconds env, SeasonTabName := tabName,
        Description := "Description here.", LeagueRank := body.leagueRank,
        SeasonName := body.seasonName, LeagueType := leagueType,
        SeasonShortName := body.seasonShortName, LeagueCode := body.leagueCode,
        TournamentPIds := { RegTournamentPId := some regId, PostTournamentPId := some postId,
                            RegTournamentShortName := none, PostTournamentShortName := none },
        SeasonTime := seasonTime, FinalStandings := none, FinalsMvpHId := none,
        FinalsMvpName := none, AllStars := none },
    Codes := some { RiotTournamentId := some riotTournamentId, Weeks := some [] } }

/-- Modelled from the spec: `dynamoDbPutItem` is not among the sources; on the
Tournament table a successful put stores the item under its key, in place of
the one that was there. -/
def AdminWorld.putTournament (w : AdminWorld) (id : Nat) (item : TournamentDbObject) :
    AdminWorld :=
  { w with Tournament := w.Tournament.filter (fun e => decide (e.1 ≠ id)) ++ [(id, item)],
           effects := w.effects ++ [AdminEffect.putTournament id item] }

/-- A successful `dynamoDbPutItem` on the Season table. -/
def AdminWorld.putSeason (w : AdminWorld) (id : Nat) (item : SeasonDbObject) : AdminWorld :=
  { w with Season := seasonPutItem w.Season id item,
           effects := w.effects ++ [AdminEffect.putSeason id item] }

/-- The function `createNewSeason(body)`. It resolves with the new item, given
here with the `SeasonPId` it is stored under. With an empty table a new id is
`-Infinity`, which the document store takes in no item: the first put
fails. -/
def createNewSeason (env : AdminEnv) (body : NewSeasonBody) (w : AdminWorld) :
    Outcome (Nat × SeasonDbObject) × AdminWorld :=
  match jsSplitSpace body.seasonName with
  | [s0, s1, _, s3, _] =>
    let tabName := s0 ++ " " ++ s1 ++ " " ++ s3
    let seasonTime := s0 ++ " " ++ s1
    let leagueType := s3
    let w1 := w.log (AdminEffect.createTournamentId body.seasonShortName)
    match env.fault AdminCall.createTournamentId with
    | some err => (Outcome.rejected err, w1)
    | none =>
    let riotTournamentId := env.createTournamentId body.seasonShortName
    let w2 := w1.log AdminEffect.scanSeason
    match env.fault AdminCall.scanSeason with
    | some err => (Outcome.rejected err, w2)
    | none =>
    let maxSeasonId := maxOf (w2.Season.map Prod.fst)
    let w3 := w2.log AdminEffect.scanTournament
    match env.fault AdminCall.scanTournament with
    | some err => (Outcome.rejected err, w3)
    | none =>
    let maxTournamentId := maxOf (w3.Tournament.map Prod.fst)
    match maxSeasonId, maxTournamentId with
    | some maxSeason, some maxTournament =>
      let newSeasonId := maxSeason + 1
      let regId := maxTournament + 1
      let postId := maxTournament + 2
      match env.fault AdminCall.putTournament with
      | some err => (Outcome.rejected err, w3)
      | none =>
      let w4 := w3.putTournament regId (newTournamentItem body seasonTime newSeasonId 0)
      let w5 := w4.putTournament postId (newTournamentItem body seasonTime newSeasonId 1)
      match env.fault AdminCall.putSeason with
      | some err => (Outcome.rejected err, w5)
      | none =>
      let item := newSeasonItem env body tabName seasonTime leagueType riotTournamentId
        regId postId
      (Outcome.resolved (newSeasonId, item), w5.putSeason newSeasonId item)
    | _, _ =>
      (Outcome.rejected (JsError.infrastructure "-Infinity is no number of the document store"),
        w3)
  | _ => (Outcome.rejected (JsError.rejection (msgNotFiveTokens body.seasonName)), w)

/-- What `generateNewCodes` resolves with. -/
structure NewCodesResult where
  response : String
  numMatches : Nat
  timesRetried : Nat
  deriving DecidableEq, Repr

def msgNoCodesWeeks (seasonId : Nat) : String :=
  "Season '" ++ toString seasonId ++ "' does not have a \"Codes.Weeks\" property."

def msgOddTeamList (length : Nat) : String :=
  "Team List provided does not have an even amount of teams (Length: " ++ toString length ++ ")."

def msgCodesGenerated (seasonShortName : Option String) : String :=
  "Season '" ++ renderProperty seasonShortName ++ "' successfully generated new codes."

/-- One awaited call of `generateTournamentCodes`: the answer depends on the
request and on what was done before, and the call is logged with it. -/
def callGenerateTournamentCodes (env : AdminEnv) (request : CodesRequest) (w : AdminWorld) :
    Except JsError AwsResponse × AdminWorld :=
  match env.generateTournamentCodes w.effects request with
  | Except.ok response =>
    (Except.ok response, w.log (AdminEffect.generateTournamentCodes request (some response)))
  | Except.error err =>
    (Except.error err, w.log (AdminEffect.generateTournamentCodes request none))

/-- The request for the codes of one match. -/
def pairRequest (weekUppercase : String) (riotTournamentId : Option Nat)
    (seasonShortName : Option String) (teamName1 : String) (teamName2 : Option String) :
    CodesRequest :=
  { week := weekUppercase, riotTournamentId := riotTournamentId,
    seasonShortName := seasonShortName, team1 := some teamName1, team2 := teamName2,
    count := none }

/-- The request for the ten backup codes of a week. -/
def backupRequest (weekUppercase : String) (riotTournamentId : Option Nat)
    (seasonShortName : Option String) : CodesRequest :=
  { week := weekUppercase, riotTournamentId := riotTournamentId,
    seasonShortName := seasonShortName, team1 := none, team2 := none, count := some 10 }

/-- The loop `for (let i = 0; i < filteredTeamList.length; i++)` of
`generateNewCodes`, which takes `filteredTeamList[i]` and
`filteredTeamList[++i]` in each round: the teams left, the `Primary` list and
`timesRetried` so far. A last team alone has `undefined` for its opponent. -/
def generatePrimaryCodes (env : AdminEnv) (weekUppercase : String)
    (riotTournamentId : Option Nat) (seasonShortName : Option String) :
    List String → List PrimaryCodesJson → Nat → AdminWorld →
    Except JsError (List PrimaryCodesJson × Nat) × AdminWorld
  | [], primaryCodesList, timesRetried, w => (Except.ok (primaryCodesList, timesRetried), w)
  | [teamName1], primaryCodesList, timesRetried, w =>
    match callGenerateTournamentCodes env
      (pairRequest weekUppercase riotTournamentId seasonShortName teamName1 none) w with
    | (Except.error err, w1) => (Except.error err, w1)
    | (Except.ok awsResponse, w1) =>
      (Except.ok (primaryCodesList ++
          [{ Team1 := teamName1, Team2 := none, Codes := awsResponse.data }],
        timesRetried + awsResponse.timedOut), w1)
  | teamName1 :: teamName2 :: rest, primaryCodesList, timesRetried, w =>
    match callGenerateTournamentCodes env
      (pairRequest weekUppercase riotTournamentId seasonShortName teamName1 (some teamName2))
      w with
    | (Except.error err, w1) => (Except.error err, w1)
    | (Except.ok awsResponse, w1) =>
      generatePrimaryCodes env weekUppercase riotTournamentId seasonShortName rest
        (primaryCodesList ++
          [{ Team1 := teamName1, Team2 := some teamName2, Codes := awsResponse.data }])
        (timesRetried + awsResponse.timedOut) w1

/-- The step `if (!seasonCodesWeeks[weekUppercase]) { ... }` of
`generateNewCodes`: the weeks object and `timesRetried` after it. -/
def ensureWeekEntry (env : AdminEnv) (weekUppercase : String) (riotTournamentId : Option Nat)
    (seasonShortName : Option String) (seasonCodesWeeks : JsObj WeekCodesJson)
    (w : AdminWorld) : Except JsError (JsObj WeekCodesJson × Nat) × AdminWorld :=
  match seasonCodesWeeks.get weekUppercase with
  | some _ => (Except.ok (seasonCodesWeeks, 0), w)
  | none =>
    let timestamp := nowSeconds env
    match callGenerateTournamentCodes env
      (backupRequest weekUppercase riotTournamentId seasonShortName) w with
    | (Except.error err, w1) => (Except.error err, w1)
    | (Except.ok awsResponse, w1) =>
      (Except.ok (seasonCodesWeeks.set weekUppercase
          { Timestamp := timestamp, Primary := [], Backups := awsResponse.data },
        0 + awsResponse.timedOut), w1)

/-- Modelled from the spec: `dynamoDbUpdateItem` is not among the sources; the
update `SET #codes.#weeks = :obj` replaces `Codes.Weeks` of the stored item of
the season and leaves an absent item absent. -/
def seasonUpdateCodesWeeks (table : List (Nat × SeasonDbObject)) (seasonId : Nat)
    (weeks : JsObj WeekCodesJson) : List (Nat × SeasonDbObject) :=
  match seasonGetItem table seasonId with
  | none => table
  | some doc =>
    seasonPutItem table seasonId
      { doc with Codes := doc.Codes.map (fun codes => { codes with Weeks := some weeks }) }

/-- The part of `generateNewCodes` after its two checks (from
`let timesRetried = 0` on). -/
def generateNewCodesBody (env : AdminEnv) (seasonId : Nat) (weekUppercase : String)
    (seasonShortName : Option String) (riotTournamentId : Option Nat)
    (seasonCodesWeeks : JsObj WeekCodesJson) (filteredTeamList : List String)
    (w : AdminWorld) : Outcome NewCodesResult × AdminWorld :=
  match ensureWeekEntry env weekUppercase riotTournamentId seasonShortName seasonCodesWeeks w
    with
  | (Except.error err, w1) => (Outcome.rejected err, w1)
  | (Except.ok (weeks1, retried1), w1) =>
    match weeks1.get weekUppercase with
    | none => (Outcome.rejected (JsError.typeError "seasonCodesWeeks[weekUppercase].Primary"), w1)
    | some entry =>
      match generatePrimaryCodes env weekUppercase riotTournamentId seasonShortName
        filteredTeamList entry.Primary retried1 w1 with
      | (Except.error err, w2) => (Outcome.rejected err, w2)
      | (Except.ok (primaryCodesList, timesRetried), w2) =>
        let weeks2 := weeks1.set weekUppercase { entry with Primary := primaryCodesList }
        match env.fault AdminCall.updateSeason with
        | some err => (Outcome.rejected err, w2)
        | none =>
          (Outcome.resolved
            { response := msgCodesGenerated seasonShortName,
              numMatches := filteredTeamList.length / 2,
              timesRetried := timesRetried },
           { w2 with Season := seasonUpdateCodesWeeks w2.Season seasonId weeks2,
                     effects := w2.effects ++
                       [AdminEffect.updateSeasonCodesWeeks seasonId weeks2] })

/-- The list `teamList.filter(team => team.length !== 0)`. -/
def nonEmptyTeams (teamList : List String) : List String :=
  teamList.filter (fun team => decide (team.length ≠ 0))

/-- Expression `seasonObject.Codes?.RiotTournamentId`. -/
def riotTournamentIdOf (seasonObject : SeasonDbObject) : Option Nat :=
  seasonObject.Codes.bind (fun codes => codes.RiotTournamentId)

/-- Expression `seasonObject.Codes?.Weeks`. -/
def codesWeeksOf (seasonObject : SeasonDbObject) : Option (JsObj WeekCodesJson) :=
  seasonObject.Codes.bind (fun codes => codes.Weeks)

/-- The function `generateNewCodes(seasonId, week, teamList)`. -/
def generateNewCodes (env : AdminEnv) (seasonId : Nat) (week : String) (teamList : List String)
    (w : AdminWorld) : Outcome NewCodesResult × AdminWorld :=
  let w0 := w.log (AdminEffect.getSeason seasonId)
  match env.fault AdminCall.getSeason with
  | some err => (Outcome.rejected err, w0)
  | none =>
    match seasonGetItem w0.Season seasonId with
    | none => (Outcome.rejected (JsError.typeError "seasonObject.SeasonShortName"), w0)
    | some seasonObject =>
      let weekUppercase := toUpperCase week
      let seasonShortName := seasonObject.SeasonShortName
      let riotTournamentId := riotTournamentIdOf seasonObject
      match codesWeeksOf seasonObject with
      | none => (Outcome.rejected (JsError.rejection (msgNoCodesWeeks seasonId)), w0)
      | some seasonCodesWeeks =>
        let filteredTeamList := nonEmptyTeams teamList
        if filteredTeamList.length % 2 > 0 then
          (Outcome.rejected (JsError.rejection (msgOddTeamList filteredTeamList.length)), w0)
        else
          generateNewCodesBody env seasonId weekUppercase seasonShortName riotTournamentId
            seasonCodesWeeks filteredTeamList w0

/-- The `Codes.Weeks` object stored for a season. -/
def storedWeeks (w : AdminWorld) (seasonId : Nat) : Option (JsObj WeekCodesJson) :=
  (seasonGetItem w.Season seasonId).bind codesWeeksOf

/-- The teams of a list taken two by two, as the claim words the matches: each
team at an even place with the one after it, if there is one. -/
def pairsOf : List String → List (String × Option String)
  | [] => []
  | [teamName1] => [(teamName1, none)]
  | teamName1 :: teamName2 :: rest => (teamName1, some teamName2) :: pairsOf rest

/-- The record of one match in a `Primary` list. -/
def primaryRecord (pair : String × Option String) (response : AwsResponse) :
    PrimaryCodesJson :=
  { Team1 := pair.1, Team2 := pair.2, Codes := response.data }

/-- The logged call for the codes of one match. -/
def pairEffect (weekUppercase : String) (riotTournamentId : Option Nat)
    (seasonShortName : Option String) (pair : String × Option String)
    (response : AwsResponse) : AdminEffect :=
  AdminEffect.generateTournamentCodes
    (pairRequest weekUppercase riotTournamentId seasonShortName pair.1 pair.2) (some response)

/-- The logged call for the backup codes of a week. -/
def backupEffect (weekUppercase : String) (riotTournamentId : Option Nat)
    (seasonShortName : Option String) (response : AwsResponse) : AdminEffect :=
  AdminEffect.generateTournamentCodes
    (backupRequest weekUppercase riotTournamentId seasonShortName) (some response)

/-- A logged effect is a call of the code-generation API. -/
def AdminEffect.isCodesCall : AdminEffect → Bool
  | AdminEffect.generateTournamentCodes _ _ => true
  | _ => false

/-- A logged effect is a write to a table. -/
def AdminEffect.isStoreWrite : AdminEffect → Bool
  | AdminEffect.putTournament _ _ => true
  | AdminEffect.putSeason _ _ => true
  | AdminEffect.updateSeasonCodesWeeks _ _ => true
  | _ => false

/-- A body for `createNewSeason`. -/
def demoNewSeasonBody : NewSeasonBody :=
  { seasonName := "Summer 2021 Aegis Guardians League", seasonShortName := "s2021agl",
    leagueCode := "AGL", leagueRank := "Gold" }

/-- A stored season with a `Codes.Weeks` object that has no week yet. -/
def demoCodesSeason : SeasonDbObject :=
  { Roster := none, attributes := [], SeasonShortName := some "w2021agl",
    Codes := some { RiotTournamentId := some 4242, Weeks := some [] } }

/-- A stored tournament. -/
def demoTournament (shortName : String) (seasonId : Nat) : TournamentDbObject :=
  { TournamentShortName := shortName,
    Information := { TournamentName := shortName, TournamentType := "Regular",
                     TournamentShortName := shortName, TournamentTabName := shortName,
                     SeasonPId := seasonId } }

/-- The answers of the code-generation API in the examples: ten codes for a
backup request, one code and one retry for a match. -/
def demoGenerateTournamentCodes (_before : List AdminEffect) (request : CodesRequest) :
    Except JsError AwsResponse :=
  match request.team1 with
  | none =>
    Except.ok { data := ["B1", "B2", "B3", "B4", "B5", "B6", "B7", "B8", "B9", "B10"],
                timedOut := 0 }
  | some teamName1 =>
    Except.ok { data := [request.week ++ "-" ++ teamName1 ++ "-" ++ renderProperty request.team2],
                timedOut := 1 }

/-- Collaborators of the examples: no call fails. -/
def demoAdminEnv : AdminEnv :=
  { createTournamentId := fun _ => 4243,
    generateTournamentCodes := demoGenerateTournamentCodes,
    dateNow := 1625000000500,
    fault := fun _ => none }

/-- Two seasons and two tournaments stored, nothing done yet. -/
def demoAdminWorld : AdminWorld :=
  { Season := [(7, demoCodesSeason), (3, demoCodesSeason)],
    Tournament := [(11, demoTournament "w2021aglreg" 7), (12, demoTournament "w2021aglpost" 7)],
    effects := [] }

/-- The entry of a week that has codes already. -/
def demoWeekEntry : WeekCodesJson :=
  { Timestamp := 1600000000,
    Primary := [{ Team1 := "Old1", Team2 := some "Old2", Codes := ["X1"] }],
    Backups := ["B0"] }

/-- A `Codes.Weeks` object with two weeks. -/
def demoWeeks : JsObj WeekCodesJson :=
  [("W1", demoWeekEntry), ("W2", { Timestamp := 1600600000, Primary := [], Backups := ["C0"] })]

/-- A stored season whose week `W1` has codes already. -/
def demoWeekSeason : SeasonDbObject :=
  { Roster := none, attributes := [], SeasonShortName := some "w2021agl",
    Codes := some { RiotTournamentId := some 4242, Weeks := some demoWeeks } }

/-- One season with codes for two weeks, nothing done yet. -/
def demoWeekWorld : AdminWorld :=
  { Season := [(3, demoWeekSeason)], Tournament := [], effects := [] }

/-! # Theorems -/

/-! ### Lemmas on the validation loops -/

theorem checkBansLoop_eq (env : ValidationEnv) (color : TeamColor) (rest : List Nat) :
    ∀ (i : Nat) (dups : List Nat) (st : ValidateState),
      checkBansLoop env color i rest dups st =
        { st with validateList := st.validateList ++ banErrorsFrom env color i rest dups } := by
  induction rest with
  | nil => intro i dups st; simp [checkBansLoop, banErrorsFrom]
  | cons b rest ih =>
    intro i dups st
    unfold checkBansLoop banErrorsFrom
    by_cases h1 : b ∈ env.champObject
    · by_cases h2 : b ∈ dups
      · simp [h1, h2, ih, ValidateState.push]
      · simp [h1, h2, ih]
    · simp [h1, ih, ValidateState.push]

theorem checkBans_eq (env : ValidationEnv) (color : TeamColor) (banList : List Nat)
    (st : ValidateState) :
    checkBans env color banList st =
      { st with validateList := st.validateList ++ banErrors env color banList } := by
  simp [checkBans, banErrors, checkBansLoop_eq]

theorem checkProfilesLoop_validateList (env : ValidationEnv) (color : TeamColor)
    (rest : List PlayerObject) :
    ∀ (i : Nat) (roles dups : List (Option String)) (st : ValidateState),
      (checkProfilesLoop env color i rest roles dups st).validateList =
        st.validateList ++ playerErrorsFrom env color rest roles dups := by
  induction rest with
  | nil => intro i roles dups st; simp [checkProfilesLoop, playerErrorsFrom]
  | cons p rest ih =>
    intro i roles dups st
    unfold checkProfilesLoop playerErrorsFrom
    simp only [ih]
    by_cases h1 : truthy (env.getProfilePIdByName p.ProfileName) = true <;>
    by_cases h2 : env.getProfilePIdByName p.ProfileName ∈ dups <;>
    by_cases h3 : truthy p.Role = true <;>
    by_cases h4 : p.Role ∈ roles <;>
    simp [h1, h2, h3, h4, ValidateState.push]

theorem checkProfilesLoop_frame (env : ValidationEnv) (color : TeamColor)
    (rest : List PlayerObject) :
    ∀ (i : Nat) (roles dups : List (Option String)) (st : ValidateState),
      let st' := checkProfilesLoop env color i rest roles dups st
      st'.setupTeamsDbObject.BlueTeam.TeamName = st.setupTeamsDbObject.BlueTeam.TeamName ∧
      st'.setupTeamsDbObject.RedTeam.TeamName = st.setupTeamsDbObject.RedTeam.TeamName ∧
      (color = TeamColor.Blue →
        st'.setupTeamsDbObject.RedTeam = st.setupTeamsDbObject.RedTeam) ∧
      (color = TeamColor.Red →
        st'.setupTeamsDbObject.BlueTeam = st.setupTeamsDbObject.BlueTeam) := by
  induction rest with
  | nil => intro i roles dups st; simp [checkProfilesLoop]
  | cons p rest ih =>
    intro i roles dups st
    unfold checkProfilesLoop
    simp only
    refine ⟨?_, ?_, ?_, ?_⟩
    · rw [(ih _ _ _ _).1]
      split_ifs <;> cases color <;> simp [ValidateState.push, SetupTeams.setProfilePId]
    · rw [(ih _ _ _ _).2.1]
      split_ifs <;> cases color <;> simp [ValidateState.push, SetupTeams.setProfilePId]
    · intro hc
      rw [(ih _ _ _ _).2.2.1 hc]
      subst hc
      split_ifs <;> simp [ValidateState.push, SetupTeams.setProfilePId]
    · intro hc
      rw [(ih _ _ _ _).2.2.2 hc]
      subst hc
      split_ifs <;> simp [ValidateState.push, SetupTeams.setProfilePId]

theorem checkProfiles_validateList (env : ValidationEnv) (color : TeamColor)
    (playerList : List PlayerObject) (st : ValidateState) :
    (checkProfiles env color playerList st).validateList =
      st.validateList ++ playerErrors env color playerList := by
  simp [checkProfiles, playerErrors, checkProfilesLoop_validateList]

theorem checkProfiles_frame (env : ValidationEnv) (color : TeamColor)
    (playerList : List PlayerObject) (st : ValidateState) :
    (checkProfiles env color playerList st).setupTeamsDbObject.BlueTeam.TeamName =
        st.setupTeamsDbObject.BlueTeam.TeamName ∧
    (checkProfiles env color playerList st).setupTeamsDbObject.RedTeam.TeamName =
        st.setupTeamsDbObject.RedTeam.TeamName ∧
    (color = TeamColor.Blue →
      (checkProfiles env color playerList st).setupTeamsDbObject.RedTeam =
        st.setupTeamsDbObject.RedTeam) ∧
    (color = TeamColor.Red →
      (checkProfiles env color playerList st).setupTeamsDbObject.BlueTeam =
        st.setupTeamsDbObject.BlueTeam) :=
  checkProfilesLoop_frame env color playerList 0 [] [] st

theorem checkTeamName_validateList (env : ValidationEnv) (color : TeamColor)
    (teamName : String) (st : ValidateState) :
    (checkTeamName env color teamName st).validateList =
      st.validateList ++ teamNameErrors env color teamName := by
  unfold checkTeamName teamNameErrors
  by_cases h : truthy (env.getTeamPIdByName teamName) = true <;> simp [h, ValidateState.push]

theorem checkTeamName_frame (env : ValidationEnv) (color : TeamColor)
    (teamName : String) (st : ValidateState) :
    (checkTeamName env color teamName st).setupTeamsDbObject.BlueTeam.TeamName =
        st.setupTeamsDbObject.BlueTeam.TeamName ∧
    (checkTeamName env color teamName st).setupTeamsDbObject.RedTeam.TeamName =
        st.setupTeamsDbObject.RedTeam.TeamName := by
  unfold checkTeamName
  by_cases h : truthy (env.getTeamPIdByName teamName) = true <;>
    cases color <;> simp [h, ValidateState.push, SetupTeams.setTeamPId]

/-- The list `validateSetupFormFields` returns, check by check. -/
theorem validateList_eq_concat (env : ValidationEnv) (s : SetupTeams) :
    (validateSetupFormFields env s).validateList =
      banErrors env TeamColor.Blue s.BlueTeam.Bans ++
      banErrors env TeamColor.Red s.RedTeam.Bans ++
      playerErrors env TeamColor.Blue s.BlueTeam.Players ++
      playerErrors env TeamColor.Red s.RedTeam.Players ++
      teamNameErrors env TeamColor.Blue s.BlueTeam.TeamName ++
      teamNameErrors env TeamColor.Red s.RedTeam.TeamName ++
      sameTeamNamesErrors s ++
      rdsErrors env := by
  have pB := fun pl st => (checkProfiles_frame env TeamColor.Blue pl st).1
  have pR := fun pl st => (checkProfiles_frame env TeamColor.Red pl st).1
  have qB := fun pl st => (checkProfiles_frame env TeamColor.Blue pl st).2.1
  have qR := fun pl st => (checkProfiles_frame env TeamColor.Red pl st).2.1
  have rB := fun pl st => (checkProfiles_frame env TeamColor.Blue pl st).2.2.1 rfl
  have tB := fun n st => (checkTeamName_frame env TeamColor.Blue n st).1
  have tR := fun n st => (checkTeamName_frame env TeamColor.Red n st).1
  have uB := fun n st => (checkTeamName_frame env TeamColor.Blue n st).2
  have uR := fun n st => (checkTeamName_frame env TeamColor.Red n st).2
  unfold validateSetupFormFields sameTeamNamesErrors rdsErrors
  simp only [checkBans_eq, List.nil_append, pB, pR, qB, qR, rB, tB, tR, uB, uR]
  by_cases h1 : s.BlueTeam.TeamName = s.RedTeam.TeamName <;>
    by_cases h2 : env.checkRdsStatus = AWS_RDS_STATUS_AVAILABLE <;>
    simp [h1, h2, ValidateState.push, checkTeamName_validateList, checkProfiles_validateList,
      pB, pR, qB, qR, rB, tB, tR, uB, uR]

/-! ### The ban rule -/

theorem banErrorsFrom_eq_spec (env : ValidationEnv) (color : TeamColor) (rest : List Nat) :
    ∀ (pre acc : List Nat), (∀ b, b ∈ acc ↔ b ∈ pre ∧ b ∈ env.champObject) →
      banErrorsFrom env color pre.length rest acc =
        (List.range rest.length).filterMap
          (fun j => banMessageSpec env color (pre ++ rest) (pre.length + j)) := by
  induction rest with
  | nil => intro pre acc _; simp [banErrorsFrom]
  | cons b rest ih =>
    intro pre acc hacc
    have hget : (pre ++ b :: rest).get? pre.length = some b := by
      rw [List.get?_eq_getElem?, List.getElem?_append_right (Nat.le_refl _)]
      simp
    have hmem : b ∈ acceptedBansBefore env (pre ++ b :: rest) pre.length ↔
        b ∈ pre ∧ b ∈ env.champObject := by
      simp [acceptedBansBefore, List.mem_dedup, List.mem_filter]
    have htail : ∀ acc', (∀ x, x ∈ acc' ↔ x ∈ pre ++ [b] ∧ x ∈ env.champObject) →
        banErrorsFrom env color (pre.length + 1) rest acc' =
          List.filterMap (fun j => banMessageSpec env color (pre ++ b :: rest) (pre.length + (j + 1)))
            (List.range rest.length) := by
      intro acc' h'
      have := ih (pre ++ [b]) acc' h'
      simp only [List.length_append, List.length_singleton, List.append_assoc,
        List.singleton_append] at this
      rw [this]
      apply List.filterMap_congr
      intro j _
      congr 1
      omega
    rw [List.length_cons, List.range_succ_eq_map, List.filterMap_cons, List.filterMap_map]
    unfold banErrorsFrom
    simp only [Nat.add_zero, banMessageSpec, hget, Function.comp_def, Nat.succ_eq_add_one]
    by_cases h1 : b ∈ env.champObject
    · by_cases h2 : b ∈ acc
      · have h3 : b ∈ acceptedBansBefore env (pre ++ b :: rest) pre.length :=
          hmem.2 ((hacc b).1 h2)
        simp only [h1, h2, h3, not_true_eq_false, if_false, if_true]
        rw [htail acc]
        · simp [banMessageSpec]
        · intro x
          rw [hacc x]
          constructor
          · rintro ⟨hx, hc⟩; exact ⟨by simp [hx], hc⟩
          · rintro ⟨hx, hc⟩
            rcases List.mem_append.1 hx with hx | hx
            · exact ⟨hx, hc⟩
            · have : x = b := by simpa using hx
              subst this
              exact (hacc x).1 h2
      · have h3 : ¬ b ∈ acceptedBansBefore env (pre ++ b :: rest) pre.length := by
          intro h; exact h2 ((hacc b).2 (hmem.1 h))
        simp only [h1, h2, h3, not_true_eq_false, if_false]
        rw [htail (acc ++ [b])]
        · simp [banMessageSpec]
        · intro x
          simp only [List.mem_append, List.mem_singleton, hacc x]
          constructor
          · rintro (⟨hx, hc⟩ | hx)
            · exact ⟨Or.inl hx, hc⟩
            · subst hx; exact ⟨Or.inr rfl, h1⟩
          · rintro ⟨hx | hx, hc⟩
            · exact Or.inl ⟨hx, hc⟩
            · exact Or.inr hx
    · simp only [h1, not_false_eq_true, if_true]
      rw [htail acc]
      · simp [banMessageSpec]
      · intro x
        rw [hacc x]
        constructor
        · rintro ⟨hx, hc⟩; exact ⟨by simp [hx], hc⟩
        · rintro ⟨hx, hc⟩
          rcases List.mem_append.1 hx with hx | hx
          · exact ⟨hx, hc⟩
          · have : x = b := by simpa using hx
            subst this
            exact absurd hc h1

theorem banErrors_eq_spec (env : ValidationEnv) (color : TeamColor) (banList : List Nat) :
    banErrors env color banList = banErrorsSpec env color banList := by
  have := banErrorsFrom_eq_spec env color banList [] [] (by simp)
  simpa [banErrors, banErrorsSpec] using this

/-! ### Lists without fault yield no message -/

theorem banErrorsFrom_clean (env : ValidationEnv) (color : TeamColor) (rest : List Nat) :
    ∀ (i : Nat) (acc : List Nat), (∀ b ∈ rest, b ∈ env.champObject) → rest.Nodup →
      (∀ b ∈ rest, ¬ (b ∈ acc)) → banErrorsFrom env color i rest acc = [] := by
  induction rest with
  | nil => intro i acc _ _ _; simp [banErrorsFrom]
  | cons a rest ih =>
    intro i acc hc hn hd
    have ha : a ∈ env.champObject := hc a (List.mem_cons_self _ _)
    have ha2 : ¬ (a ∈ acc) := hd a (List.mem_cons_self _ _)
    rw [List.nodup_cons] at hn
    unfold banErrorsFrom
    simp only [ha, ha2, not_true_eq_false, if_false]
    apply ih _ _ (fun b hb => hc b (List.mem_cons_of_mem _ hb)) hn.2
    intro b hb hmem
    rcases List.mem_append.1 hmem with h | h
    · exact hd b (List.mem_cons_of_mem _ hb) h
    · have : b = a := by simpa using h
      subst this
      exact hn.1 hb

theorem banErrors_clean (env : ValidationEnv) (color : TeamColor) (banList : List Nat)
    (h : CleanBans env banList) : banErrors env color banList = [] :=
  banErrorsFrom_clean env color banList 0 [] h.1 h.2 (by simp)

theorem banErrorsFrom_oneBad (env : ValidationEnv) (color : TeamColor) (banList : List Nat) :
    ∀ (k i : Nat) (acc : List Nat) (b : Nat), banList.get? k = some b →
      ¬ (b ∈ env.champObject) → (∀ x ∈ banList.eraseIdx k, x ∈ env.champObject) →
      (banList.eraseIdx k).Nodup → (∀ x ∈ banList.eraseIdx k, ¬ (x ∈ acc)) →
      banErrorsFrom env color i banList acc = [msgBanInvalid color b (i + k)] := by
  induction banList with
  | nil => intro k i acc b hg; simp at hg
  | cons a rest ih =>
    intro k i acc b hg hb hc hn hd
    cases k with
    | zero =>
      simp only [List.get?_cons_zero, Option.some.injEq] at hg
      subst hg
      simp only [List.eraseIdx_cons_zero] at hc hn hd
      unfold banErrorsFrom
      simp only [hb, not_false_eq_true, if_true, Nat.add_zero]
      rw [banErrorsFrom_clean env color rest (i + 1) acc hc hn hd]
    | succ k =>
      simp only [List.get?_cons_succ] at hg
      simp only [List.eraseIdx_cons_succ] at hc hn hd
      have ha : a ∈ env.champObject := hc a (List.mem_cons_self _ _)
      have ha2 : ¬ (a ∈ acc) := hd a (List.mem_cons_self _ _)
      rw [List.nodup_cons] at hn
      unfold banErrorsFrom
      simp only [ha, ha2, not_true_eq_false, if_false]
      rw [ih k (i + 1) (acc ++ [a]) b hg hb (fun x hx => hc x (List.mem_cons_of_mem _ hx)) hn.2]
      · congr 2; omega
      · intro x hx hmem
        rcases List.mem_append.1 hmem with h | h
        · exact hd x (List.mem_cons_of_mem _ hx) h
        · have : x = a := by simpa using h
          subst this
          exact hn.1 hx

theorem banErrors_oneBad (env : ValidationEnv) (color : TeamColor) (banList : List Nat)
    (i : Nat) (h : OneBadBan env banList i) : (banErrors env color banList).length = 1 := by
  obtain ⟨b, hg, hb, hc⟩ := h
  unfold banErrors
  rw [banErrorsFrom_oneBad env color banList i 0 [] b hg hb hc.1 hc.2 (by simp)]
  rfl

theorem playerErrorsFrom_clean (env : ValidationEnv) (color : TeamColor)
    (rest : List PlayerObject) :
    ∀ (roles acc : List (Option String)),
      (∀ p ∈ rest, truthy (env.getProfilePIdByName p.ProfileName) = true ∧
        truthy p.Role = true) →
      (rest.map (fun p => env.getProfilePIdByName p.ProfileName)).Nodup →
      (rest.map (fun p => p.Role)).Nodup →
      (∀ p ∈ rest, ¬ (env.getProfilePIdByName p.ProfileName ∈ acc)) →
      (∀ p ∈ rest, ¬ (p.Role ∈ roles)) →
      playerErrorsFrom env color rest roles acc = [] := by
  induction rest with
  | nil => intro roles acc _ _ _ _ _; simp [playerErrorsFrom]
  | cons a rest ih =>
    intro roles acc ht hn1 hn2 hd1 hd2
    have hta := ht a (List.mem_cons_self _ _)
    have ha1 := hd1 a (List.mem_cons_self _ _)
    have ha2 := hd2 a (List.mem_cons_self _ _)
    rw [List.map_cons, List.nodup_cons] at hn1 hn2
    unfold playerErrorsFrom
    simp only [hta.1, hta.2, ha1, ha2, not_true_eq_false, not_false_eq_true, if_false, if_true,
      and_self, List.nil_append]
    apply ih _ _ (fun p hp => ht p (List.mem_cons_of_mem _ hp)) hn1.2 hn2.2
    · intro p hp hmem
      rcases List.mem_append.1 hmem with h | h
      · exact hd1 p (List.mem_cons_of_mem _ hp) h
      · have h' : env.getProfilePIdByName p.ProfileName = env.getProfilePIdByName a.ProfileName := by
          simpa using h
        exact hn1.1 (List.mem_map.2 ⟨p, hp, h'⟩)
    · intro p hp hmem
      rcases List.mem_append.1 hmem with h | h
      · exact hd2 p (List.mem_cons_of_mem _ hp) h
      · have h' : p.Role = a.Role := by simpa using h
        exact hn2.1 (List.mem_map.2 ⟨p, hp, h'⟩)

theorem playerErrors_clean (env : ValidationEnv) (color : TeamColor)
    (playerList : List PlayerObject) (h : CleanPlayers env playerList) :
    playerErrors env color playerList = [] :=
  playerErrorsFrom_clean env color playerList [] [] h.1 h.2.1 h.2.2 (by simp) (by simp)

/-! ### C1 -/

/-- C1: `validateSetupFormFields` runs every check: its list is the
concatenation of the Blue ban errors, the Red ban errors, the Blue player
errors, the Red player errors, the Blue and Red team-name errors, the
same-team-names error and the database-status error, each a function of its
own input alone. A setup whose only faults are one ban ID absent from the
catalog (on either side, at any index) and a relational store that is not
AVAILABLE yields exactly two errors. -/
theorem validateSetupFormFields_runs_all_checks (env : ValidationEnv) (s : SetupTeams) :
    (validateSetupFormFields env s).validateList =
        banErrors env TeamColor.Blue s.BlueTeam.Bans ++
        banErrors env TeamColor.Red s.RedTeam.Bans ++
        playerErrors env TeamColor.Blue s.BlueTeam.Players ++
        playerErrors env TeamColor.Red s.RedTeam.Players ++
        teamNameErrors env TeamColor.Blue s.BlueTeam.TeamName ++
        teamNameErrors env TeamColor.Red s.RedTeam.TeamName ++
        sameTeamNamesErrors s ++
        rdsErrors env ∧
    (∀ (i : Nat),
      (OneBadBan env s.BlueTeam.Bans i ∧ CleanBans env s.RedTeam.Bans ∨
        CleanBans env s.BlueTeam.Bans ∧ OneBadBan env s.RedTeam.Bans i) →
      CleanPlayers env s.BlueTeam.Players → CleanPlayers env s.RedTeam.Players →
      truthy (env.getTeamPIdByName s.BlueTeam.TeamName) = true →
      truthy (env.getTeamPIdByName s.RedTeam.TeamName) = true →
      s.BlueTeam.TeamName ≠ s.RedTeam.TeamName →
      env.checkRdsStatus ≠ AWS_RDS_STATUS_AVAILABLE →
      (validateSetupFormFields env s).validateList.length = 2) := by
  refine ⟨validateList_eq_concat env s, ?_⟩
  intro i hb hpB hpR htB htR hne hdb
  rw [validateList_eq_concat, playerErrors_clean env _ _ hpB, playerErrors_clean env _ _ hpR]
  simp only [teamNameErrors, sameTeamNamesErrors, rdsErrors, htB, htR, hne, hdb, if_true,
    if_false, ne_eq, not_false_eq_true, List.append_nil, List.length_append,
    List.length_singleton]
  rcases hb with ⟨h1, h2⟩ | ⟨h1, h2⟩
  · rw [banErrors_oneBad env _ _ i h1, banErrors_clean env _ _ h2]; rfl
  · rw [banErrors_clean env _ _ h1, banErrors_oneBad env _ _ i h2]; rfl

/-- C1 at a concrete setup: Blue bans 99 at index 1, the store is stopped, and
the list has the two messages. -/
theorem validateSetupFormFields_runs_all_checks_witness :
    (validateSetupFormFields demoEnvDown demoSetupOneBadBan).validateList.length = 2 ∧
    (validateSetupFormFields demoEnvDown demoSetupOneBadBan).validateList =
      ["Blue Team Bans of Id '99' at index 1 is invalid.",
       "MySQL Database is inactive. Start it first."] :=
  ⟨(validateSetupFormFields_runs_all_checks demoEnvDown demoSetupOneBadBan).2 1
      (Or.inl ⟨⟨99, by decide, by decide, by decide, by decide⟩, by decide, by decide⟩)
      ⟨by decide, by decide, by decide⟩ ⟨by decide, by decide, by decide⟩
      (by decide) (by decide) (by decide) (by decide),
   by decide⟩

/-! ### C5 -/

theorem banMessageSpec_once (env : ValidationEnv) (color : TeamColor) (banList : List Nat)
    (b i : Nat) (hb : b ∈ env.champObject) (hc : banList.count b = 1)
    (hg : banList.get? i = some b) : banMessageSpec env color banList i = none := by
  have hi : i < banList.length := by
    rw [List.get?_eq_getElem?] at hg
    exact (List.getElem?_eq_some_iff.1 hg).1
  have hsplit : banList = banList.take i ++ b :: banList.drop (i + 1) := by
    have hb' : banList[i] = b := by
      rw [List.get?_eq_getElem?] at hg
      exact (List.getElem?_eq_some_iff.1 hg).2
    rw [← hb', ← List.drop_eq_getElem_cons hi, List.take_append_drop]
  have hcount : (banList.take i).count b = 0 := by
    have h := hc
    rw [hsplit, List.count_append, List.count_cons_self] at h
    omega
  have hnot : ¬ (b ∈ banList.take i) := List.count_eq_zero.1 hcount
  unfold banMessageSpec
  simp only [hg, hb, not_true_eq_false, if_false]
  have : ¬ (b ∈ acceptedBansBefore env banList i) := by
    simp only [acceptedBansBefore, List.mem_dedup, List.mem_filter]
    exact fun h => hnot h.1
  simp [this]

/-- C5: for each side the ban errors of `validateSetupFormFields` are those of
the ban rule over the side's list in index order (an ID outside the catalog:
the invalid message with color, ID and index; a catalog ID equal to an
earlier accepted ban of the side: the duplicate message; a first occurrence:
nothing): `checkBans` appends exactly them, and the returned list is the Blue
ones, the Red ones, then what the setup yields with both ban lists emptied.
A catalog ID banned once by Blue and once by Red gets no message on either
side. -/
theorem checkBans_follows_ban_rule (env : ValidationEnv) (s : SetupTeams) :
    (∀ (color : TeamColor) (banList : List Nat) (st : ValidateState),
      checkBans env color banList st =
        { st with validateList := st.validateList ++ banErrorsSpec env color banList }) ∧
    (validateSetupFormFields env s).validateList =
      banErrorsSpec env TeamColor.Blue s.BlueTeam.Bans ++
      banErrorsSpec env TeamColor.Red s.RedTeam.Bans ++
      (validateSetupFormFields env s.withoutBans).validateList ∧
    (∀ (b i j : Nat), b ∈ env.champObject →
      s.BlueTeam.Bans.count b = 1 → s.RedTeam.Bans.count b = 1 →
      s.BlueTeam.Bans.get? i = some b → s.RedTeam.Bans.get? j = some b →
      banMessageSpec env TeamColor.Blue s.BlueTeam.Bans i = none ∧
      banMessageSpec env TeamColor.Red s.RedTeam.Bans j = none) := by
  refine ⟨?_, ?_, ?_⟩
  · intro color banList st
    rw [checkBans_eq, banErrors_eq_spec]
  · rw [validateList_eq_concat env s, validateList_eq_concat env s.withoutBans,
      banErrors_eq_spec, banErrors_eq_spec]
    simp [SetupTeams.withoutBans, banErrors, banErrorsFrom, sameTeamNamesErrors]
  · intro b i j hb hcB hcR hgB hgR
    exact ⟨banMessageSpec_once env _ _ b i hb hcB hgB, banMessageSpec_once env _ _ b j hb hcR hgR⟩

/-- C5 at a concrete setup: champion 1 is banned at index 0 by Blue and at
index 1 by Red, and neither entry gets a message. -/
theorem checkBans_follows_ban_rule_witness :
    banMessageSpec demoEnvUp TeamColor.Blue demoSetupSharedBans.BlueTeam.Bans 0 = none ∧
    banMessageSpec demoEnvUp TeamColor.Red demoSetupSharedBans.RedTeam.Bans 1 = none :=
  (checkBans_follows_ban_rule demoEnvUp demoSetupSharedBans).2.2 1 0 1
    (by decide) (by decide) (by decide) (by decide) (by decide)

/-! ### C6 -/

theorem colorMessage_ne_same (c : TeamColor) (r : String) :
    TEAM_STRING c ++ r ≠ msgSameTeamNames := by
  intro h
  have h2 := congrArg String.data h
  cases c <;> simp [TEAM_STRING, msgSameTeamNames, String.data_append] at h2

theorem banErrorsFrom_no_same (env : ValidationEnv) (color : TeamColor) (rest : List Nat) :
    ∀ (i : Nat) (acc : List Nat), ¬ (msgSameTeamNames ∈ banErrorsFrom env color i rest acc) := by
  induction rest with
  | nil => intro i acc; simp [banErrorsFrom]
  | cons b rest ih =>
    intro i acc
    have e1 : msgSameTeamNames ≠ msgBanInvalid color b i := by
      intro h
      apply colorMessage_ne_same color
        (" Team Bans of Id '" ++ (toString b ++ ("' at index " ++ (toString i ++ " is invalid."))))
      rw [h]; simp [msgBanInvalid, String.append_assoc]
    have e2 : msgSameTeamNames ≠ msgBanDuplicate color b := by
      intro h
      apply colorMessage_ne_same color
        (" Team Bans of Id '" ++ (toString b ++ "' is a duplicate in Textfields."))
      rw [h]; simp [msgBanDuplicate, String.append_assoc]
    unfold banErrorsFrom
    by_cases h1 : b ∈ env.champObject
    · by_cases h2 : b ∈ acc
      · simp [h1, h2, e2, ih]
      · simp [h1, h2, ih]
    · simp [h1, e1, ih]

theorem playerErrorsFrom_no_same (env : ValidationEnv) (color : TeamColor)
    (rest : List PlayerObject) :
    ∀ (roles acc : List (Option String)),
      ¬ (msgSameTeamNames ∈ playerErrorsFrom env color rest roles acc) := by
  induction rest with
  | nil => intro roles acc; simp [playerErrorsFrom]
  | cons p rest ih =>
    intro roles acc
    have e1 : msgSameTeamNames ≠ msgProfileMissing color p.ProfileName := by
      intro h
      apply colorMessage_ne_same color
        (" Team Profile Name '" ++ (p.ProfileName ++ "' does not exist in database."))
      rw [h]; simp [msgProfileMissing, String.append_assoc]
    have e2 : msgSameTeamNames ≠ msgProfileDuplicate color p.ProfileName := by
      intro h
      apply colorMessage_ne_same color
        (" Team Profile Name '" ++ (p.ProfileName ++ "' duplicate in Textfields."))
      rw [h]; simp [msgProfileDuplicate, String.append_assoc]
    have e3 : msgSameTeamNames ≠ msgRoleEmpty color := by
      intro h
      apply colorMessage_ne_same color " Team has an empty textfield for its Role."
      rw [h]; simp [msgRoleEmpty]
    have e4 : msgSameTeamNames ≠ msgRoleDuplicate color p.Role := by
      intro h
      apply colorMessage_ne_same color (" Team duplicate Role '" ++ (render p.Role ++ "'."))
      rw [h]; simp [msgRoleDuplicate, String.append_assoc]
    unfold playerErrorsFrom
    simp only [List.mem_append, not_or]
    refine ⟨⟨?_, ?_⟩, ih _ _⟩
    · split_ifs <;> simp [e1, e2]
    · split_ifs <;> simp [e3, e4]

theorem teamNameErrors_no_same (env : ValidationEnv) (color : TeamColor) (teamName : String) :
    ¬ (msgSameTeamNames ∈ teamNameErrors env color teamName) := by
  have e : msgSameTeamNames ≠ msgTeamNameMissing color teamName := by
    intro h
    apply colorMessage_ne_same color
      (" Team Name '" ++ (teamName ++ "' does not exist in database."))
    rw [h]; simp [msgTeamNameMissing, String.append_assoc]
  unfold teamNameErrors
  split_ifs <;> simp [e]

theorem rdsErrors_no_same (env : ValidationEnv) : ¬ (msgSameTeamNames ∈ rdsErrors env) := by
  have e : msgSameTeamNames ≠ msgRdsInactive := by decide
  unfold rdsErrors
  split_ifs <;> simp [e]

/-- C6: when `BlueTeam.TeamName` equals `RedTeam.TeamName` the list returned by
`validateSetupFormFields` holds the message `Team Names are the same.` exactly
once, so it has at least one entry, whatever the other checks add and whether
or not the names resolve; when the names differ the message does not occur. -/
theorem same_team_names_reported_once (env : ValidationEnv) (s : SetupTeams) :
    (s.BlueTeam.TeamName = s.RedTeam.TeamName →
      (validateSetupFormFields env s).validateList.count msgSameTeamNames = 1 ∧
      1 ≤ (validateSetupFormFields env s).validateList.length) ∧
    (s.BlueTeam.TeamName ≠ s.RedTeam.TeamName →
      ¬ (msgSameTeamNames ∈ (validateSetupFormFields env s).validateList)) := by
  have hB := banErrorsFrom_no_same env TeamColor.Blue s.BlueTeam.Bans 0 []
  have hR := banErrorsFrom_no_same env TeamColor.Red s.RedTeam.Bans 0 []
  have hpB := playerErrorsFrom_no_same env TeamColor.Blue s.BlueTeam.Players [] []
  have hpR := playerErrorsFrom_no_same env TeamColor.Red s.RedTeam.Players [] []
  have htB := teamNameErrors_no_same env TeamColor.Blue s.BlueTeam.TeamName
  have htR := teamNameErrors_no_same env TeamColor.Red s.RedTeam.TeamName
  have hd := rdsErrors_no_same env
  have hcount : s.BlueTeam.TeamName = s.RedTeam.TeamName →
      (validateSetupFormFields env s).validateList.count msgSameTeamNames = 1 := by
    intro heq
    rw [validateList_eq_concat]
    simp only [List.count_append, banErrors, playerErrors, List.count_eq_zero.2 hB,
      List.count_eq_zero.2 hR, List.count_eq_zero.2 hpB, List.count_eq_zero.2 hpR,
      List.count_eq_zero.2 htB, List.count_eq_zero.2 htR, List.count_eq_zero.2 hd]
    simp [sameTeamNamesErrors, heq]
  refine ⟨fun heq => ⟨hcount heq, ?_⟩, ?_⟩
  · have h1 := hcount heq
    have h2 := List.count_le_length msgSameTeamNames (validateSetupFormFields env s).validateList
    omega
  · intro hne
    rw [validateList_eq_concat]
    simp only [List.mem_append, not_or, banErrors, playerErrors]
    refine ⟨⟨⟨⟨⟨⟨⟨hB, hR⟩, hpB⟩, hpR⟩, htB⟩, htR⟩, ?_⟩, hd⟩
    simp [sameTeamNamesErrors, hne]

/-- C6 at a concrete setup: both sides are named Alpha, the name resolves, and
the message is reported once. -/
theorem same_team_names_reported_once_witness :
    (validateSetupFormFields demoEnvUp demoSetupSameNames).validateList.count
        msgSameTeamNames = 1 ∧
    1 ≤ (validateSetupFormFields demoEnvUp demoSetupSameNames).validateList.length :=
  (same_team_names_reported_once demoEnvUp demoSetupSameNames).1 (by decide)

/-! ### Association lists -/

theorem JsObj.get_del_self {α : Type} (obj : JsObj α) (k : String) :
    (obj.del k).get k = none := by
  induction obj with
  | nil => rfl
  | cons kv rest ih =>
    obtain ⟨k', v⟩ := kv
    by_cases h : k' = k
    · simpa [JsObj.del, h] using ih
    · simpa [JsObj.del, h, JsObj.get] using ih

theorem JsObj.get_del_other {α : Type} (obj : JsObj α) (k j : String) (hne : j ≠ k) :
    (obj.del k).get j = obj.get j := by
  induction obj with
  | nil => rfl
  | cons kv rest ih =>
    obtain ⟨k', v⟩ := kv
    unfold JsObj.del at ih ⊢
    by_cases h : k' = k
    · have hj : ¬ (k' = j) := fun e => hne (e.symm.trans h)
      rw [List.filter_cons_of_neg (by simp [h]), ih]
      simp [JsObj.get, hj]
    · rw [List.filter_cons_of_pos (by simp [h])]
      by_cases hj : k' = j
      · simp [JsObj.get, hj]
      · simp only [JsObj.get, hj, if_false]
        exact ih

theorem JsObj.get_set_self {α : Type} (obj : JsObj α) (k : String) (v : α) :
    (obj.set k v).get k = some v := by
  induction obj with
  | nil => simp [JsObj.set, JsObj.get]
  | cons kv rest ih =>
    obtain ⟨k', v'⟩ := kv
    by_cases h : k' = k
    · simp [JsObj.set, h, JsObj.get]
    · simpa [JsObj.set, h, JsObj.get] using ih

/-! ### C2, C3, C4: `submitMatchSetup` -/

/-- C2 (the code departs from it): when the `Matches` table holds no item under
the id, or the item has no `Setup` property, `submitMatchSetup` writes to no
store, but its promise is rejected with the ReferenceError for `matchId`,
which the logging line reads and nothing binds; `resolve(null)` is not
reached. -/
theorem submitMatchSetup_not_found_rejects (env : SubmitEnv) (id : String) (w : MatchWorld)
    (hf : env.fault StoreCall.getMatch = none)
    (h : w.Matches.get id = none ∨ ∃ m, w.Matches.get id = some m ∧ m.Setup = none) :
    submitMatchSetup env id w = (Outcome.rejected (JsError.referenceError "matchId"), w) := by
  have hlog : logAndResolveNull w = (Outcome.rejected (JsError.referenceError "matchId"), w) := by
    have : evalIdentifier submitMatchSetupScope "matchId" =
        Except.error (JsError.referenceError "matchId") := rfl
    simp [logAndResolveNull, this]
  rcases h with h | ⟨m, h, hs⟩
  · simp [submitMatchSetup, hf, h, hlog]
  · simp [submitMatchSetup, hf, h, hs, hlog]

/-- C2 at concrete inputs: the id `m404` is in no table, the item `m2` has no
`Setup`; both calls reject and leave the stores as they were. -/
theorem submitMatchSetup_not_found_rejects_witness :
    submitMatchSetup demoSubmitEnv "m404" demoMatchWorld =
      (Outcome.rejected (JsError.referenceError "matchId"), demoMatchWorld) ∧
    submitMatchSetup demoSubmitEnv "m2" demoMatchWorld =
      (Outcome.rejected (JsError.referenceError "matchId"), demoMatchWorld) :=
  ⟨submitMatchSetup_not_found_rejects demoSubmitEnv "m404" demoMatchWorld rfl
      (Or.inl (by decide)),
   submitMatchSetup_not_found_rejects demoSubmitEnv "m2" demoMatchWorld rfl
      (Or.inr ⟨{ Setup := none, attributes := [] }, by decide, rfl⟩)⟩

/-- C3: for a pending match whose `Setup` yields a non-empty validation list,
`submitMatchSetup` resolves with the error text, the setup object (as
validation annotated it) and `validateMessages` equal to that list, and the
stores are exactly as before: no relational insert, no put of the match, no
rewrite of the pending-setup index, nothing added to the log of writes. -/
theorem submitMatchSetup_invalid_no_mutation (env : SubmitEnv) (id : String) (w : MatchWorld)
    (m : MatchDbObject) (setup : MatchSetup)
    (hf : env.fault StoreCall.getMatch = none)
    (hm : w.Matches.get id = some m) (hs : m.Setup = some setup)
    (hv : (validateSetupFormFields env.validation setup.Teams).validateList ≠ []) :
    submitMatchSetup env id w =
      (Outcome.resolved (SubmitResult.invalid "Form fields from Match Setup are not valid."
          { setup with
            Teams := (validateSetupFormFields env.validation setup.Teams).setupTeamsDbObject }
          (validateSetupFormFields env.validation setup.Teams).validateList), w) ∧
    (submitMatchSetup env id w).2.effects = w.effects ∧
    (submitMatchSetup env id w).2.mySqlMatches = w.mySqlMatches ∧
    (submitMatchSetup env id w).2.Matches = w.Matches ∧
    (submitMatchSetup env id w).2.matchSetupIdMap = w.matchSetupIdMap := by
  have hlen : (validateSetupFormFields env.validation setup.Teams).validateList.length > 0 :=
    List.length_pos.2 hv
  have key : submitMatchSetup env id w =
      (Outcome.resolved (SubmitResult.invalid "Form fields from Match Setup are not valid."
          { setup with
            Teams := (validateSetupFormFields env.validation setup.Teams).setupTeamsDbObject }
          (validateSetupFormFields env.validation setup.Teams).validateList), w) := by
    simp [submitMatchSetup, hf, hm, hs, hlen]
  rw [key]
  exact ⟨rfl, rfl, rfl, rfl, rfl⟩

/-- C3 at a concrete input: the pending match `m4` names both sides Alpha. -/
theorem submitMatchSetup_invalid_no_mutation_witness :
    (submitMatchSetup demoSubmitEnv "m4" demoMatchWorld).2 = demoMatchWorld ∧
    (submitMatchSetup demoSubmitEnv "m4" demoMatchWorld).1 =
      Outcome.resolved (SubmitResult.invalid "Form fields from Match Setup are not valid."
        { Teams := (validateSetupFormFields demoEnvUp demoSetupSameNames).setupTeamsDbObject,
          attributes := [] }
        ["Team Names are the same."]) := by
  have h := (submitMatchSetup_invalid_no_mutation demoSubmitEnv "m4" demoMatchWorld
    { Setup := some { Teams := demoSetupSameNames, attributes := [] }, attributes := [] }
    { Teams := demoSetupSameNames, attributes := [] } rfl (by decide) rfl (by decide)).1
  rw [h]
  exact ⟨rfl, by decide⟩

/-- C4: for a pending match whose `Setup` validates with an empty list, with
the transform and every store call succeeding, `submitMatchSetup` resolves
with the canonical record and adds to the log of writes, in this order, the
relational insert of the record, the put of the record under the match id
and the put of the pending-setup index; the persisted index is the loaded one
with the entries of this id filtered out, so the id has no entry and every
other key reads as before; the `Matches` table holds the record under the
id. -/
theorem submitMatchSetup_success_order (env : SubmitEnv) (id : String) (w : MatchWorld)
    (m : MatchDbObject) (setup : MatchSetup) (newMatchDbObject : MatchDbObject)
    (hf : ∀ c, env.fault c = none)
    (hm : w.Matches.get id = some m) (hs : m.Setup = some setup)
    (hv : (validateSetupFormFields env.validation setup.Teams).validateList = [])
    (hc : env.createDbMatchV5Object id
      { setup with
        Teams := (validateSetupFormFields env.validation setup.Teams).setupTeamsDbObject } =
      Except.ok newMatchDbObject) :
    (submitMatchSetup env id w).1 =
      Outcome.resolved (SubmitResult.submitted newMatchDbObject) ∧
    (submitMatchSetup env id w).2.effects =
      w.effects ++
        [Effect.mySqlInsertMatch newMatchDbObject
           { setup with
             Teams := (validateSetupFormFields env.validation setup.Teams).setupTeamsDbObject },
         Effect.putMatch id newMatchDbObject,
         Effect.putMatchSetupIds (w.matchSetupIdMap.del id)] ∧
    (submitMatchSetup env id w).2.matchSetupIdMap =
      w.matchSetupIdMap.filter (fun kv => decide (kv.1 ≠ id)) ∧
    (submitMatchSetup env id w).2.matchSetupIdMap.get id = none ∧
    (∀ k, k ≠ id →
      (submitMatchSetup env id w).2.matchSetupIdMap.get k = w.matchSetupIdMap.get k) ∧
    (submitMatchSetup env id w).2.Matches.get id = some newMatchDbObject := by
  have key : submitMatchSetup env id w =
      (Outcome.resolved (SubmitResult.submitted newMatchDbObject),
        { Matches := w.Matches.set id newMatchDbObject,
          matchSetupIdMap := w.matchSetupIdMap.del id,
          mySqlMatches := w.mySqlMatches ++ [(newMatchDbObject,
            { setup with
              Teams := (validateSetupFormFields env.validation setup.Teams).setupTeamsDbObject })],
          effects := w.effects ++
            [Effect.mySqlInsertMatch newMatchDbObject
               { setup with
                 Teams := (validateSetupFormFields env.validation setup.Teams).setupTeamsDbObject },
             Effect.putMatch id newMatchDbObject,
             Effect.putMatchSetupIds (w.matchSetupIdMap.del id)] }) := by
    simp [submitMatchSetup, hf, hm, hs, hv, hc, getMatchSetupMap]
  rw [key]
  refine ⟨rfl, rfl, rfl, ?_, ?_, ?_⟩
  · exact JsObj.get_del_self _ _
  · intro k hk
    exact JsObj.get_del_other _ _ _ hk
  · exact JsObj.get_set_self _ _ _

/-- C4 at a concrete input: the pending match `m1` is submitted; the three
writes are logged in order and the index keeps only `m3`. -/
theorem submitMatchSetup_success_order_witness :
    (submitMatchSetup demoSubmitEnv "m1" demoMatchWorld).1 =
      Outcome.resolved (SubmitResult.submitted
        { Setup := none, attributes := [("MatchPId", "m1")] }) ∧
    (submitMatchSetup demoSubmitEnv "m1" demoMatchWorld).2.matchSetupIdMap =
      [("m3", "week 2")] ∧
    (submitMatchSetup demoSubmitEnv "m1" demoMatchWorld).2.effects.length = 3 := by
  have h := submitMatchSetup_success_order demoSubmitEnv "m1" demoMatchWorld
    { Setup := some { Teams := demoSetupSharedBans, attributes := [] }, attributes := [] }
    { Teams := demoSetupSharedBans, attributes := [] }
    { Setup := none, attributes := [("MatchPId", "m1")] }
    (fun _ => rfl) (by decide) rfl (by decide) rfl
  refine ⟨h.1, ?_, ?_⟩
  · rw [h.2.2.1]; decide
  · rw [h.2.1]; rfl

/-! ### More on association lists -/

theorem JsObj.has_eq_isSome {α : Type} (obj : JsObj α) (k : String) :
    obj.has k = (obj.get k).isSome := by
  induction obj with
  | nil => rfl
  | cons kv rest ih =>
    obtain ⟨k', v⟩ := kv
    by_cases h : k' = k <;> simp [JsObj.has, JsObj.get, h, ih]

theorem JsObj.get_set_other {α : Type} (obj : JsObj α) (k j : String) (v : α) (hne : j ≠ k) :
    (obj.set k v).get j = obj.get j := by
  induction obj with
  | nil =>
    have : ¬ (k = j) := fun e => hne e.symm
    simp [JsObj.set, JsObj.get, this]
  | cons kv rest ih =>
    obtain ⟨k', v'⟩ := kv
    by_cases h : k' = k
    · have hj : ¬ (k' = j) := fun e => hne (e.symm.trans h)
      have hj2 : ¬ (k = j) := fun e => hne e.symm
      simp [JsObj.set, h, JsObj.get, hj, hj2]
    · by_cases hj : k' = j
      · subst hj
        simp [JsObj.set, h, JsObj.get]
      · simp [JsObj.set, h, JsObj.get, hj, ih]

theorem JsObj.has_set {α : Type} (obj : JsObj α) (k j : String) (v : α) :
    (obj.set k v).has j = (decide (j = k) || obj.has j) := by
  by_cases h : j = k
  · subst h
    simp [JsObj.has_eq_isSome, JsObj.get_set_self]
  · simp [JsObj.has_eq_isSome, JsObj.get_set_other _ _ _ _ h, h]

theorem JsObj.has_del {α : Type} (obj : JsObj α) (k j : String) :
    (obj.del k).has j = (decide (j ≠ k) && obj.has j) := by
  by_cases h : j = k
  · subst h
    simp [JsObj.has_eq_isSome, JsObj.get_del_self]
  · simp [JsObj.has_eq_isSome, JsObj.get_del_other _ _ _ h, h]

theorem seasonGetItem_put_self (table : List (Nat × SeasonDbObject)) (seasonId : Nat)
    (item : SeasonDbObject) :
    seasonGetItem (seasonPutItem table seasonId item) seasonId = some item := by
  induction table with
  | nil => simp [seasonPutItem, seasonGetItem]
  | cons kv rest ih =>
    obtain ⟨k, v⟩ := kv
    by_cases h : k = seasonId
    · simp [seasonPutItem, seasonGetItem, h]
    · simp [seasonPutItem, seasonGetItem, h, ih]

/-! ### C7: `putSeasonRosterTeams` -/

theorem teamsAfterSpec_has (env : SeasonEnv) (teams cur : JsObj TeamJson) (pre : List String)
    (hcur : ∀ h, cur.get h = teamsAfterSpec env teams pre h) (h : String) :
    cur.has h = true ↔ (teams.has h = true ∨ h ∈ pre.map env.getTeamHashId) := by
  rw [JsObj.has_eq_isSome, hcur h]
  unfold teamsAfterSpec
  by_cases h1 : teams.has h = true
  · have : (teams.get h).isSome = true := by rw [← JsObj.has_eq_isSome]; exact h1
    simp [h1, this]
  · by_cases h2 : h ∈ pre.map env.getTeamHashId
    · simp only [h1, h2, if_true, if_false]
      simp
    · simp only [h1, h2, if_false]
      simp

theorem putSeasonRosterTeamsLoop_spec (env : SeasonEnv) (roster : SeasonRoster)
    (teams : JsObj TeamJson) (rest : List String) :
    ∀ (pre : List String) (cur : JsObj TeamJson) (errs : List String),
      (∀ h, cur.get h = teamsAfterSpec env teams pre h) →
      ∃ teams', putSeasonRosterTeamsLoop env rest (some { roster with Teams := some cur }) errs =
          Except.ok (some { roster with Teams := some teams' },
            errs ++ (List.range rest.length).filterMap
              (fun j => teamMessageSpec env teams (pre ++ rest) (pre.length + j))) ∧
        (∀ h, teams'.get h = teamsAfterSpec env teams (pre ++ rest) h) := by
  induction rest with
  | nil =>
    intro pre cur errs hcur
    exact ⟨cur, by simp [putSeasonRosterTeamsLoop], by simpa using hcur⟩
  | cons t rest ih =>
    intro pre cur errs hcur
    have hget : (pre ++ t :: rest).get? pre.length = some t := by
      rw [List.get?_eq_getElem?, List.getElem?_append_right (Nat.le_refl _)]
      simp
    have hhas := teamsAfterSpec_has env teams cur pre hcur (env.getTeamHashId t)
    have hmsg0 : teamMessageSpec env teams (pre ++ t :: rest) pre.length =
        if cur.has (env.getTeamHashId t) = true then
          some (msgTeamAlreadyInRoster (env.getTeamName (env.getTeamHashId t)))
        else none := by
      unfold teamMessageSpec
      simp only [hget, List.take_left]
      by_cases hc : cur.has (env.getTeamHashId t) = true
      · rw [if_pos (hhas.1 hc), if_pos hc]
      · rw [if_neg (fun h => hc (hhas.2 h)), if_neg hc]
    have hshift : ∀ (l : List Nat),
        List.filterMap (fun j => teamMessageSpec env teams (pre ++ [t] ++ rest)
            ((pre ++ [t]).length + j)) l =
        List.filterMap (fun j => teamMessageSpec env teams (pre ++ t :: rest)
            (pre.length + (j + 1))) l := by
      intro l
      apply List.filterMap_congr
      intro j _
      simp only [List.length_append, List.length_singleton, List.append_assoc,
        List.singleton_append]
      congr 1
      omega
    rw [List.length_cons, List.range_succ_eq_map, List.filterMap_cons, List.filterMap_map]
    simp only [Nat.add_zero, hmsg0, Function.comp_def, Nat.succ_eq_add_one]
    by_cases hc : cur.has (env.getTeamHashId t) = true
    · have hcur' : ∀ h, cur.get h = teamsAfterSpec env teams (pre ++ [t]) h := by
        intro h
        rw [hcur h]
        unfold teamsAfterSpec
        by_cases h1 : teams.has h = true
        · simp [h1]
        · by_cases h2 : h = env.getTeamHashId t
          · subst h2
            rcases hhas.1 hc with h3 | h3
            · exact absurd h3 h1
            · simp [h1, h3]
          · simp [h1, h2]
      obtain ⟨teams', hloop, hspec⟩ := ih (pre ++ [t]) cur
        (errs ++ [msgTeamAlreadyInRoster (env.getTeamName (env.getTeamHashId t))]) hcur'
      refine ⟨teams', ?_, ?_⟩
      · unfold putSeasonRosterTeamsLoop
        simp only [hc, if_true]
        rw [hloop, hshift]
        simp
      · intro h
        simpa using hspec h
    · have hcur' : ∀ h, (cur.set (env.getTeamHashId t) TeamJson.empty).get h =
          teamsAfterSpec env teams (pre ++ [t]) h := by
        intro h
        have hn1 : ¬ (teams.has (env.getTeamHashId t) = true) := fun h3 => hc (hhas.2 (Or.inl h3))
        by_cases h2 : h = env.getTeamHashId t
        · subst h2
          rw [JsObj.get_set_self]
          unfold teamsAfterSpec
          simp [hn1]
        · rw [JsObj.get_set_other _ _ _ _ h2, hcur h]
          unfold teamsAfterSpec
          by_cases h1 : teams.has h = true
          · simp [h1]
          · simp [h1, h2]
      obtain ⟨teams', hloop, hspec⟩ := ih (pre ++ [t])
        (cur.set (env.getTeamHashId t) TeamJson.empty) errs hcur'
      refine ⟨teams', ?_, ?_⟩
      · unfold putSeasonRosterTeamsLoop
        simp only [hc, if_false]
        rw [hloop, hshift]
        simp
      · intro h
        simpa using hspec h

/-- C7 as stated fails: season 7 has team `hA`; for the list A, C the id C is
new and A is a duplicate, and `putSeasonRosterTeams` resolves with the one
message and writes nothing: the only effect is the read, the Season table is
as before and holds no team `hC`. -/
theorem putSeasonRosterTeams_duplicate_blocks_write :
    (putSeasonRosterTeams demoSeasonEnv 7 ["A", "C"] demoSeasonWorld).1 =
      Outcome.resolved
        (PutTeamsResult.errorList ["Team hA - Team already in the season Roster."]) ∧
    (putSeasonRosterTeams demoSeasonEnv 7 ["A", "C"] demoSeasonWorld).2.Season =
      demoSeasonWorld.Season ∧
    (putSeasonRosterTeams demoSeasonEnv 7 ["A", "C"] demoSeasonWorld).2.effects =
      [SeasonEffect.dynamoDbGetItem 7] ∧
    storedPlayers (putSeasonRosterTeams demoSeasonEnv 7 ["A", "C"] demoSeasonWorld).2 7 "hC" =
      none := by
  decide

/-- C7, amended: for a season document with a `Roster.Teams` mapping,
`putSeasonRosterTeams` visits every id of the list: the loop ends with one
`Team already in the season Roster` message for each id whose hash id was a
key by its turn, in list order, and with a mapping in which every team
already there is unchanged and every other listed hash id has a team with
empty `Players`. When no id was a duplicate the document with that mapping is
put to the store and the call resolves with it. When some id was a duplicate
the call resolves with the messages and neither the store nor the cache is
written. -/
theorem putSeasonRosterTeams_processes_every_id (env : SeasonEnv) (seasonId : Nat)
    (teamPIdList : List String) (w : SeasonWorld) (seasonObject : SeasonDbObject)
    (roster : SeasonRoster) (teams : JsObj TeamJson)
    (hf : ∀ c, env.fault c = none)
    (hdoc : seasonGetItem w.Season seasonId = some seasonObject)
    (hr : seasonObject.Roster = some roster) (ht : roster.Teams = some teams) :
    ∃ teams',
      putSeasonRosterTeamsLoop env teamPIdList seasonObject.Roster [] =
        Except.ok (some { roster with Teams := some teams' },
          teamErrorsSpec env teams teamPIdList) ∧
      (∀ h, teams'.get h = teamsAfterSpec env teams teamPIdList h) ∧
      (teamErrorsSpec env teams teamPIdList = [] →
        (putSeasonRosterTeams env seasonId teamPIdList w).1 =
          Outcome.resolved
            (PutTeamsResult.done seasonId (some { roster with Teams := some teams' })) ∧
        seasonGetItem (putSeasonRosterTeams env seasonId teamPIdList w).2.Season seasonId =
          some { seasonObject with Roster := some { roster with Teams := some teams' } }) ∧
      (teamErrorsSpec env teams teamPIdList ≠ [] →
        (putSeasonRosterTeams env seasonId teamPIdList w).1 =
          Outcome.resolved (PutTeamsResult.errorList (teamErrorsSpec env teams teamPIdList)) ∧
        (putSeasonRosterTeams env seasonId teamPIdList w).2.Season = w.Season ∧
        (putSeasonRosterTeams env seasonId teamPIdList w).2.cache = w.cache ∧
        (putSeasonRosterTeams env seasonId teamPIdList w).2.effects =
          w.effects ++ [SeasonEffect.dynamoDbGetItem seasonId]) := by
  have hroster : roster = { roster with Teams := some teams } := by
    cases roster
    simp only at ht
    subst ht
    rfl
  obtain ⟨teams', hloop, hspec⟩ :=
    putSeasonRosterTeamsLoop_spec env roster teams teamPIdList [] teams []
      (by intro h; unfold teamsAfterSpec
          by_cases h1 : teams.has h = true
          · simp [h1]
          · have : teams.get h = none := by
              have h2 := JsObj.has_eq_isSome teams h
              cases hg : teams.get h with
              | none => rfl
              | some v => rw [hg] at h2; exact absurd h2 h1
            simp [h1, this])
  rw [← hroster] at hloop
  simp only [List.nil_append, List.length_nil, Nat.zero_add] at hloop hspec
  have hloop' : putSeasonRosterTeamsLoop env teamPIdList seasonObject.Roster [] =
      Except.ok (some { roster with Teams := some teams' },
        teamErrorsSpec env teams teamPIdList) := by
    rw [hr, hloop]
    rfl
  refine ⟨teams', hloop', hspec, ?_, ?_⟩
  · intro hnone
    rw [hnone] at hloop'
    simp only [putSeasonRosterTeams, hf, SeasonWorld.log, hdoc, hloop', List.length_nil,
      gt_iff_lt, Nat.lt_irrefl, if_false, SeasonWorld.cacheDel, SeasonWorld.putItem,
      seasonGetItem_put_self, and_self]
  · intro hsome
    have hlen : (teamErrorsSpec env teams teamPIdList).length > 0 := List.length_pos.2 hsome
    simp only [putSeasonRosterTeams, hf, SeasonWorld.log, hdoc, hloop', hlen, if_true,
      and_self]

/-- C7, amended, at concrete inputs: for the list A, C on season 7 the call
resolves with the message for A and the Season table is as before; for the
list C alone it resolves with a roster in which `hC` has empty `Players` and
`hA` is as it was. -/
theorem putSeasonRosterTeams_processes_every_id_witness :
    ((putSeasonRosterTeams demoSeasonEnv 7 ["A", "C"] demoSeasonWorld).1 =
        Outcome.resolved (PutTeamsResult.errorList
          (teamErrorsSpec demoSeasonEnv (demoRoster.Teams.getD []) ["A", "C"])) ∧
      (putSeasonRosterTeams demoSeasonEnv 7 ["A", "C"] demoSeasonWorld).2.Season =
        demoSeasonWorld.Season) ∧
    (∃ teams', (putSeasonRosterTeams demoSeasonEnv 7 ["C"] demoSeasonWorld).1 =
        Outcome.resolved
          (PutTeamsResult.done 7 (some { demoRoster with Teams := some teams' })) ∧
      teams'.get "hC" = some TeamJson.empty ∧
      teams'.get "hA" = JsObj.get (demoRoster.Teams.getD []) "hA") := by
  constructor
  · obtain ⟨_, _, _, _, h⟩ := putSeasonRosterTeams_processes_every_id demoSeasonEnv 7 ["A", "C"]
      demoSeasonWorld
      { Roster := some demoRoster, attributes := [], SeasonShortName := some "w2020pl" }
      demoRoster (demoRoster.Teams.getD []) (fun _ => rfl) (by decide) rfl rfl
    exact ⟨(h (by decide)).1, (h (by decide)).2.1⟩
  · obtain ⟨teams', _, hspec, hok, _⟩ := putSeasonRosterTeams_processes_every_id demoSeasonEnv 7
      ["C"] demoSeasonWorld
      { Roster := some demoRoster, attributes := [], SeasonShortName := some "w2020pl" }
      demoRoster (demoRoster.Teams.getD []) (fun _ => rfl) (by decide) rfl rfl
    refine ⟨teams', (hok (by decide)).1, ?_, ?_⟩
    · rw [hspec]; decide
    · rw [hspec]; decide

/-! ### C8: add then remove -/

theorem JsObj.set_of_not_has {α : Type} (obj : JsObj α) (k : String) (v : α)
    (h : obj.has k = false) : obj.set k v = obj ++ [(k, v)] := by
  induction obj with
  | nil => rfl
  | cons kv rest ih =>
    obtain ⟨k', v'⟩ := kv
    by_cases hk : k' = k
    · simp [JsObj.has, hk] at h
    · have hrest : JsObj.has rest k = false := by simpa [JsObj.has, hk] using h
      simp [JsObj.set, hk, ih hrest]

theorem JsObj.has_false_iff {α : Type} (obj : JsObj α) (k : String) :
    obj.has k = false ↔ ∀ kv ∈ obj, kv.1 ≠ k := by
  induction obj with
  | nil => simp [JsObj.has]
  | cons kv rest ih =>
    obtain ⟨k', v'⟩ := kv
    by_cases hk : k' = k
    · simp [JsObj.has, hk]
    · simp [JsObj.has, hk, ih]

theorem JsObj.del_of_not_has {α : Type} (obj : JsObj α) (k : String)
    (h : obj.has k = false) : obj.del k = obj := by
  unfold JsObj.del
  rw [List.filter_eq_self]
  intro kv hkv
  simpa using (JsObj.has_false_iff obj k).1 h kv hkv

theorem addProfilesLoop_appends (env : SeasonEnv) (teamHId : String) (rest : List String) :
    ∀ (cur : JsObj PlayerJson) (pf : Option (JsObj ProfileJson)) (msgs : List String)
      (result : Option (JsObj PlayerJson) × Option (JsObj ProfileJson) × List String),
      addProfilesLoop env teamHId rest (some cur) pf msgs = Except.ok result →
      ∃ extra : JsObj PlayerJson, result.1 = some (cur ++ extra) ∧
        (∀ kv ∈ extra, kv.1 ∈ rest.map env.getProfileHashId) ∧
        (∀ kv ∈ extra, cur.has kv.1 = false) := by
  induction rest with
  | nil =>
    intro cur pf msgs result h
    simp only [addProfilesLoop, Except.ok.injEq] at h
    subst h
    exact ⟨[], by simp, by simp, by simp⟩
  | cons p rest ih =>
    intro cur pf msgs result h
    unfold addProfilesLoop at h
    by_cases hc : cur.has (env.getProfileHashId p) = true
    · simp only [hc, if_true] at h
      obtain ⟨extra, h1, h2, h3⟩ := ih cur pf _ result h
      exact ⟨extra, h1, fun kv hkv => by simp [h2 kv hkv], h3⟩
    · simp only [hc, if_false] at h
      cases pf with
      | none => simp at h
      | some pfm =>
        simp only at h
        have hc' : cur.has (env.getProfileHashId p) = false := by simpa using hc
        rw [JsObj.set_of_not_has _ _ _ hc'] at h
        obtain ⟨extra, h1, h2, h3⟩ := ih _ _ _ result h
        refine ⟨(env.getProfileHashId p, PlayerJson.empty) :: extra, ?_, ?_, ?_⟩
        · simpa using h1
        · intro kv hkv
          rcases List.mem_cons.1 hkv with h4 | h4
          · subst h4; simp
          · simp [h2 kv h4]
        · intro kv hkv
          rcases List.mem_cons.1 hkv with h4 | h4
          · subst h4; exact hc'
          · have := h3 kv h4
            rw [JsObj.has_false_iff] at this ⊢
            intro kv' hkv'
            exact this kv' (List.mem_append_left _ hkv')

theorem removeProfilesLoop_filters (env : SeasonEnv) (rest : List String) :
    ∀ (cur : JsObj PlayerJson) (msgs : List String),
      ∃ msgs', removeProfilesLoop env rest (some cur) msgs =
        Except.ok (some (cur.filter
          (fun kv => decide (¬ (kv.1 ∈ rest.map env.getProfileHashId)))), msgs') := by
  induction rest with
  | nil => intro cur msgs; exact ⟨msgs, by simp [removeProfilesLoop]⟩
  | cons p rest ih =>
    intro cur msgs
    have hfilter : (cur.del (env.getProfileHashId p)).filter
          (fun kv => decide (¬ (kv.1 ∈ rest.map env.getProfileHashId))) =
        cur.filter (fun kv => decide (¬ (kv.1 ∈ (p :: rest).map env.getProfileHashId))) := by
      unfold JsObj.del
      rw [List.filter_filter]
      apply List.filter_congr
      intro kv _
      simp only [List.map_cons, List.mem_cons, not_or, Bool.decide_and, ne_eq]
      rw [Bool.and_comm]
    unfold removeProfilesLoop
    by_cases hc : cur.has (env.getProfileHashId p) = true
    · simp only [hc, if_true]
      obtain ⟨msgs', h⟩ := ih (cur.del (env.getProfileHashId p))
        (msgs ++ [msgProfileRemoved (env.getProfileName (env.getProfileHashId p))])
      exact ⟨msgs', by rw [h, hfilter]⟩
    · simp only [hc, if_false]
      have hc' : cur.has (env.getProfileHashId p) = false := by simpa using hc
      obtain ⟨msgs', h⟩ := ih cur
        (msgs ++ [msgProfileNotFound (env.getProfileName (env.getProfileHashId p))])
      refine ⟨msgs', ?_⟩
      rw [h, ← hfilter, JsObj.del_of_not_has _ _ hc']
      simp

theorem storedPlayers_some (w : SeasonWorld) (seasonId : Nat) (teamHId : String)
    (ps : JsObj PlayerJson) (h : storedPlayers w seasonId teamHId = some ps) :
    ∃ doc roster teams team, seasonGetItem w.Season seasonId = some doc ∧
      doc.Roster = some roster ∧ roster.Teams = some teams ∧
      teams.get teamHId = some team ∧ team.Players = some ps := by
  unfold storedPlayers at h
  cases h1 : seasonGetItem w.Season seasonId with
  | none => simp [h1] at h
  | some doc =>
    cases h2 : doc.Roster with
    | none => simp [h1, h2] at h
    | some roster =>
      cases h3 : roster.Teams with
      | none => simp [h1, h2, h3] at h
      | some teams =>
        cases h4 : teams.get teamHId with
        | none => simp [h1, h2, h3, h4] at h
        | some team =>
          simp only [h1, h2, h3, h4] at h
          exact ⟨doc, roster, teams, team, rfl, h2, h3, h4, h⟩

theorem storedPlayers_put (w : SeasonWorld) (seasonId : Nat) (teamHId : String)
    (doc : SeasonDbObject) (roster : SeasonRoster) (teams : JsObj TeamJson) (team : TeamJson)
    (players : Option (JsObj PlayerJson)) (profiles : Option (JsObj ProfileJson)) :
    storedPlayers (w.putItem seasonId
      (doc.withTeamPlayers roster teams teamHId team players profiles)) seasonId teamHId =
      players := by
  simp [storedPlayers, SeasonWorld.putItem, seasonGetItem_put_self,
    SeasonDbObject.withTeamPlayers, JsObj.get_set_self]

theorem removeProfileFromRoster_stored (env : SeasonEnv) (seasonId : Nat) (teamPId : String)
    (profilePIdList : List String) (w : SeasonWorld) (ps : JsObj PlayerJson)
    (hf : ∀ c, env.fault c = none)
    (h : storedPlayers w seasonId (env.getTeamHashId teamPId) = some ps) :
    storedPlayers (removeProfileFromRoster env seasonId teamPId profilePIdList w).2 seasonId
        (env.getTeamHashId teamPId) =
      some (ps.filter
        (fun kv => decide (¬ (kv.1 ∈ profilePIdList.map env.getProfileHashId)))) := by
  obtain ⟨doc, roster, teams, team, hdoc, hr, ht, hg, hp⟩ := storedPlayers_some _ _ _ _ h
  obtain ⟨msgs', hl⟩ := removeProfilesLoop_filters env profilePIdList ps []
  simp only [removeProfileFromRoster, hf, SeasonWorld.log, hdoc, hr, ht, hg, hp, hl]
  exact storedPlayers_put _ _ _ _ _ _ _ _ _

theorem addProfilesToRoster_stored (env : SeasonEnv) (seasonId : Nat) (teamPId : String)
    (profilePIdList : List String) (w : SeasonWorld) (ps : JsObj PlayerJson)
    (hf : ∀ c, env.fault c = none)
    (h : storedPlayers w seasonId (env.getTeamHashId teamPId) = some ps) :
    ∃ extra : JsObj PlayerJson,
      (∀ kv ∈ extra, kv.1 ∈ profilePIdList.map env.getProfileHashId) ∧
      (∀ kv ∈ extra, ps.has kv.1 = false) ∧
      storedPlayers (addProfilesToRoster env seasonId teamPId profilePIdList w).2 seasonId
        (env.getTeamHashId teamPId) = some (ps ++ extra) := by
  obtain ⟨doc, roster, teams, team, hdoc, hr, ht, hg, hp⟩ := storedPlayers_some _ _ _ _ h
  cases hl : addProfilesLoop env (env.getTeamHashId teamPId) profilePIdList (some ps)
      roster.Profiles [] with
  | error e =>
    refine ⟨[], by simp, by simp, ?_⟩
    simp only [addProfilesToRoster, hf, SeasonWorld.log, hdoc, hr, ht, hg, hp, hl,
      List.append_nil]
    simpa [storedPlayers] using h
  | ok result =>
    obtain ⟨extra, h1, h2, h3⟩ := addProfilesLoop_appends env _ _ _ _ _ _ hl
    refine ⟨extra, h2, h3, ?_⟩
    obtain ⟨players, profiles, msgs⟩ := result
    simp only at h1
    subst h1
    simp only [addProfilesToRoster, hf, SeasonWorld.log, hdoc, hr, ht, hg, hp, hl,
      List.length_nil, gt_iff_lt, Nat.lt_irrefl, if_false]
    exact storedPlayers_put _ _ _ _ _ _ _ _ _

/-- C8 as stated fails: player `hp1` is in team `hA` of season 7; adding p1 to
team A (reported as already in the team) and then removing p1 leaves the
team without `hp1`. -/
theorem add_then_remove_drops_existing_player :
    storedPlayers demoSeasonWorld 7 "hA" = some [("hp1", PlayerJson.empty)] ∧
    storedPlayers
      (removeProfileFromRoster demoSeasonEnv 7 "A" ["p1"]
        (addProfilesToRoster demoSeasonEnv 7 "A" ["p1"] demoSeasonWorld).2).2 7 "hA" =
      some [] := by
  decide

/-- C8, amended: for a season document whose roster has the team with a
`Players` mapping, and a profile id list none of whose hash ids is a key of
that mapping, `addProfilesToRoster` followed by `removeProfileFromRoster` with
the same team and list leaves the team's `Players` mapping in the stored
document equal to its value before the add. -/
theorem add_then_remove_restores_players (env : SeasonEnv) (seasonId : Nat) (teamPId : String)
    (profilePIdList : List String) (w : SeasonWorld) (players : JsObj PlayerJson)
    (hf : ∀ c, env.fault c = none)
    (hp : storedPlayers w seasonId (env.getTeamHashId teamPId) = some players)
    (hnew : ∀ p ∈ profilePIdList, players.has (env.getProfileHashId p) = false) :
    storedPlayers
      (removeProfileFromRoster env seasonId teamPId profilePIdList
        (addProfilesToRoster env seasonId teamPId profilePIdList w).2).2 seasonId
      (env.getTeamHashId teamPId) = some players := by
  obtain ⟨extra, h1, _, h3⟩ :=
    addProfilesToRoster_stored env seasonId teamPId profilePIdList w players hf hp
  rw [removeProfileFromRoster_stored env seasonId teamPId profilePIdList _ _ hf h3]
  congr 1
  rw [List.filter_append]
  have hkeep : players.filter
      (fun kv => decide (¬ (kv.1 ∈ profilePIdList.map env.getProfileHashId))) = players := by
    rw [List.filter_eq_self]
    intro kv hkv
    simp only [decide_eq_true_eq]
    intro hmem
    obtain ⟨p, hpl, hpe⟩ := List.mem_map.1 hmem
    have := (JsObj.has_false_iff players (env.getProfileHashId p)).1 (hnew p hpl) kv hkv
    exact this hpe.symm
  have hdrop : extra.filter
      (fun kv => decide (¬ (kv.1 ∈ profilePIdList.map env.getProfileHashId))) = [] := by
    rw [List.filter_eq_nil_iff]
    intro kv hkv
    simp [h1 kv hkv]
  rw [hkeep, hdrop, List.append_nil]

/-- C8, amended, at a concrete input: p2 and p3 are new to team A of season 7;
after adding and removing them the team has its one player `hp1` again. -/
theorem add_then_remove_restores_players_witness :
    storedPlayers
      (removeProfileFromRoster demoSeasonEnv 7 "A" ["p2", "p3"]
        (addProfilesToRoster demoSeasonEnv 7 "A" ["p2", "p3"] demoSeasonWorld).2).2 7
      (demoSeasonEnv.getTeamHashId "A") = some [("hp1", PlayerJson.empty)] :=
  add_then_remove_restores_players demoSeasonEnv 7 "A" ["p2", "p3"] demoSeasonWorld
    [("hp1", PlayerJson.empty)] (fun _ => rfl) (by decide) (by decide)

/-! ### C9: the roster invariant -/

theorem JsObj.has_true_iff {α : Type} (obj : JsObj α) (k : String) :
    obj.has k = true ↔ k ∈ obj.keys := by
  induction obj with
  | nil => simp [JsObj.has, JsObj.keys]
  | cons kv rest ih =>
    obtain ⟨k', v'⟩ := kv
    by_cases hk : k' = k
    · simp [JsObj.has, JsObj.keys, hk]
    · have hk2 : ¬ (k = k') := fun e => hk e.symm
      simp only [JsObj.has, hk, if_false, ih]
      simp [JsObj.keys, hk2]

theorem JsObj.mem_keys_of_get {α : Type} (obj : JsObj α) (k : String) (v : α)
    (h : obj.get k = some v) : k ∈ obj.keys := by
  rw [← JsObj.has_true_iff, JsObj.has_eq_isSome, h]
  rfl

theorem JsObj.has_append {α : Type} (a b : JsObj α) (k : String) :
    JsObj.has (a ++ b) k = (a.has k || b.has k) := by
  induction a with
  | nil => simp [JsObj.has]
  | cons kv rest ih =>
    obtain ⟨k', v'⟩ := kv
    by_cases hk : k' = k
    · simp [JsObj.has, hk]
    · simpa [JsObj.has, hk] using ih

theorem JsObj.has_of_has_filter {α : Type} (obj : JsObj α) (f : String × α → Bool) (k : String)
    (h : JsObj.has (obj.filter f) k = true) : obj.has k = true := by
  rw [JsObj.has_true_iff] at h ⊢
  unfold JsObj.keys at h ⊢
  obtain ⟨kv, hkv, hk⟩ := List.mem_map.1 h
  exact List.mem_map.2 ⟨kv, (List.mem_filter.1 hkv).1, hk⟩

theorem rosterInvariant_of_check (doc : SeasonDbObject) (h : rosterInvariantCheck doc = true) :
    RosterInvariant doc := by
  intro roster teams t1 t2 team1 team2 ps1 ps2 p hr ht hne h1 h2 hp1 hp2 hhas
  unfold rosterInvariantCheck at h
  simp only [hr, ht, List.all_eq_true] at h
  have h3 := h t1 (JsObj.mem_keys_of_get _ _ _ h1) t2 (JsObj.mem_keys_of_get _ _ _ h2)
  simp only [h1, h2, hp1, hp2, hne, decide_False, Bool.false_or, List.all_eq_true] at h3
  have h4 := h3 p ((JsObj.has_true_iff _ _).1 hhas)
  simpa using h4

theorem withTeamPlayers_invariant (doc : SeasonDbObject) (roster : SeasonRoster)
    (teams : JsObj TeamJson) (teamHId : String) (team : TeamJson)
    (players : Option (JsObj PlayerJson)) (profiles : Option (JsObj ProfileJson))
    (hr : doc.Roster = some roster) (ht : roster.Teams = some teams)
    (hg : teams.get teamHId = some team) (hinv : RosterInvariant doc)
    (hnew : ∀ (p : String) (ps' : JsObj PlayerJson), players = some ps' → ps'.has p = true →
      (∃ ps, team.Players = some ps ∧ ps.has p = true) ∨
      (∀ t2 team2 ps2, t2 ≠ teamHId → teams.get t2 = some team2 → team2.Players = some ps2 →
        ps2.has p = false)) :
    RosterInvariant (doc.withTeamPlayers roster teams teamHId team players profiles) := by
  intro roster' teams' t1 t2 team1 team2 ps1 ps2 p hr' ht' hne h1 h2 hp1 hp2 hhas
  simp only [SeasonDbObject.withTeamPlayers, Option.some.injEq] at hr'
  subst hr'
  simp only [Option.some.injEq] at ht'
  subst ht'
  by_cases e1 : t1 = teamHId
  · subst e1
    have e2 : t2 ≠ t1 := fun e => hne e.symm
    rw [JsObj.get_set_self] at h1
    rw [JsObj.get_set_other _ _ _ _ e2] at h2
    simp only [Option.some.injEq] at h1
    subst h1
    simp only at hp1
    rcases hnew p ps1 hp1 hhas with ⟨ps, hps, hhas'⟩ | hfree
    · exact hinv roster teams t1 t2 team team2 ps ps2 p hr ht hne hg h2 hps hp2 hhas'
    · exact hfree t2 team2 ps2 e2 h2 hp2
  · rw [JsObj.get_set_other _ _ _ _ e1] at h1
    by_cases e2 : t2 = teamHId
    · subst e2
      rw [JsObj.get_set_self] at h2
      simp only [Option.some.injEq] at h2
      subst h2
      simp only at hp2
      cases hb : ps2.has p with
      | false => rfl
      | true =>
        rcases hnew p ps2 hp2 hb with ⟨ps, hps, hhas'⟩ | hfree
        · have := hinv roster teams t2 t1 team team1 ps ps1 p hr ht (fun e => hne e.symm)
            hg h1 hps hp1 hhas'
          rw [this] at hhas
          exact absurd hhas (by decide)
        · have := hfree t1 team1 ps1 e1 h1 hp1
          rw [this] at hhas
          exact absurd hhas (by decide)
    · rw [JsObj.get_set_other _ _ _ _ e2] at h2
      exact hinv roster teams t1 t2 team1 team2 ps1 ps2 p hr ht hne h1 h2 hp1 hp2 hhas

theorem storedInvariant_putItem (w : SeasonWorld) (seasonId : Nat) (doc : SeasonDbObject)
    (h : RosterInvariant doc) : StoredInvariant (w.putItem seasonId doc) seasonId := by
  intro doc' hdoc'
  simp only [SeasonWorld.putItem, seasonGetItem_put_self, Option.some.injEq] at hdoc'
  subst hdoc'
  exact h

theorem storedInvariant_of_eq (w w' : SeasonWorld) (seasonId : Nat)
    (he : w'.Season = w.Season) (h : StoredInvariant w seasonId) :
    StoredInvariant w' seasonId := by
  intro doc hdoc
  rw [he] at hdoc
  exact h doc hdoc

theorem teamsAfterSpec_nil (env : SeasonEnv) (teams : JsObj TeamJson) (h : String) :
    teams.get h = teamsAfterSpec env teams [] h := by
  unfold teamsAfterSpec
  by_cases h1 : teams.has h = true
  · simp [h1]
  · have : teams.get h = none := by
      have h2 := JsObj.has_eq_isSome teams h
      cases hg : teams.get h with
      | none => rfl
      | some v => rw [hg] at h2; exact absurd h2 h1
    simp [h1, this]

theorem putSeasonRosterTeamsLoop_invariant (env : SeasonEnv) (teamPIdList : List String)
    (doc : SeasonDbObject) (r : Option SeasonRoster) (errs : List String)
    (hinv : RosterInvariant doc)
    (hl : putSeasonRosterTeamsLoop env teamPIdList doc.Roster [] = Except.ok (r, errs)) :
    RosterInvariant { doc with Roster := r } := by
  cases hr : doc.Roster with
  | none =>
    rw [hr] at hl
    cases teamPIdList with
    | nil =>
      simp only [putSeasonRosterTeamsLoop, Except.ok.injEq, Prod.mk.injEq] at hl
      rw [← hl.1, ← hr]
      exact hinv
    | cons t rest => simp [putSeasonRosterTeamsLoop] at hl
  | some roster =>
    rw [hr] at hl
    cases ht : roster.Teams with
    | none =>
      cases teamPIdList with
      | nil =>
        simp only [putSeasonRosterTeamsLoop, Except.ok.injEq, Prod.mk.injEq] at hl
        rw [← hl.1, ← hr]
        exact hinv
      | cons t rest => simp [putSeasonRosterTeamsLoop, ht] at hl
    | some teams =>
      have hroster : roster = { roster with Teams := some teams } := by
        cases roster
        simp only at ht
        subst ht
        rfl
      obtain ⟨teams', hloop, hspec⟩ :=
        putSeasonRosterTeamsLoop_spec env roster teams teamPIdList [] teams []
          (teamsAfterSpec_nil env teams)
      rw [← hroster, hl] at hloop
      simp only [Except.ok.injEq, Prod.mk.injEq] at hloop
      simp only [List.nil_append] at hspec
      rw [hloop.1]
      intro roster' teams'' t1 t2 team1 team2 ps1 ps2 p hr' ht' hne h1 h2 hp1 hp2 hhas
      simp only [Option.some.injEq] at hr'
      subst hr'
      simp only [Option.some.injEq] at ht'
      subst ht'
      rw [hspec] at h1 h2
      unfold teamsAfterSpec at h1 h2
      by_cases c1 : teams.has t1 = true
      · simp only [c1, if_true] at h1
        by_cases c2 : teams.has t2 = true
        · simp only [c2, if_true] at h2
          exact hinv roster teams t1 t2 team1 team2 ps1 ps2 p hr ht hne h1 h2 hp1 hp2 hhas
        · simp only [c2, if_false, Bool.false_eq_true] at h2
          by_cases c3 : t2 ∈ List.map env.getTeamHashId teamPIdList
          · simp only [c3, if_true, Option.some.injEq] at h2
            subst h2
            simp only [TeamJson.empty, Option.some.injEq] at hp2
            subst hp2
            rfl
          · simp [c3] at h2
      · simp only [c1, if_false, Bool.false_eq_true] at h1
        by_cases c3 : t1 ∈ List.map env.getTeamHashId teamPIdList
        · simp only [c3, if_true, Option.some.injEq] at h1
          subst h1
          simp only [TeamJson.empty, Option.some.injEq] at hp1
          subst hp1
          simp [JsObj.has] at hhas
        · simp [c3] at h1

theorem putSeasonRosterTeams_preserves (env : SeasonEnv) (seasonId : Nat)
    (teamPIdList : List String) (w : SeasonWorld) (h : StoredInvariant w seasonId) :
    StoredInvariant (putSeasonRosterTeams env seasonId teamPIdList w).2 seasonId := by
  cases hf1 : env.fault SeasonCall.dynamoDbGetItem with
  | some e =>
    apply storedInvariant_of_eq w _ _ _ h
    simp [putSeasonRosterTeams, SeasonWorld.log, hf1]
  | none =>
    cases hdoc : seasonGetItem w.Season seasonId with
    | none =>
      apply storedInvariant_of_eq w _ _ _ h
      simp [putSeasonRosterTeams, SeasonWorld.log, hf1, hdoc]
    | some doc =>
      cases hl : putSeasonRosterTeamsLoop env teamPIdList doc.Roster [] with
      | error e =>
        apply storedInvariant_of_eq w _ _ _ h
        simp [putSeasonRosterTeams, SeasonWorld.log, hf1, hdoc, hl]
      | ok res =>
        obtain ⟨r, errs⟩ := res
        by_cases hlen : errs.length > 0
        · apply storedInvariant_of_eq w _ _ _ h
          simp [putSeasonRosterTeams, SeasonWorld.log, hf1, hdoc, hl, hlen]
        · cases hf2 : env.fault SeasonCall.dynamoDbPutItem with
          | some e =>
            apply storedInvariant_of_eq w _ _ _ h
            simp only [putSeasonRosterTeams, SeasonWorld.log, hf1, hdoc, hl, hlen, hf2, if_false]
            rfl
          | none =>
            simp only [putSeasonRosterTeams, SeasonWorld.log, hf1, hdoc, hl, hlen, hf2, if_false]
            exact storedInvariant_putItem _ _ _
              (putSeasonRosterTeamsLoop_invariant env teamPIdList doc r errs (h doc hdoc) hl)

theorem removeProfilesLoop_sub (env : SeasonEnv) (profilePIdList : List String)
    (pl players' : Option (JsObj PlayerJson)) (msgs : List String)
    (hl : removeProfilesLoop env profilePIdList pl [] = Except.ok (players', msgs)) :
    ∀ (p : String) (ps' : JsObj PlayerJson), players' = some ps' → ps'.has p = true →
      ∃ ps, pl = some ps ∧ ps.has p = true := by
  intro p ps' hps' hhas
  cases pl with
  | none =>
    cases profilePIdList with
    | nil =>
      simp only [removeProfilesLoop, Except.ok.injEq, Prod.mk.injEq] at hl
      rw [← hl.1] at hps'
      exact absurd hps' (by simp)
    | cons a rest => simp [removeProfilesLoop] at hl
  | some ps =>
    obtain ⟨msgs', h⟩ := removeProfilesLoop_filters env profilePIdList ps []
    rw [h] at hl
    simp only [Except.ok.injEq, Prod.mk.injEq] at hl
    rw [← hl.1] at hps'
    simp only [Option.some.injEq] at hps'
    subst hps'
    exact ⟨ps, rfl, JsObj.has_of_has_filter _ _ _ hhas⟩

theorem addProfilesLoop_sub (env : SeasonEnv) (teamHId : String) (profilePIdList : List String)
    (pl players' : Option (JsObj PlayerJson)) (pf pf' : Option (JsObj ProfileJson))
    (msgs : List String)
    (hl : addProfilesLoop env teamHId profilePIdList pl pf [] =
      Except.ok (players', pf', msgs)) :
    ∀ (p : String) (ps' : JsObj PlayerJson), players' = some ps' → ps'.has p = true →
      (∃ ps, pl = some ps ∧ ps.has p = true) ∨ p ∈ profilePIdList.map env.getProfileHashId := by
  intro p ps' hps' hhas
  cases pl with
  | none =>
    cases profilePIdList with
    | nil =>
      simp only [addProfilesLoop, Except.ok.injEq, Prod.mk.injEq] at hl
      rw [← hl.1] at hps'
      exact absurd hps' (by simp)
    | cons a rest => simp [addProfilesLoop] at hl
  | some ps =>
    obtain ⟨extra, h1, h2, _⟩ := addProfilesLoop_appends env _ _ _ _ _ _ hl
    simp only at h1
    rw [h1] at hps'
    simp only [Option.some.injEq] at hps'
    subst hps'
    rw [JsObj.has_append, Bool.or_eq_true] at hhas
    rcases hhas with hh | hh
    · exact Or.inl ⟨ps, rfl, hh⟩
    · right
      rw [JsObj.has_true_iff] at hh
      unfold JsObj.keys at hh
      obtain ⟨kv, hkv, hk⟩ := List.mem_map.1 hh
      rw [← hk]
      exact h2 kv hkv

theorem removeProfileFromRoster_preserves (env : SeasonEnv) (seasonId : Nat) (teamPId : String)
    (profilePIdList : List String) (w : SeasonWorld) (h : StoredInvariant w seasonId) :
    StoredInvariant (removeProfileFromRoster env seasonId teamPId profilePIdList w).2
      seasonId := by
  cases hf1 : env.fault SeasonCall.dynamoDbGetItem with
  | some e =>
    apply storedInvariant_of_eq w _ _ _ h
    simp [removeProfileFromRoster, SeasonWorld.log, hf1]
  | none =>
  cases hdoc : seasonGetItem w.Season seasonId with
  | none =>
    apply storedInvariant_of_eq w _ _ _ h
    simp [removeProfileFromRoster, SeasonWorld.log, hf1, hdoc]
  | some doc =>
  cases hr : doc.Roster with
  | none =>
    apply storedInvariant_of_eq w _ _ _ h
    simp [removeProfileFromRoster, SeasonWorld.log, hf1, hdoc, hr]
  | some roster =>
  cases ht : roster.Teams with
  | none =>
    apply storedInvariant_of_eq w _ _ _ h
    simp [removeProfileFromRoster, SeasonWorld.log, hf1, hdoc, hr, ht]
  | some teams =>
  cases hg : teams.get (env.getTeamHashId teamPId) with
  | none =>
    apply storedInvariant_of_eq w _ _ _ h
    simp [removeProfileFromRoster, SeasonWorld.log, hf1, hdoc, hr, ht, hg]
  | some team =>
  cases hl : removeProfilesLoop env profilePIdList team.Players [] with
  | error e =>
    apply storedInvariant_of_eq w _ _ _ h
    simp [removeProfileFromRoster, SeasonWorld.log, hf1, hdoc, hr, ht, hg, hl]
  | ok res =>
  obtain ⟨players', msgs⟩ := res
  cases hf2 : env.fault SeasonCall.dynamoDbPutItem with
  | some e =>
    apply storedInvariant_of_eq w _ _ _ h
    simp only [removeProfileFromRoster, SeasonWorld.log, hf1, hdoc, hr, ht, hg, hl, hf2]
    rfl
  | none =>
    simp only [removeProfileFromRoster, SeasonWorld.log, hf1, hdoc, hr, ht, hg, hl, hf2]
    apply storedInvariant_putItem
    apply withTeamPlayers_invariant doc roster teams _ team players' _ hr ht hg (h doc hdoc)
    intro p ps' hps' hhas
    exact Or.inl (removeProfilesLoop_sub env profilePIdList team.Players players' msgs hl
      p ps' hps' hhas)

theorem addProfilesToRoster_preserves (env : SeasonEnv) (seasonId : Nat) (teamPId : String)
    (profilePIdList : List String) (w : SeasonWorld) (h : StoredInvariant w seasonId)
    (hfree : ∀ p ∈ profilePIdList, ∀ (t2 : String) (ps2 : JsObj PlayerJson),
      t2 ≠ env.getTeamHashId teamPId → storedPlayers w seasonId t2 = some ps2 →
      ps2.has (env.getProfileHashId p) = false) :
    StoredInvariant (addProfilesToRoster env seasonId teamPId profilePIdList w).2 seasonId := by
  cases hf1 : env.fault SeasonCall.dynamoDbGetItem with
  | some e =>
    apply storedInvariant_of_eq w _ _ _ h
    simp [addProfilesToRoster, SeasonWorld.log, hf1]
  | none =>
  cases hdoc : seasonGetItem w.Season seasonId with
  | none =>
    apply storedInvariant_of_eq w _ _ _ h
    simp [addProfilesToRoster, SeasonWorld.log, hf1, hdoc]
  | some doc =>
  cases hr : doc.Roster with
  | none =>
    apply storedInvariant_of_eq w _ _ _ h
    simp [addProfilesToRoster, SeasonWorld.log, hf1, hdoc, hr]
  | some roster =>
  cases ht : roster.Teams with
  | none =>
    apply storedInvariant_of_eq w _ _ _ h
    simp [addProfilesToRoster, SeasonWorld.log, hf1, hdoc, hr, ht]
  | some teams =>
  cases hg : teams.get (env.getTeamHashId teamPId) with
  | none =>
    apply storedInvariant_of_eq w _ _ _ h
    simp [addProfilesToRoster, SeasonWorld.log, hf1, hdoc, hr, ht, hg]
  | some team =>
  cases hl : addProfilesLoop env (env.getTeamHashId teamPId) profilePIdList team.Players
      roster.Profiles [] with
  | error e =>
    apply storedInvariant_of_eq w _ _ _ h
    simp [addProfilesToRoster, SeasonWorld.log, hf1, hdoc, hr, ht, hg, hl]
  | ok res =>
  obtain ⟨players', pf', msgs⟩ := res
  cases hf2 : env.fault SeasonCall.dynamoDbPutItem with
  | some e =>
    apply storedInvariant_of_eq w _ _ _ h
    simp only [addProfilesToRoster, SeasonWorld.log, hf1, hdoc, hr, ht, hg, hl, hf2,
      List.length_nil, gt_iff_lt, Nat.lt_irrefl, if_false]
    rfl
  | none =>
    simp only [addProfilesToRoster, SeasonWorld.log, hf1, hdoc, hr, ht, hg, hl, hf2,
      List.length_nil, gt_iff_lt, Nat.lt_irrefl, if_false]
    apply storedInvariant_putItem
    apply withTeamPlayers_invariant doc roster teams _ team players' _ hr ht hg (h doc hdoc)
    intro p ps' hps' hhas
    rcases addProfilesLoop_sub env _ profilePIdList team.Players players' _ pf' msgs hl
      p ps' hps' hhas with hold | hnew
    · exact Or.inl hold
    · right
      intro t2 team2 ps2 hne h2 hp2
      obtain ⟨q, hq, hqe⟩ := List.mem_map.1 hnew
      rw [← hqe]
      apply hfree q hq t2 ps2 hne
      simp [storedPlayers, hdoc, hr, ht, h2, hp2]

theorem demoSeasonWorld_invariant : StoredInvariant demoSeasonWorld 7 := by
  intro doc hdoc
  simp only [demoSeasonWorld, seasonGetItem, if_true, Option.some.injEq] at hdoc
  subst hdoc
  exact rosterInvariant_of_check _ (by decide)

/-- C9 as stated fails for `addProfilesToRoster`: in season 7 the profile `hp1`
is a key of team `hA` only, the invariant holds; after adding p1 to team B it
is a key of both `hA` and `hB` in the stored document. -/
theorem addProfilesToRoster_breaks_invariant :
    StoredInvariant demoSeasonWorld 7 ∧
    ¬ StoredInvariant (addProfilesToRoster demoSeasonEnv 7 "B" ["p1"] demoSeasonWorld).2 7 := by
  refine ⟨demoSeasonWorld_invariant, ?_⟩
  intro h
  have h1 : storedPlayers (addProfilesToRoster demoSeasonEnv 7 "B" ["p1"] demoSeasonWorld).2 7
      "hA" = some [("hp1", PlayerJson.empty)] := by decide
  have h2 : storedPlayers (addProfilesToRoster demoSeasonEnv 7 "B" ["p1"] demoSeasonWorld).2 7
      "hB" = some [("hp1", PlayerJson.empty)] := by decide
  obtain ⟨doc, roster, teams, teamA, hdoc, hr, ht, hgA, hpA⟩ := storedPlayers_some _ _ _ _ h1
  obtain ⟨doc2, roster2, teams2, teamB, hdoc2, hr2, ht2, hgB, hpB⟩ :=
    storedPlayers_some _ _ _ _ h2
  rw [hdoc] at hdoc2
  cases hdoc2
  rw [hr] at hr2
  cases hr2
  rw [ht] at ht2
  cases ht2
  have hbad := h doc hdoc roster teams "hA" "hB" teamA teamB _ _ "hp1" hr ht (by decide)
    hgA hgB hpA hpB (by decide)
  exact absurd hbad (by decide)

/-- C9, amended: if the stored season document satisfies the roster invariant
(a profile hash id is a key of at most one team's `Players`), so does the
document stored after `putSeasonRosterTeams` and after
`removeProfileFromRoster`, whatever their arguments; after
`addProfilesToRoster` it does provided no hash id of the listed profiles is a
key of the `Players` mapping of another team. -/
theorem roster_invariant_preserved (env : SeasonEnv) (seasonId : Nat) (w : SeasonWorld)
    (h : StoredInvariant w seasonId) :
    (∀ teamPIdList,
      StoredInvariant (putSeasonRosterTeams env seasonId teamPIdList w).2 seasonId) ∧
    (∀ teamPId profilePIdList,
      StoredInvariant (removeProfileFromRoster env seasonId teamPId profilePIdList w).2
        seasonId) ∧
    (∀ teamPId profilePIdList,
      (∀ p ∈ profilePIdList, ∀ (t2 : String) (ps2 : JsObj PlayerJson),
        t2 ≠ env.getTeamHashId teamPId → storedPlayers w seasonId t2 = some ps2 →
        ps2.has (env.getProfileHashId p) = false) →
      StoredInvariant (addProfilesToRoster env seasonId teamPId profilePIdList w).2
        seasonId) :=
  ⟨fun teamPIdList => putSeasonRosterTeams_preserves env seasonId teamPIdList w h,
   fun teamPId profilePIdList =>
     removeProfileFromRoster_preserves env seasonId teamPId profilePIdList w h,
   fun teamPId profilePIdList hfree =>
     addProfilesToRoster_preserves env seasonId teamPId profilePIdList w h hfree⟩

/-- C9, amended, at a concrete input: on season 7 the invariant survives adding
team C, removing p1 from team A, and adding p2 (in no team) to team B. -/
theorem roster_invariant_preserved_witness :
    StoredInvariant (putSeasonRosterTeams demoSeasonEnv 7 ["C"] demoSeasonWorld).2 7 ∧
    StoredInvariant (removeProfileFromRoster demoSeasonEnv 7 "A" ["p1"] demoSeasonWorld).2 7 ∧
    StoredInvariant (addProfilesToRoster demoSeasonEnv 7 "B" ["p2"] demoSeasonWorld).2 7 := by
  have h := roster_invariant_preserved demoSeasonEnv 7 demoSeasonWorld demoSeasonWorld_invariant
  refine ⟨h.1 ["C"], h.2.1 "A" ["p1"], h.2.2 "B" ["p2"] ?_⟩
  intro p hp t2 ps2 hne hs
  simp only [List.mem_singleton] at hp
  subst hp
  by_cases hA : t2 = "hA"
  · subst hA
    have : storedPlayers demoSeasonWorld 7 "hA" = some [("hp1", PlayerJson.empty)] := by decide
    rw [this] at hs
    cases hs
    decide
  · have hB : ¬ (t2 = "hB") := hne
    have hA' : ¬ ("hA" = t2) := fun e => hA e.symm
    have hB' : ¬ ("hB" = t2) := fun e => hB e.symm
    simp [storedPlayers, demoSeasonWorld, seasonGetItem, demoRoster, JsObj.get, hA', hB'] at hs

/-! ### C10: invalidation of the roster cache entry -/

theorem getSeasonRosterById_of_miss (env : SeasonEnv) (seasonId : Nat) (w : SeasonWorld)
    (hcg : env.fault SeasonCall.cacheGet = none)
    (hgi : env.fault SeasonCall.dynamoDbGetItem = none)
    (hmiss : w.cache.get (rosterCacheKey env seasonId) = none) :
    (getSeasonRosterById env seasonId w).1 =
      Outcome.resolved (storedRosterView env w seasonId) := by
  unfold getSeasonRosterById storedRosterView
  simp only [SeasonWorld.log, hcg, hgi, hmiss, truthy, Bool.false_eq_true, if_false]
  cases hdoc : seasonGetItem w.Season seasonId with
  | none => rfl
  | some doc =>
    cases hr : doc.Roster with
    | none => simp [hr]
    | some roster => simp [hr]

theorem putSeasonRosterTeams_done_shape (env : SeasonEnv) (seasonId : Nat)
    (teamPIdList : List String) (w : SeasonWorld) (sid : Nat) (r : Option SeasonRoster)
    (hdone : (putSeasonRosterTeams env seasonId teamPIdList w).1 =
      Outcome.resolved (PutTeamsResult.done sid r)) :
    env.fault SeasonCall.dynamoDbGetItem = none ∧
    ∃ item, (putSeasonRosterTeams env seasonId teamPIdList w).2 =
      writtenWorld env seasonId w item := by
  cases hf1 : env.fault SeasonCall.dynamoDbGetItem with
  | some e => simp [putSeasonRosterTeams, SeasonWorld.log, hf1] at hdone
  | none =>
  refine ⟨rfl, ?_⟩
  cases hdoc : seasonGetItem w.Season seasonId with
  | none => simp [putSeasonRosterTeams, SeasonWorld.log, hf1, hdoc] at hdone
  | some doc =>
  cases hl : putSeasonRosterTeamsLoop env teamPIdList doc.Roster [] with
  | error e => simp [putSeasonRosterTeams, SeasonWorld.log, hf1, hdoc, hl] at hdone
  | ok res =>
  obtain ⟨r', errs⟩ := res
  by_cases hlen : errs.length > 0
  · simp [putSeasonRosterTeams, SeasonWorld.log, hf1, hdoc, hl, hlen] at hdone
  · cases hf2 : env.fault SeasonCall.dynamoDbPutItem with
    | some e => simp [putSeasonRosterTeams, SeasonWorld.log, hf1, hdoc, hl, hlen, hf2] at hdone
    | none =>
      refine ⟨{ doc with Roster := r' }, ?_⟩
      simp only [putSeasonRosterTeams, SeasonWorld.log, hf1, hdoc, hl, hlen, hf2, if_false,
        writtenWorld]

theorem addProfilesToRoster_done_shape (env : SeasonEnv) (seasonId : Nat) (teamPId : String)
    (profilePIdList : List String) (w : SeasonWorld) (sid : Nat) (teamName : Option String)
    (msgs : List String) (teamHId : String) (players : Option (JsObj PlayerJson))
    (hdone : (addProfilesToRoster env seasonId teamPId profilePIdList w).1 =
      Outcome.resolved (RosterProfilesResult.done sid teamName msgs teamHId players)) :
    env.fault SeasonCall.dynamoDbGetItem = none ∧
    ∃ item, (addProfilesToRoster env seasonId teamPId profilePIdList w).2 =
      writtenWorld env seasonId w item := by
  cases hf1 : env.fault SeasonCall.dynamoDbGetItem with
  | some e => simp [addProfilesToRoster, SeasonWorld.log, hf1] at hdone
  | none =>
  refine ⟨rfl, ?_⟩
  cases hdoc : seasonGetItem w.Season seasonId with
  | none => simp [addProfilesToRoster, SeasonWorld.log, hf1, hdoc] at hdone
  | some doc =>
  cases hr : doc.Roster with
  | none => simp [addProfilesToRoster, SeasonWorld.log, hf1, hdoc, hr] at hdone
  | some roster =>
  cases ht : roster.Teams with
  | none => simp [addProfilesToRoster, SeasonWorld.log, hf1, hdoc, hr, ht] at hdone
  | some teams =>
  cases hg : teams.get (env.getTeamHashId teamPId) with
  | none => simp [addProfilesToRoster, SeasonWorld.log, hf1, hdoc, hr, ht, hg] at hdone
  | some team =>
  cases hl : addProfilesLoop env (env.getTeamHashId teamPId) profilePIdList team.Players
      roster.Profiles [] with
  | error e => simp [addProfilesToRoster, SeasonWorld.log, hf1, hdoc, hr, ht, hg, hl] at hdone
  | ok res =>
  obtain ⟨players', pf', msgs'⟩ := res
  cases hf2 : env.fault SeasonCall.dynamoDbPutItem with
  | some e =>
    simp [addProfilesToRoster, SeasonWorld.log, hf1, hdoc, hr, ht, hg, hl, hf2] at hdone
  | none =>
    refine ⟨doc.withTeamPlayers roster teams (env.getTeamHashId teamPId) team players' pf', ?_⟩
    simp only [addProfilesToRoster, SeasonWorld.log, hf1, hdoc, hr, ht, hg, hl, hf2,
      List.length_nil, gt_iff_lt, Nat.lt_irrefl, if_false, writtenWorld]

theorem removeProfileFromRoster_done_shape (env : SeasonEnv) (seasonId : Nat)
    (teamPId : String) (profilePIdList : List String) (w : SeasonWorld) (sid : Nat)
    (teamName : Option String) (msgs : List String) (teamHId : String)
    (players : Option (JsObj PlayerJson))
    (hdone : (removeProfileFromRoster env seasonId teamPId profilePIdList w).1 =
      Outcome.resolved (RosterProfilesResult.done sid teamName msgs teamHId players)) :
    env.fault SeasonCall.dynamoDbGetItem = none ∧
    ∃ item, (removeProfileFromRoster env seasonId teamPId profilePIdList w).2 =
      writtenWorld env seasonId w item := by
  cases hf1 : env.fault SeasonCall.dynamoDbGetItem with
  | some e => simp [removeProfileFromRoster, SeasonWorld.log, hf1] at hdone
  | none =>
  refine ⟨rfl, ?_⟩
  cases hdoc : seasonGetItem w.Season seasonId with
  | none => simp [removeProfileFromRoster, SeasonWorld.log, hf1, hdoc] at hdone
  | some doc =>
  cases hr : doc.Roster with
  | none => simp [removeProfileFromRoster, SeasonWorld.log, hf1, hdoc, hr] at hdone
  | some roster =>
  cases ht : roster.Teams with
  | none => simp [removeProfileFromRoster, SeasonWorld.log, hf1, hdoc, hr, ht] at hdone
  | some teams =>
  cases hg : teams.get (env.getTeamHashId teamPId) with
  | none => simp [removeProfileFromRoster, SeasonWorld.log, hf1, hdoc, hr, ht, hg] at hdone
  | some team =>
  cases hl : removeProfilesLoop env profilePIdList team.Players [] with
  | error e =>
    simp [removeProfileFromRoster, SeasonWorld.log, hf1, hdoc, hr, ht, hg, hl] at hdone
  | ok res =>
  obtain ⟨players', msgs'⟩ := res
  cases hf2 : env.fault SeasonCall.dynamoDbPutItem with
  | some e =>
    simp [removeProfileFromRoster, SeasonWorld.log, hf1, hdoc, hr, ht, hg, hl, hf2] at hdone
  | none =>
    refine ⟨doc.withTeamPlayers roster teams (env.getTeamHashId teamPId) team players'
      roster.Profiles, ?_⟩
    simp only [removeProfileFromRoster, SeasonWorld.log, hf1, hdoc, hr, ht, hg, hl, hf2,
      writtenWorld]

theorem writtenWorld_read (env : SeasonEnv) (seasonId : Nat) (w : SeasonWorld)
    (item : SeasonDbObject)
    (hcg : env.fault SeasonCall.cacheGet = none)
    (hgi : env.fault SeasonCall.dynamoDbGetItem = none) :
    (writtenWorld env seasonId w item).cache.has (rosterCacheKey env seasonId) = false ∧
    seasonGetItem (writtenWorld env seasonId w item).Season seasonId = some item ∧
    (getSeasonRosterById env seasonId (writtenWorld env seasonId w item)).1 =
      Outcome.resolved (item.Roster.map (enrichRoster env)) := by
  have hmiss : (writtenWorld env seasonId w item).cache.get (rosterCacheKey env seasonId) =
      none := by
    simp only [writtenWorld, SeasonWorld.putItem, SeasonWorld.cacheDel, SeasonWorld.log]
    exact JsObj.get_del_self _ _
  have hstored : seasonGetItem (writtenWorld env seasonId w item).Season seasonId =
      some item := by
    simp only [writtenWorld, SeasonWorld.putItem, SeasonWorld.cacheDel, SeasonWorld.log]
    exact seasonGetItem_put_self _ _ _
  refine ⟨?_, hstored, ?_⟩
  · rw [JsObj.has_eq_isSome, hmiss]
    rfl
  · rw [getSeasonRosterById_of_miss env seasonId _ hcg hgi hmiss]
    simp [storedRosterView, hstored]

theorem writtenWorld_readsWrittenRoster (env : SeasonEnv) (seasonId : Nat) (w : SeasonWorld)
    (item : SeasonDbObject)
    (hcg : env.fault SeasonCall.cacheGet = none)
    (hgi : env.fault SeasonCall.dynamoDbGetItem = none) :
    ReadsWrittenRoster env seasonId (writtenWorld env seasonId w item) := by
  obtain ⟨h1, h2, h3⟩ := writtenWorld_read env seasonId w item hcg hgi
  refine ⟨h1, item, ?_, h2, h3⟩
  simp [writtenWorld, SeasonWorld.putItem]

/-- C10: whatever the cache holds under the roster key of season S, once
`putSeasonRosterTeams`, `addProfilesToRoster` or `removeProfileFromRoster` on S
has resolved with its success value (the document was put), the cache has no
entry under that key, and a `getSeasonRosterById(S)` issued next (its cache
lookup not failing) resolves with the view computed from the document just
put, not with a cached value. -/
theorem roster_cache_invalidated_by_mutation (env : SeasonEnv) (seasonId : Nat)
    (w : SeasonWorld) (hcg : env.fault SeasonCall.cacheGet = none) :
    (∀ teamPIdList r,
      (putSeasonRosterTeams env seasonId teamPIdList w).1 =
        Outcome.resolved (PutTeamsResult.done seasonId r) →
      ReadsWrittenRoster env seasonId (putSeasonRosterTeams env seasonId teamPIdList w).2) ∧
    (∀ teamPId profilePIdList teamName msgs teamHId players,
      (addProfilesToRoster env seasonId teamPId profilePIdList w).1 =
        Outcome.resolved (RosterProfilesResult.done seasonId teamName msgs teamHId players) →
      ReadsWrittenRoster env seasonId
        (addProfilesToRoster env seasonId teamPId profilePIdList w).2) ∧
    (∀ teamPId profilePIdList teamName msgs teamHId players,
      (removeProfileFromRoster env seasonId teamPId profilePIdList w).1 =
        Outcome.resolved (RosterProfilesResult.done seasonId teamName msgs teamHId players) →
      ReadsWrittenRoster env seasonId
        (removeProfileFromRoster env seasonId teamPId profilePIdList w).2) := by
  refine ⟨?_, ?_, ?_⟩
  · intro teamPIdList r hdone
    obtain ⟨hgi, item, hw⟩ := putSeasonRosterTeams_done_shape env seasonId teamPIdList w _ _ hdone
    rw [hw]
    exact writtenWorld_readsWrittenRoster env seasonId w item hcg hgi
  · intro teamPId profilePIdList teamName msgs teamHId players hdone
    obtain ⟨hgi, item, hw⟩ :=
      addProfilesToRoster_done_shape env seasonId teamPId profilePIdList w _ _ _ _ _ hdone
    rw [hw]
    exact writtenWorld_readsWrittenRoster env seasonId w item hcg hgi
  · intro teamPId profilePIdList teamName msgs teamHId players hdone
    obtain ⟨hgi, item, hw⟩ :=
      removeProfileFromRoster_done_shape env seasonId teamPId profilePIdList w _ _ _ _ _ hdone
    rw [hw]
    exact writtenWorld_readsWrittenRoster env seasonId w item hcg hgi

/-- C10 at a concrete input: season 7 has a cached view; before the mutation
the read is answered from it, after adding p2 to team A the entry is gone and
the read is computed from the stored document. -/
theorem roster_cache_invalidated_by_mutation_witness :
    (getSeasonRosterById demoSeasonEnv 7 demoSeasonWorld).1 =
      Outcome.resolved (some (demoSeasonEnv.jsonParse "stale view")) ∧
    ReadsWrittenRoster demoSeasonEnv 7
      (addProfilesToRoster demoSeasonEnv 7 "A" ["p2"] demoSeasonWorld).2 :=
  ⟨by decide,
   (roster_cache_invalidated_by_mutation demoSeasonEnv 7 demoSeasonWorld rfl).2.1 "A" ["p2"]
     (some "Team hA") ["Player hp2 - Profile added to the Team."] "hA"
     (some [("hp1", PlayerJson.empty), ("hp2", PlayerJson.empty)]) (by decide)⟩

/-! ### C18: order of the write and the cache deletion -/

theorem writtenWorld_effects (env : SeasonEnv) (seasonId : Nat) (w : SeasonWorld)
    (item : SeasonDbObject) :
    (writtenWorld env seasonId w item).effects =
      w.effects ++ [SeasonEffect.dynamoDbGetItem seasonId,
        SeasonEffect.cacheDel (rosterCacheKey env seasonId),
        SeasonEffect.dynamoDbPutItem seasonId item] := by
  simp [writtenWorld, SeasonWorld.putItem, SeasonWorld.cacheDel, SeasonWorld.log]

theorem writtenWorld_invalidateBeforeWrite (env : SeasonEnv) (seasonId : Nat)
    (w : SeasonWorld) (item : SeasonDbObject) :
    InvalidateBeforeWrite seasonId (rosterCacheKey env seasonId)
      (writtenWorld env seasonId w item).effects := by
  rw [writtenWorld_effects]
  refine ⟨w.effects.length + 1, w.effects.length + 2, item, by omega, ?_, ?_⟩
  · rw [List.get?_eq_getElem?, List.getElem?_append_right (by omega)]
    simp
  · rw [List.get?_eq_getElem?, List.getElem?_append_right (by omega)]
    simp

/-- C18 as stated fails: adding p2 to team A of season 7 succeeds, and its
effects are the read, then the deletion of the roster cache key, then the put
of the season document; no put comes before the deletion. -/
theorem addProfilesToRoster_deletes_before_write :
    (∃ item, (addProfilesToRoster demoSeasonEnv 7 "A" ["p2"] demoSeasonWorld).2.effects =
      [SeasonEffect.dynamoDbGetItem 7, SeasonEffect.cacheDel "snRoster-7",
       SeasonEffect.dynamoDbPutItem 7 item]) ∧
    ¬ WriteBeforeInvalidate 7 "snRoster-7"
      (addProfilesToRoster demoSeasonEnv 7 "A" ["p2"] demoSeasonWorld).2.effects := by
  have hdone : (addProfilesToRoster demoSeasonEnv 7 "A" ["p2"] demoSeasonWorld).1 =
      Outcome.resolved (RosterProfilesResult.done 7 (some "Team hA")
        ["Player hp2 - Profile added to the Team."] "hA"
        (some [("hp1", PlayerJson.empty), ("hp2", PlayerJson.empty)])) := by decide
  obtain ⟨_, item, hw⟩ := addProfilesToRoster_done_shape _ _ _ _ _ _ _ _ _ _ hdone
  have he : (addProfilesToRoster demoSeasonEnv 7 "A" ["p2"] demoSeasonWorld).2.effects =
      [SeasonEffect.dynamoDbGetItem 7, SeasonEffect.cacheDel "snRoster-7",
       SeasonEffect.dynamoDbPutItem 7 item] := by
    rw [hw, writtenWorld_effects]
    rfl
  refine ⟨⟨item, he⟩, ?_⟩
  rintro ⟨i, j, item', hlt, hi, hj⟩
  rw [he] at hi hj
  match i, j with
  | 0, _ => simp at hi
  | 1, _ => simp at hi
  | 2, 0 => omega
  | 2, 1 => omega
  | 2, 2 => omega
  | 2, j + 3 => simp at hj
  | i + 3, _ => simp at hi

/-- C18, amended: in every successful roster mutation (`putSeasonRosterTeams`,
`addProfilesToRoster`, `removeProfileFromRoster` resolving with its success
value) the effects added to the log are, in this order, the read of the
season document, the deletion of the season's roster cache entry and the put
of the season document: the cache entry is deleted before the write. -/
theorem roster_mutation_deletes_cache_before_write (env : SeasonEnv) (seasonId : Nat)
    (w : SeasonWorld) :
    (∀ teamPIdList r,
      (putSeasonRosterTeams env seasonId teamPIdList w).1 =
        Outcome.resolved (PutTeamsResult.done seasonId r) →
      (∃ item, (putSeasonRosterTeams env seasonId teamPIdList w).2.effects =
        w.effects ++ [SeasonEffect.dynamoDbGetItem seasonId,
          SeasonEffect.cacheDel (rosterCacheKey env seasonId),
          SeasonEffect.dynamoDbPutItem seasonId item]) ∧
      InvalidateBeforeWrite seasonId (rosterCacheKey env seasonId)
        (putSeasonRosterTeams env seasonId teamPIdList w).2.effects) ∧
    (∀ teamPId profilePIdList teamName msgs teamHId players,
      (addProfilesToRoster env seasonId teamPId profilePIdList w).1 =
        Outcome.resolved (RosterProfilesResult.done seasonId teamName msgs teamHId players) →
      (∃ item, (addProfilesToRoster env seasonId teamPId profilePIdList w).2.effects =
        w.effects ++ [SeasonEffect.dynamoDbGetItem seasonId,
          SeasonEffect.cacheDel (rosterCacheKey env seasonId),
          SeasonEffect.dynamoDbPutItem seasonId item]) ∧
      InvalidateBeforeWrite seasonId (rosterCacheKey env seasonId)
        (addProfilesToRoster env seasonId teamPId profilePIdList w).2.effects) ∧
    (∀ teamPId profilePIdList teamName msgs teamHId players,
      (removeProfileFromRoster env seasonId teamPId profilePIdList w).1 =
        Outcome.resolved (RosterProfilesResult.done seasonId teamName msgs teamHId players) →
      (∃ item, (removeProfileFromRoster env seasonId teamPId profilePIdList w).2.effects =
        w.effects ++ [SeasonEffect.dynamoDbGetItem seasonId,
          SeasonEffect.cacheDel (rosterCacheKey env seasonId),
          SeasonEffect.dynamoDbPutItem seasonId item]) ∧
      InvalidateBeforeWrite seasonId (rosterCacheKey env seasonId)
        (removeProfileFromRoster env seasonId teamPId profilePIdList w).2.effects) := by
  refine ⟨?_, ?_, ?_⟩
  · intro teamPIdList r hdone
    obtain ⟨_, item, hw⟩ := putSeasonRosterTeams_done_shape env seasonId teamPIdList w _ _ hdone
    rw [hw]
    exact ⟨⟨item, writtenWorld_effects env seasonId w item⟩,
      writtenWorld_invalidateBeforeWrite env seasonId w item⟩
  · intro teamPId profilePIdList teamName msgs teamHId players hdone
    obtain ⟨_, item, hw⟩ :=
      addProfilesToRoster_done_shape env seasonId teamPId profilePIdList w _ _ _ _ _ hdone
    rw [hw]
    exact ⟨⟨item, writtenWorld_effects env seasonId w item⟩,
      writtenWorld_invalidateBeforeWrite env seasonId w item⟩
  · intro teamPId profilePIdList teamName msgs teamHId players hdone
    obtain ⟨_, item, hw⟩ :=
      removeProfileFromRoster_done_shape env seasonId teamPId profilePIdList w _ _ _ _ _ hdone
    rw [hw]
    exact ⟨⟨item, writtenWorld_effects env seasonId w item⟩,
      writtenWorld_invalidateBeforeWrite env seasonId w item⟩

/-- C18, amended, at a concrete input: removing p1 from team A of season 7
deletes the cache entry before it puts the document. -/
theorem roster_mutation_deletes_cache_before_write_witness :
    InvalidateBeforeWrite 7 (rosterCacheKey demoSeasonEnv 7)
      (removeProfileFromRoster demoSeasonEnv 7 "A" ["p1"] demoSeasonWorld).2.effects :=
  ((roster_mutation_deletes_cache_before_write demoSeasonEnv 7 demoSeasonWorld).2.2 "A" ["p1"]
    (some "Team hA") ["Player hp1 - Profile removed from Team"] "hA" (some [])
    (by decide)).2

/-! ### C17: write-back of profile ids -/

theorem List.modify_append_length {α : Type} (f : α → α) (done rest : List α) (a : α) :
    (done ++ a :: rest).modify f done.length = done ++ f a :: rest := by
  induction done with
  | nil => rfl
  | cons d done ih => simpa [List.modify] using ih

theorem setProfilePId_players (s : SetupTeams) (color : TeamColor) (i : Nat)
    (pid : Option String) :
    ((s.setProfilePId color i pid).team color).Players =
      (s.team color).Players.modify (fun p => { p with ProfilePId := pid }) i := by
  cases color <;> rfl

theorem checkProfilesLoop_players (env : ValidationEnv) (color : TeamColor)
    (rest : List PlayerObject) :
    ∀ (i : Nat) (roles dups : List (Option String)) (st : ValidateState)
      (done : List PlayerObject),
      (st.setupTeamsDbObject.team color).Players = done ++ rest → done.length = i →
      ((checkProfilesLoop env color i rest roles dups st).setupTeamsDbObject.team color).Players =
        done ++ annotateFrom env dups rest := by
  induction rest with
  | nil => intro i roles dups st done h _; simpa [checkProfilesLoop, annotateFrom] using h
  | cons p rest ih =>
    intro i roles dups st done h hlen
    unfold checkProfilesLoop annotateFrom
    simp only
    have happ : done ++ p :: rest = (done ++ [p]) ++ rest := by simp
    by_cases h1 : truthy (env.getProfilePIdByName p.ProfileName) = true
    · by_cases h2 : env.getProfilePIdByName p.ProfileName ∈ dups
      · simp only [h1, h2, not_true_eq_false, if_false, and_false]
        rw [ih (i + 1) _ _ _ (done ++ [p])]
        · simp
        · split_ifs <;> simpa [ValidateState.push] using h
        · simp [hlen]
      · simp only [h1, h2, not_true_eq_false, not_false_eq_true, if_false, if_true, and_self]
        rw [ih (i + 1) _ _ _ (done ++ [{ p with
          ProfilePId := env.getProfilePIdByName p.ProfileName }])]
        · simp
        · have hmod : ((st.setupTeamsDbObject.setProfilePId color i
              (env.getProfilePIdByName p.ProfileName)).team color).Players =
              done ++ { p with ProfilePId := env.getProfilePIdByName p.ProfileName } :: rest := by
            rw [setProfilePId_players, h, ← hlen, List.modify_append_length]
          split_ifs <;> simpa [ValidateState.push] using hmod
        · simp [hlen]
    · simp only [h1, not_false_eq_true, if_true, false_and, if_false, Bool.false_eq_true]
      rw [ih (i + 1) _ _ _ (done ++ [p])]
      · simp
      · split_ifs <;> simpa [ValidateState.push] using h
      · simp [hlen]

theorem accepted_step (env : ValidationEnv) (pre : List PlayerObject)
    (dups : List (Option String)) (q : PlayerObject)
    (hinv : ∀ x, x ∈ dups ↔ truthy x = true ∧
      x ∈ pre.map (fun r => env.getProfilePIdByName r.ProfileName)) :
    (truthy (env.getProfilePIdByName q.ProfileName) = true ∧
        ¬ (env.getProfilePIdByName q.ProfileName ∈ dups) →
      ∀ x, x ∈ dups ++ [env.getProfilePIdByName q.ProfileName] ↔ truthy x = true ∧
        x ∈ (pre ++ [q]).map (fun r => env.getProfilePIdByName r.ProfileName)) ∧
    (¬ (truthy (env.getProfilePIdByName q.ProfileName) = true ∧
        ¬ (env.getProfilePIdByName q.ProfileName ∈ dups)) →
      ∀ x, x ∈ dups ↔ truthy x = true ∧
        x ∈ (pre ++ [q]).map (fun r => env.getProfilePIdByName r.ProfileName)) := by
  constructor
  · rintro ⟨ht, _⟩ x
    simp only [List.mem_append, List.mem_singleton, List.map_append, List.map_cons,
      List.map_nil, hinv x]
    constructor
    · rintro (⟨h1, h2⟩ | h)
      · exact ⟨h1, Or.inl h2⟩
      · subst h; exact ⟨ht, Or.inr rfl⟩
    · rintro ⟨h1, h2 | h2⟩
      · exact Or.inl ⟨h1, h2⟩
      · exact Or.inr h2
  · intro hnot x
    simp only [List.map_append, List.map_cons, List.map_nil, List.mem_append,
      List.mem_singleton, hinv x]
    constructor
    · rintro ⟨h1, h2⟩
      exact ⟨h1, Or.inl h2⟩
    · rintro ⟨h1, h2 | h2⟩
      · exact ⟨h1, h2⟩
      · subst h2
        by_contra hc
        apply hnot
        refine ⟨h1, fun hmem => hc ((hinv _).1 hmem)⟩

theorem annotateFrom_get (env : ValidationEnv) (rest : List PlayerObject) :
    ∀ (pre : List PlayerObject) (dups : List (Option String)),
      (∀ x, x ∈ dups ↔ truthy x = true ∧
        x ∈ pre.map (fun r => env.getProfilePIdByName r.ProfileName)) →
      ∀ (j : Nat) (p : PlayerObject), rest.get? j = some p →
        (annotateFrom env dups rest).get? j =
          some (if truthy (env.getProfilePIdByName p.ProfileName) = true ∧
              ¬ (env.getProfilePIdByName p.ProfileName ∈
                earlierProfilePIds env (pre ++ rest) (pre.length + j)) then
            { p with ProfilePId := env.getProfilePIdByName p.ProfileName } else p) := by
  induction rest with
  | nil => intro pre dups _ j p h; simp at h
  | cons q rest ih =>
    intro pre dups hinv j p h
    have hstep := accepted_step env pre dups q hinv
    cases j with
    | zero =>
      simp only [List.get?_cons_zero, Option.some.injEq] at h
      subst h
      have hearlier : earlierProfilePIds env (pre ++ q :: rest) (pre.length + 0) =
          pre.map (fun r => env.getProfilePIdByName r.ProfileName) := by
        simp [earlierProfilePIds, List.take_left]
      rw [hearlier]
      unfold annotateFrom
      by_cases ht : truthy (env.getProfilePIdByName q.ProfileName) = true
      · by_cases hd : env.getProfilePIdByName q.ProfileName ∈ dups
        · have hd' := ((hinv _).1 hd).2
          simp [ht, hd, hd']
        · have hd' : ¬ (env.getProfilePIdByName q.ProfileName ∈
              pre.map (fun r => env.getProfilePIdByName r.ProfileName)) :=
            fun hm => hd ((hinv _).2 ⟨ht, hm⟩)
          simp [ht, hd, hd']
      · simp [ht]
    | succ j =>
      simp only [List.get?_cons_succ] at h
      have hidx : earlierProfilePIds env (pre ++ q :: rest) (pre.length + (j + 1)) =
          earlierProfilePIds env ((pre ++ [q]) ++ rest) ((pre ++ [q]).length + j) := by
        simp only [earlierProfilePIds, List.append_assoc, List.singleton_append,
          List.length_append, List.length_singleton]
        congr 2
        omega
      rw [hidx]
      unfold annotateFrom
      by_cases hc : truthy (env.getProfilePIdByName q.ProfileName) = true ∧
          ¬ (env.getProfilePIdByName q.ProfileName ∈ dups)
      · simp only [hc, not_false_eq_true, and_self, if_true, List.get?_cons_succ]
        exact ih (pre ++ [q]) _ (hstep.1 hc) j p h
      · rw [if_neg hc]
        simp only [List.get?_cons_succ]
        exact ih (pre ++ [q]) _ (hstep.2 hc) j p h

theorem checkProfiles_players (env : ValidationEnv) (color : TeamColor) (st : ValidateState) :
    ((checkProfiles env color (st.setupTeamsDbObject.team color).Players
        st).setupTeamsDbObject.team color).Players =
      annotateFrom env [] (st.setupTeamsDbObject.team color).Players := by
  have := checkProfilesLoop_players env color (st.setupTeamsDbObject.team color).Players 0 [] []
    st [] (by simp) rfl
  simpa [checkProfiles] using this

theorem checkTeamName_players (env : ValidationEnv) (color : TeamColor) (teamName : String)
    (st : ValidateState) :
    (checkTeamName env color teamName st).setupTeamsDbObject.BlueTeam.Players =
        st.setupTeamsDbObject.BlueTeam.Players ∧
    (checkTeamName env color teamName st).setupTeamsDbObject.RedTeam.Players =
        st.setupTeamsDbObject.RedTeam.Players := by
  unfold checkTeamName
  by_cases h : truthy (env.getTeamPIdByName teamName) = true <;>
    cases color <;> simp [h, ValidateState.push, SetupTeams.setTeamPId]

theorem validateSetupFormFields_players (env : ValidationEnv) (s : SetupTeams)
    (color : TeamColor) :
    ((validateSetupFormFields env s).setupTeamsDbObject.team color).Players =
      annotateFrom env [] (s.team color).Players := by
  have rB := fun pl st => (checkProfiles_frame env TeamColor.Blue pl st).2.2.1 rfl
  have rR := fun pl st => (checkProfiles_frame env TeamColor.Red pl st).2.2.2 rfl
  have tB := fun n st => (checkTeamName_players env TeamColor.Blue n st).1
  have tR := fun n st => (checkTeamName_players env TeamColor.Red n st).1
  have uB := fun n st => (checkTeamName_players env TeamColor.Blue n st).2
  have uR := fun n st => (checkTeamName_players env TeamColor.Red n st).2
  have hB := checkProfiles_players env TeamColor.Blue
    { validateList := banErrors env TeamColor.Blue s.BlueTeam.Bans ++
        banErrors env TeamColor.Red s.RedTeam.Bans, setupTeamsDbObject := s }
  have hR := checkProfiles_players env TeamColor.Red
    (checkProfiles env TeamColor.Blue s.BlueTeam.Players
      { validateList := banErrors env TeamColor.Blue s.BlueTeam.Bans ++
          banErrors env TeamColor.Red s.RedTeam.Bans, setupTeamsDbObject := s })
  simp only [SetupTeams.team, rB] at hB hR
  unfold validateSetupFormFields
  simp only [checkBans_eq, List.nil_append, rB]
  cases color
  · simp only [SetupTeams.team]
    split_ifs <;> simp only [ValidateState.push, tB, tR, rR, hB]
  · simp only [SetupTeams.team]
    split_ifs <;> simp only [ValidateState.push, uB, uR, hR]

theorem playerErrorsFrom_missing (env : ValidationEnv) (color : TeamColor)
    (rest : List PlayerObject) :
    ∀ (roles acc : List (Option String)) (p : PlayerObject), p ∈ rest →
      ¬ (truthy (env.getProfilePIdByName p.ProfileName) = true) →
      msgProfileMissing color p.ProfileName ∈ playerErrorsFrom env color rest roles acc := by
  induction rest with
  | nil => intro roles acc p hp; simp at hp
  | cons q rest ih =>
    intro roles acc p hp hnot
    unfold playerErrorsFrom
    rcases List.mem_cons.1 hp with h | h
    · subst h
      simp [hnot]
    · simp only [List.mem_append]
      exact Or.inr (ih _ _ p h hnot)

/-- C17 as stated fails: both Blue players are named ann, the name resolves,
and after validation the second player's entry has no `ProfilePId`: the id is
written only for the first player it resolves for. -/
theorem duplicate_profile_gets_no_id :
    truthy (demoEnvUp.getProfilePIdByName "ann") = true ∧
    (validateSetupFormFields demoEnvUp demoSetupTwiceAnn).setupTeamsDbObject.BlueTeam.Players =
      [{ ProfileName := "ann", Role := some "Top", ProfilePId := some "ann" },
       { ProfileName := "ann", Role := some "Mid", ProfilePId := none }] := by
  decide

/-- C17, amended: for each side and every player of its `Players` list, at
index `i`: when the player's `ProfileName` resolves to a profile id that no
earlier player of the side resolves to, `validateSetupFormFields` writes that
id into the same entry as `ProfilePId` and changes nothing else of it; when
the name resolves to an id an earlier player of the side already resolves to,
the entry is left as it was (no id written); when the name does not resolve,
the entry is left as it was and the list has the `does not exist in database`
message for it. -/
theorem profile_ids_written_back (env : ValidationEnv) (s : SetupTeams) (color : TeamColor)
    (i : Nat) (p : PlayerObject) (hp : (s.team color).Players.get? i = some p) :
    (truthy (env.getProfilePIdByName p.ProfileName) = true →
      ¬ (env.getProfilePIdByName p.ProfileName ∈
        earlierProfilePIds env (s.team color).Players i) →
      ((validateSetupFormFields env s).setupTeamsDbObject.team color).Players.get? i =
        some { p with ProfilePId := env.getProfilePIdByName p.ProfileName }) ∧
    (truthy (env.getProfilePIdByName p.ProfileName) = true →
      env.getProfilePIdByName p.ProfileName ∈
        earlierProfilePIds env (s.team color).Players i →
      ((validateSetupFormFields env s).setupTeamsDbObject.team color).Players.get? i =
        some p) ∧
    (¬ (truthy (env.getProfilePIdByName p.ProfileName) = true) →
      ((validateSetupFormFields env s).setupTeamsDbObject.team color).Players.get? i =
        some p ∧
      msgProfileMissing color p.ProfileName ∈ (validateSetupFormFields env s).validateList) := by
  have hget := annotateFrom_get env (s.team color).Players [] [] (by simp) i p hp
  simp only [List.nil_append, List.length_nil, Nat.zero_add] at hget
  rw [validateSetupFormFields_players]
  refine ⟨?_, ?_, ?_⟩
  · intro ht hn
    rw [hget, if_pos ⟨ht, hn⟩]
  · intro ht hd
    rw [hget, if_neg (fun h => h.2 hd)]
  · intro hnot
    refine ⟨by rw [hget, if_neg (fun h => hnot h.1)], ?_⟩
    have hmem : p ∈ (s.team color).Players := List.get?_mem hp
    rw [validateList_eq_concat]
    cases color
    · have := playerErrorsFrom_missing env TeamColor.Blue s.BlueTeam.Players [] [] p hmem hnot
      simp only [List.mem_append, playerErrors]
      tauto
    · have := playerErrorsFrom_missing env TeamColor.Red s.RedTeam.Players [] [] p hmem hnot
      simp only [List.mem_append, playerErrors]
      tauto

/-- C17, amended, at a concrete setup: the first Blue ann gets the id `ann`,
the second is left without one, and the Red player with the empty name is
left as it was and reported. -/
theorem profile_ids_written_back_witness :
    (validateSetupFormFields demoEnvUp demoSetupTwiceAnn).setupTeamsDbObject.BlueTeam.Players.get?
        0 = some { ProfileName := "ann", Role := some "Top", ProfilePId := some "ann" } ∧
    (validateSetupFormFields demoEnvUp demoSetupTwiceAnn).setupTeamsDbObject.BlueTeam.Players.get?
        1 = some { ProfileName := "ann", Role := some "Mid", ProfilePId := none } ∧
    "Red Team Profile Name '' does not exist in database." ∈
      (validateSetupFormFields demoEnvUp demoSetupTwiceAnn).validateList :=
  ⟨(profile_ids_written_back demoEnvUp demoSetupTwiceAnn TeamColor.Blue 0
      { ProfileName := "ann", Role := some "Top", ProfilePId := none } rfl).1
      (by decide) (by decide),
   (profile_ids_written_back demoEnvUp demoSetupTwiceAnn TeamColor.Blue 1
      { ProfileName := "ann", Role := some "Mid", ProfilePId := none } rfl).2.1
      (by decide) (by decide),
   ((profile_ids_written_back demoEnvUp demoSetupTwiceAnn TeamColor.Red 0
      { ProfileName := "", Role := some "Top", ProfilePId := none } rfl).2.2
      (by decide)).2⟩

/-! ### The shape of the read accessors -/

theorem cacheAside_idempotent {α : Type} (env : SeasonEnv) (cacheKey : String)
    (isHit : Option String → Bool) (decode : String → α)
    (read : SeasonEffect) (readCall : SeasonCall)
    (load : List (Nat × SeasonDbObject) → Outcome (Loaded α)) (w : SeasonWorld)
    (hlaw : ∀ v text, load w.Season = Outcome.resolved (Loaded.cached v text) →
      isHit (some text) = true → decode text = v) :
    SameResultTwice (cacheAside env cacheKey isHit decode read readCall load) w := by
  unfold SameResultTwice
  cases hf : env.fault SeasonCall.cacheGet with
  | some e => simp [cacheAside, hf]
  | none =>
  by_cases hh : isHit (w.cache.get cacheKey) = true
  · simp [cacheAside, hf, hh, SeasonWorld.log]
  · cases hr : env.fault readCall with
    | some e => simp [cacheAside, hf, hh, hr, SeasonWorld.log]
    | none =>
    cases hl : load w.Season with
    | rejected e => simp [cacheAside, hf, hh, hr, hl, SeasonWorld.log]
    | resolved res =>
      cases res with
      | null => simp [cacheAside, hf, hh, hr, hl, SeasonWorld.log]
      | cached v text =>
        by_cases ht : isHit (some text) = true
        · have hd := hlaw v text hl ht
          simp [cacheAside, hf, hh, hr, hl, SeasonWorld.log, SeasonWorld.cacheSet,
            JsObj.get_set_self, ht, hd]
        · simp [cacheAside, hf, hh, hr, hl, SeasonWorld.log, SeasonWorld.cacheSet,
            JsObj.get_set_self, ht]

theorem cacheAside_second_from_cache {α : Type} (env : SeasonEnv) (cacheKey : String)
    (isHit : Option String → Bool) (decode : String → α)
    (read : SeasonEffect) (readCall : SeasonCall)
    (load : List (Nat × SeasonDbObject) → Outcome (Loaded α)) (w : SeasonWorld) (v : α)
    (hres : (cacheAside env cacheKey isHit decode read readCall load w).1 =
      Outcome.resolved (some v))
    (hacc : ∀ text, load w.Season = Outcome.resolved (Loaded.cached v text) →
      isHit (some text) = true) :
    SecondCallFromCache (cacheAside env cacheKey isHit decode read readCall load) cacheKey
      w := by
  unfold SecondCallFromCache
  cases hf : env.fault SeasonCall.cacheGet with
  | some e => simp [cacheAside, hf] at hres
  | none =>
  by_cases hh : isHit (w.cache.get cacheKey) = true
  · simp [cacheAside, hf, hh, SeasonWorld.log]
  · cases hr : env.fault readCall with
    | some e => simp [cacheAside, hf, hh, hr, SeasonWorld.log] at hres
    | none =>
    cases hl : load w.Season with
    | rejected e => simp [cacheAside, hf, hh, hr, hl, SeasonWorld.log] at hres
    | resolved res =>
      cases res with
      | null => simp [cacheAside, hf, hh, hr, hl, SeasonWorld.log] at hres
      | cached v' text =>
        have hv : v' = v := by
          simpa [cacheAside, hf, hh, hr, hl, SeasonWorld.log] using hres
        subst hv
        have ht := hacc text hl
        simp [cacheAside, hf, hh, hr, hl, SeasonWorld.log, SeasonWorld.cacheSet,
          JsObj.get_set_self, ht]

theorem cacheAside_miss_null {α : Type} (env : SeasonEnv) (cacheKey : String)
    (isHit : Option String → Bool) (decode : String → α)
    (read : SeasonEffect) (readCall : SeasonCall)
    (load : List (Nat × SeasonDbObject) → Outcome (Loaded α)) (w : SeasonWorld)
    (hf : ∀ c, env.fault c = none) (hmiss : isHit (w.cache.get cacheKey) = false)
    (hl : load w.Season = Outcome.resolved Loaded.null) :
    cacheAside env cacheKey isHit decode read readCall load w =
      (Outcome.resolved none, (w.log (SeasonEffect.cacheGet cacheKey)).log read) := by
  simp [cacheAside, hf, hmiss, hl, SeasonWorld.log]

theorem cacheAside_miss_rejected {α : Type} (env : SeasonEnv) (cacheKey : String)
    (isHit : Option String → Bool) (decode : String → α)
    (read : SeasonEffect) (readCall : SeasonCall)
    (load : List (Nat × SeasonDbObject) → Outcome (Loaded α)) (w : SeasonWorld) (e : JsError)
    (hf : ∀ c, env.fault c = none) (hmiss : isHit (w.cache.get cacheKey) = false)
    (hl : load w.Season = Outcome.rejected e) :
    cacheAside env cacheKey isHit decode read readCall load w =
      (Outcome.rejected e, (w.log (SeasonEffect.cacheGet cacheKey)).log read) := by
  simp [cacheAside, hf, hmiss, hl, SeasonWorld.log]

theorem getSeasonRosterById_eq_cacheAside (env : SeasonEnv) (seasonId : Nat) :
    getSeasonRosterById env seasonId =
      cacheAside env (rosterCacheKey env seasonId) truthy env.jsonParse
        (SeasonEffect.dynamoDbGetItem seasonId) SeasonCall.dynamoDbGetItem
        (fun table => loadSeasonRoster env (seasonGetItem table seasonId)) := by
  funext w
  unfold getSeasonRosterById cacheAside
  cases hf : env.fault SeasonCall.cacheGet with
  | some e => rfl
  | none =>
  simp only [SeasonWorld.log]
  by_cases hh : truthy (w.cache.get (rosterCacheKey env seasonId)) = true
  · simp [hh]
  · simp only [hh, Bool.false_eq_true, if_false]
    cases hr : env.fault SeasonCall.dynamoDbGetItem with
    | some e => rfl
    | none =>
    cases hdoc : seasonGetItem w.Season seasonId with
    | none => simp [loadSeasonRoster]
    | some doc =>
      cases hro : doc.Roster with
      | none => simp [loadSeasonRoster, hro]
      | some r => simp [loadSeasonRoster, hro]

/-! ### Decimal text of a number -/

theorem digitChar_isDigit (k : Nat) (hk : k < 10) : (Nat.digitChar k).isDigit = true := by
  interval_cases k <;> decide

theorem digitChar_value (k : Nat) (hk : k < 10) : (Nat.digitChar k).toNat - 48 = k := by
  interval_cases k <;> decide

theorem toDigitsCore_decimal (fuel : Nat) :
    ∀ (n : Nat) (ds : List Char), n < fuel → (∀ c ∈ ds, c.isDigit = true) →
      (∀ c ∈ Nat.toDigitsCore 10 fuel n ds, c.isDigit = true) ∧
      Nat.toDigitsCore 10 fuel n ds ≠ [] ∧
      (Nat.toDigitsCore 10 fuel n ds).foldl (fun acc c => acc * 10 + (c.toNat - 48)) 0 =
        ds.foldl (fun acc c => acc * 10 + (c.toNat - 48)) n := by
  induction fuel with
  | zero => intro n ds h; omega
  | succ fuel ih =>
    intro n ds hn hds
    have hmod : n % 10 < 10 := Nat.mod_lt _ (by decide)
    have hd := digitChar_isDigit (n % 10) hmod
    have hv := digitChar_value (n % 10) hmod
    have hds' : ∀ c ∈ Nat.digitChar (n % 10) :: ds, c.isDigit = true := by
      intro c hc
      rcases List.mem_cons.1 hc with h | h
      · rw [h]; exact hd
      · exact hds c h
    unfold Nat.toDigitsCore
    by_cases h0 : n / 10 = 0
    · simp only [h0, if_true]
      refine ⟨hds', by simp, ?_⟩
      have hlt : n < 10 := by omega
      have hv' : (Nat.digitChar n).toNat - 48 = n := digitChar_value n hlt
      simp only [List.foldl_cons, Nat.zero_mul, Nat.zero_add, Nat.mod_eq_of_lt hlt, hv']
    · simp only [h0, if_false]
      have hlt : n / 10 < fuel := by omega
      obtain ⟨h1, h2, h3⟩ := ih (n / 10) (Nat.digitChar (n % 10) :: ds) hlt hds'
      refine ⟨h1, h2, ?_⟩
      rw [h3, List.foldl_cons, hv]
      congr 1
      omega

theorem parseInt_toString (n : Nat) : parseInt (toString n) = some n := by
  obtain ⟨h1, h2, h3⟩ := toDigitsCore_decimal (n + 1) n [] (by omega) (by simp)
  have htw : List.takeWhile Char.isDigit (Nat.toDigitsCore 10 (n + 1) n []) =
      Nat.toDigitsCore 10 (n + 1) n [] := by
    rw [List.takeWhile_eq_self_iff]
    exact h1
  show parseInt (Nat.repr n) = some n
  unfold parseInt Nat.repr Nat.toDigits List.asString
  simp only [htw]
  cases hc : Nat.toDigitsCore 10 (n + 1) n [] with
  | nil => exact absurd hc h2
  | cons c cs =>
    rw [← hc, h3]
    rfl

theorem toString_nat_ne_empty (n : Nat) : toString n ≠ "" := by
  obtain ⟨_, h2, _⟩ := toDigitsCore_decimal (n + 1) n [] (by omega) (by simp)
  show Nat.repr n ≠ ""
  unfold Nat.repr Nat.toDigits List.asString
  intro h
  apply h2
  have := congrArg String.data h
  simpa using this

theorem truthy_some_iff (s : String) : truthy (some s) = true ↔ s ≠ "" := by
  simp [truthy]

/-! ### C11: an accessor called twice -/

theorem loadSeasonId_cached (simpleName : String) (table : List (Nat × SeasonDbObject))
    (v : Option Nat) (text : String)
    (h : loadSeasonId simpleName table = Outcome.resolved (Loaded.cached v text)) :
    parseInt text = v ∧ truthy (some text) = true := by
  unfold loadSeasonId at h
  cases hs : scanSeasonIds table simpleName with
  | nil => simp [hs] at h
  | cons Id rest =>
    simp only [hs, Outcome.resolved.injEq, Loaded.cached.injEq] at h
    rw [← h.1, ← h.2]
    exact ⟨parseInt_toString Id, (truthy_some_iff _).2 (toString_nat_ne_empty Id)⟩

theorem loadSeasonShortName_cached (obj : Option SeasonDbObject) (v text : String)
    (h : loadSeasonShortName obj = Outcome.resolved (Loaded.cached v text)) :
    text = v ∧ truthy (some text) = true := by
  unfold loadSeasonShortName at h
  cases obj with
  | none => simp at h
  | some o =>
    simp only at h
    by_cases ht : truthy o.SeasonShortName = true
    · simp only [ht, not_true_eq_false, if_false, Outcome.resolved.injEq,
        Loaded.cached.injEq] at h
      refine ⟨h.2.symm.trans h.1, ?_⟩
      rw [← h.2]
      cases hn : o.SeasonShortName with
      | none => rw [hn] at ht; simp [truthy] at ht
      | some s => rw [hn] at ht; simpa using ht
    · simp [ht] at h

theorem loadInformationText_cached (field : SeasonInformation → String)
    (obj : Option SeasonDbObject) (v text : String)
    (h : loadInformationText field obj = Outcome.resolved (Loaded.cached v text)) :
    text = v := by
  unfold loadInformationText at h
  cases obj with
  | none => simp at h
  | some o =>
    cases hi : o.Information with
    | none => simp [hi] at h
    | some info =>
      simp only [hi, Outcome.resolved.injEq, Loaded.cached.injEq] at h
      exact h.2.symm.trans h.1

theorem loadSeasonInformation_cached (env : AccessorEnv) (obj : Option SeasonDbObject)
    (v : SeasonInformation) (text : String)
    (h : loadSeasonInformation env obj = Outcome.resolved (Loaded.cached v text)) :
    text = env.infoStringify v ∧
    ∃ doc x, obj = some doc ∧ doc.Information = some x ∧ v = enrichInformation env x := by
  unfold loadSeasonInformation at h
  cases obj with
  | none => simp at h
  | some o =>
    cases hi : o.Information with
    | none => simp [hi] at h
    | some info =>
      simp only [hi, Outcome.resolved.injEq, Loaded.cached.injEq] at h
      exact ⟨by rw [← h.2, ← h.1], o, info, rfl, hi, h.1.symm⟩

theorem loadSeasonRoster_cached (env : SeasonEnv) (obj : Option SeasonDbObject)
    (v : SeasonRoster) (text : String)
    (h : loadSeasonRoster env obj = Outcome.resolved (Loaded.cached v text)) :
    text = env.jsonStringify v ∧
    ∃ doc x, obj = some doc ∧ doc.Roster = some x ∧ v = enrichRoster env x := by
  unfold loadSeasonRoster at h
  cases obj with
  | none => simp at h
  | some o =>
    cases hi : o.Roster with
    | none => simp [hi] at h
    | some x =>
      simp only [hi, Outcome.resolved.injEq, Loaded.cached.injEq] at h
      exact ⟨by rw [← h.2, ← h.1], o, x, rfl, hi, h.1.symm⟩

theorem loadSeasonRegular_cached (env : AccessorEnv) (obj : Option SeasonDbObject)
    (v : SeasonRegular) (text : String)
    (h : loadSeasonRegular env obj = Outcome.resolved (Loaded.cached v text)) :
    text = env.regularStringify v ∧
    ∃ doc x, obj = some doc ∧ doc.Regular = some x ∧ v = enrichRegular env x := by
  unfold loadSeasonRegular at h
  cases obj with
  | none => simp at h
  | some o =>
    cases hi : o.Regular with
    | none => simp [hi] at h
    | some x =>
      simp only [hi, Outcome.resolved.injEq, Loaded.cached.injEq] at h
      exact ⟨by rw [← h.2, ← h.1], o, x, rfl, hi, h.1.symm⟩

theorem loadSeasonPlayoffs_cached (env : AccessorEnv) (obj : Option SeasonDbObject)
    (v : SeasonPlayoffs) (text : String)
    (h : loadSeasonPlayoffs env obj = Outcome.resolved (Loaded.cached v text)) :
    text = env.playoffsStringify v ∧
    ∃ doc x, obj = some doc ∧ doc.Playoffs = some x ∧ v = enrichPlayoffs env x := by
  unfold loadSeasonPlayoffs at h
  cases obj with
  | none => simp at h
  | some o =>
    cases hi : o.Playoffs with
    | none => simp [hi] at h
    | some x =>
      simp only [hi, Outcome.resolved.injEq, Loaded.cached.injEq] at h
      exact ⟨by rw [← h.2, ← h.1], o, x, rfl, hi, h.1.symm⟩

theorem text_accessors_twice (env : AccessorEnv) (w : SeasonWorld) (seasonId : Nat) :
    (SameResultTwice (getSeasonShortName env seasonId) w ∧
      ∀ v, (getSeasonShortName env seasonId w).1 = Outcome.resolved (some v) →
        SecondCallFromCache (getSeasonShortName env seasonId)
          (env.SEASON_CODE_PREFIX ++ toString seasonId) w) ∧
    (SameResultTwice (getSeasonName env seasonId) w ∧
      ∀ v, (getSeasonName env seasonId w).1 = Outcome.resolved (some v) → v ≠ "" →
        SecondCallFromCache (getSeasonName env seasonId)
          (env.SEASON_NAME_PREFIX ++ toString seasonId) w) ∧
    (SameResultTwice (getSeasonTime env seasonId) w ∧
      ∀ v, (getSeasonTime env seasonId w).1 = Outcome.resolved (some v) → v ≠ "" →
        SecondCallFromCache (getSeasonTime env seasonId)
          (env.SEASON_TIME_PREFIX ++ toString seasonId) w) ∧
    (SameResultTwice (getSeasonTabName env seasonId) w ∧
      ∀ v, (getSeasonTabName env seasonId w).1 = Outcome.resolved (some v) → v ≠ "" →
        SecondCallFromCache (getSeasonTabName env seasonId)
          (env.SEASON_TAB_PREFIX ++ toString seasonId) w) := by
  refine ⟨⟨?_, ?_⟩, ⟨?_, ?_⟩, ⟨?_, ?_⟩, ⟨?_, ?_⟩⟩
  · exact cacheAside_idempotent _ _ _ _ _ _ _ w
      (fun v text h _ => (loadSeasonShortName_cached _ v text h).1)
  · intro v hres
    exact cacheAside_second_from_cache _ _ _ _ _ _ _ w v hres
      (fun text h => (loadSeasonShortName_cached _ v text h).2)
  · exact cacheAside_idempotent _ _ _ _ _ _ _ w
      (fun v text h _ => loadInformationText_cached _ _ v text h)
  · intro v hres hv
    exact cacheAside_second_from_cache _ _ _ _ _ _ _ w v hres
      (fun text h => by
        rw [loadInformationText_cached _ _ v text h]; exact (truthy_some_iff v).2 hv)
  · exact cacheAside_idempotent _ _ _ _ _ _ _ w
      (fun v text h _ => loadInformationText_cached _ _ v text h)
  · intro v hres hv
    exact cacheAside_second_from_cache _ _ _ _ _ _ _ w v hres
      (fun text h => by
        rw [loadInformationText_cached _ _ v text h]; exact (truthy_some_iff v).2 hv)
  · exact cacheAside_idempotent _ _ _ _ _ _ _ w
      (fun v text h _ => loadInformationText_cached _ _ v text h)
  · intro v hres hv
    exact cacheAside_second_from_cache _ _ _ _ _ _ _ w v hres
      (fun text h => by
        rw [loadInformationText_cached _ _ v text h]; exact (truthy_some_iff v).2 hv)

theorem view_accessors_twice (env : AccessorEnv) (w : SeasonWorld) (seasonId : Nat) :
    ((InformationTextParses env w seasonId →
        SameResultTwice (getSeasonInformation env seasonId) w) ∧
      ∀ v, (getSeasonInformation env seasonId w).1 = Outcome.resolved (some v) →
        env.infoStringify v ≠ "" →
        SecondCallFromCache (getSeasonInformation env seasonId)
          (env.SEASON_INFO_PREFIX ++ toString seasonId) w) ∧
    ((RosterTextParses env.toSeasonEnv w seasonId →
        SameResultTwice (getSeasonRosterById env.toSeasonEnv seasonId) w) ∧
      ∀ v, (getSeasonRosterById env.toSeasonEnv seasonId w).1 = Outcome.resolved (some v) →
        env.jsonStringify v ≠ "" →
        SecondCallFromCache (getSeasonRosterById env.toSeasonEnv seasonId)
          (rosterCacheKey env.toSeasonEnv seasonId) w) ∧
    ((RegularTextParses env w seasonId →
        SameResultTwice (getSeasonRegular env seasonId) w) ∧
      ∀ v, (getSeasonRegular env seasonId w).1 = Outcome.resolved (some v) →
        env.regularStringify v ≠ "" →
        SecondCallFromCache (getSeasonRegular env seasonId)
          (env.SEASON_REGULAR_PREFIX ++ toString seasonId) w) ∧
    ((PlayoffsTextParses env w seasonId →
        SameResultTwice (getSeasonPlayoffs env seasonId) w) ∧
      ∀ v, (getSeasonPlayoffs env seasonId w).1 = Outcome.resolved (some v) →
        SecondCallFromCache (getSeasonPlayoffs env seasonId)
          (env.SEASON_PLAYOFF_PREFIX ++ toString seasonId) w) := by
  refine ⟨⟨?_, ?_⟩, ⟨?_, ?_⟩, ⟨?_, ?_⟩, ⟨?_, ?_⟩⟩
  · intro hlaw
    apply cacheAside_idempotent
    intro v text h _
    obtain ⟨ht, doc, x, hdoc, hx, hv⟩ := loadSeasonInformation_cached env _ v text h
    rw [ht, hv]
    exact hlaw doc x hdoc hx
  · intro v hres hv
    apply cacheAside_second_from_cache _ _ _ _ _ _ _ w v hres
    intro text h
    rw [(loadSeasonInformation_cached env _ v text h).1]
    exact (truthy_some_iff _).2 hv
  · intro hlaw
    rw [getSeasonRosterById_eq_cacheAside]
    apply cacheAside_idempotent
    intro v text h _
    obtain ⟨ht, doc, x, hdoc, hx, hv⟩ := loadSeasonRoster_cached env.toSeasonEnv _ v text h
    rw [ht, hv]
    exact hlaw doc x hdoc hx
  · intro v hres hv
    rw [getSeasonRosterById_eq_cacheAside] at hres ⊢
    apply cacheAside_second_from_cache _ _ _ _ _ _ _ w v hres
    intro text h
    rw [(loadSeasonRoster_cached env.toSeasonEnv _ v text h).1]
    exact (truthy_some_iff _).2 hv
  · intro hlaw
    apply cacheAside_idempotent
    intro v text h _
    obtain ⟨ht, doc, x, hdoc, hx, hv⟩ := loadSeasonRegular_cached env _ v text h
    rw [ht, hv]
    exact hlaw doc x hdoc hx
  · intro v hres hv
    apply cacheAside_second_from_cache _ _ _ _ _ _ _ w v hres
    intro text h
    rw [(loadSeasonRegular_cached env _ v text h).1]
    exact (truthy_some_iff _).2 hv
  · intro hlaw
    apply cacheAside_idempotent
    intro v text h _
    obtain ⟨ht, doc, x, hdoc, hx, hv⟩ := loadSeasonPlayoffs_cached env _ v text h
    rw [ht, hv]
    exact hlaw doc x hdoc hx
  · intro v hres
    apply cacheAside_second_from_cache _ _ _ _ _ _ _ w v hres
    intro text _
    rfl

/-- C11 as stated fails: season 3 has a document but no `Regular` property;
`getSeasonRegular` resolves with `null`, caches nothing, and the second call
reads the document store again. -/
theorem getSeasonRegular_null_read_twice :
    (seasonGetItem demoFullSeasonWorld.Season 3).isSome = true ∧
    (getSeasonRegular demoAccessorEnv 3 demoFullSeasonWorld).1 = Outcome.resolved none ∧
    (getSeasonRegular demoAccessorEnv 3
        (getSeasonRegular demoAccessorEnv 3 demoFullSeasonWorld).2).2.effects =
      [SeasonEffect.cacheGet "snRegular-3", SeasonEffect.dynamoDbGetItem 3,
       SeasonEffect.cacheGet "snRegular-3", SeasonEffect.dynamoDbGetItem 3] ∧
    ¬ SecondCallFromCache (getSeasonRegular demoAccessorEnv 3) "snRegular-3"
      demoFullSeasonWorld := by
  refine ⟨by decide, by decide, by decide, ?_⟩
  unfold SecondCallFromCache
  decide

/-- C11, amended: for each of the nine accessors, on any state of the store and
the cache, a second call made right after the first gives the same result
(for the four views, given that the text form of the view parses back to it);
and when the first call resolved with a value the cache accepts (not `null`;
for a name, time or tab label not the empty text; for a view a non-empty text
form), the second call adds only its cache lookup to the log: it reads no
document. -/
theorem read_accessors_twice (env : AccessorEnv) (w : SeasonWorld) :
    (∀ shortName,
      SameResultTwice (getSeasonId env shortName) w ∧
      ∀ v, (getSeasonId env shortName w).1 = Outcome.resolved (some v) →
        SecondCallFromCache (getSeasonId env shortName)
          (env.SEASON_ID_PREFIX ++ env.filterName shortName) w) ∧
    (∀ seasonId,
      (SameResultTwice (getSeasonShortName env seasonId) w ∧
        ∀ v, (getSeasonShortName env seasonId w).1 = Outcome.resolved (some v) →
          SecondCallFromCache (getSeasonShortName env seasonId)
            (env.SEASON_CODE_PREFIX ++ toString seasonId) w) ∧
      (SameResultTwice (getSeasonName env seasonId) w ∧
        ∀ v, (getSeasonName env seasonId w).1 = Outcome.resolved (some v) → v ≠ "" →
          SecondCallFromCache (getSeasonName env seasonId)
            (env.SEASON_NAME_PREFIX ++ toString seasonId) w) ∧
      (SameResultTwice (getSeasonTime env seasonId) w ∧
        ∀ v, (getSeasonTime env seasonId w).1 = Outcome.resolved (some v) → v ≠ "" →
          SecondCallFromCache (getSeasonTime env seasonId)
            (env.SEASON_TIME_PREFIX ++ toString seasonId) w) ∧
      (SameResultTwice (getSeasonTabName env seasonId) w ∧
        ∀ v, (getSeasonTabName env seasonId w).1 = Outcome.resolved (some v) → v ≠ "" →
          SecondCallFromCache (getSeasonTabName env seasonId)
            (env.SEASON_TAB_PREFIX ++ toString seasonId) w)) ∧
    (∀ seasonId,
      ((InformationTextParses env w seasonId →
          SameResultTwice (getSeasonInformation env seasonId) w) ∧
        ∀ v, (getSeasonInformation env seasonId w).1 = Outcome.resolved (some v) →
          env.infoStringify v ≠ "" →
          SecondCallFromCache (getSeasonInformation env seasonId)
            (env.SEASON_INFO_PREFIX ++ toString seasonId) w) ∧
      ((RosterTextParses env.toSeasonEnv w seasonId →
          SameResultTwice (getSeasonRosterById env.toSeasonEnv seasonId) w) ∧
        ∀ v, (getSeasonRosterById env.toSeasonEnv seasonId w).1 = Outcome.resolved (some v) →
          env.jsonStringify v ≠ "" →
          SecondCallFromCache (getSeasonRosterById env.toSeasonEnv seasonId)
            (rosterCacheKey env.toSeasonEnv seasonId) w) ∧
      ((RegularTextParses env w seasonId →
          SameResultTwice (getSeasonRegular env seasonId) w) ∧
        ∀ v, (getSeasonRegular env seasonId w).1 = Outcome.resolved (some v) →
          env.regularStringify v ≠ "" →
          SecondCallFromCache (getSeasonRegular env seasonId)
            (env.SEASON_REGULAR_PREFIX ++ toString seasonId) w) ∧
      ((PlayoffsTextParses env w seasonId →
          SameResultTwice (getSeasonPlayoffs env seasonId) w) ∧
        ∀ v, (getSeasonPlayoffs env seasonId w).1 = Outcome.resolved (some v) →
          SecondCallFromCache (getSeasonPlayoffs env seasonId)
            (env.SEASON_PLAYOFF_PREFIX ++ toString seasonId) w)) := by
  refine ⟨?_, fun seasonId => text_accessors_twice env w seasonId,
    fun seasonId => view_accessors_twice env w seasonId⟩
  intro shortName
  constructor
  · exact cacheAside_idempotent _ _ _ _ _ _ _ w
      (fun v text h _ => (loadSeasonId_cached _ _ v text h).1)
  · intro v hres
    exact cacheAside_second_from_cache _ _ _ _ _ _ _ w v hres
      (fun text h => (loadSeasonId_cached _ _ v text h).2)

/-- C11, amended, at a concrete season: on season 3 `getSeasonId` finds the id
by short name and `getSeasonInformation` gives the view, and each answers its
second call from the cache with the same result. -/
theorem read_accessors_twice_witness :
    (getSeasonId demoAccessorEnv "s2021agl" demoFullSeasonWorld).1 =
      Outcome.resolved (some (some 3)) ∧
    SameResultTwice (getSeasonId demoAccessorEnv "s2021agl") demoFullSeasonWorld ∧
    SecondCallFromCache (getSeasonId demoAccessorEnv "s2021agl") "snId-s2021agl"
      demoFullSeasonWorld ∧
    SameResultTwice (getSeasonInformation demoAccessorEnv 3) demoFullSeasonWorld ∧
    SecondCallFromCache (getSeasonInformation demoAccessorEnv 3) "snInfo-3"
      demoFullSeasonWorld := by
  have h := read_accessors_twice demoAccessorEnv demoFullSeasonWorld
  have hid : (getSeasonId demoAccessorEnv "s2021agl" demoFullSeasonWorld).1 =
      Outcome.resolved (some (some 3)) := by decide
  have hinfo : (getSeasonInformation demoAccessorEnv 3 demoFullSeasonWorld).1 =
      Outcome.resolved (some demoInformationView) := by decide
  have hlaw : InformationTextParses demoAccessorEnv demoFullSeasonWorld 3 := by
    intro doc x hdoc hx
    simp only [demoFullSeasonWorld, seasonGetItem, if_true, Option.some.injEq] at hdoc
    subst hdoc
    simp only [Option.some.injEq] at hx
    subst hx
    decide
  exact ⟨hid, (h.1 "s2021agl").1, (h.1 "s2021agl").2 _ hid, ((h.2.2 3).1.1) hlaw,
    ((h.2.2 3).1.2) _ hinfo (by decide)⟩

/-! ### C12: a season that is not in the store -/

theorem isHit_none (w : SeasonWorld) (key : String) (h : w.cache.get key = none) :
    truthy (w.cache.get key) = false ∧ notNull (w.cache.get key) = false := by
  rw [h]
  exact ⟨rfl, rfl⟩

/-- C12 (the code departs from it for four of the eight accessors): with no
entry in the cache and no document under the season id, no call failing,
`getSeasonName`, `getSeasonTime`, `getSeasonTabName` and `getSeasonRosterById`
resolve with `null`; `getSeasonShortName`, `getSeasonInformation`,
`getSeasonRegular` and `getSeasonPlayoffs` read a property of the missing
document, which throws a TypeError, and their promise is rejected. In all
eight the cache is left as it was: the effects are the cache lookup and the
read of the document. -/
theorem by_id_accessors_on_missing_season (env : AccessorEnv) (w : SeasonWorld)
    (seasonId : Nat) (hf : ∀ c, env.fault c = none)
    (hdoc : seasonGetItem w.Season seasonId = none) :
    (w.cache.get (env.SEASON_NAME_PREFIX ++ toString seasonId) = none →
      getSeasonName env seasonId w =
        (Outcome.resolved none,
          (w.log (SeasonEffect.cacheGet (env.SEASON_NAME_PREFIX ++ toString seasonId))).log
            (SeasonEffect.dynamoDbGetItem seasonId))) ∧
    (w.cache.get (env.SEASON_TIME_PREFIX ++ toString seasonId) = none →
      getSeasonTime env seasonId w =
        (Outcome.resolved none,
          (w.log (SeasonEffect.cacheGet (env.SEASON_TIME_PREFIX ++ toString seasonId))).log
            (SeasonEffect.dynamoDbGetItem seasonId))) ∧
    (w.cache.get (env.SEASON_TAB_PREFIX ++ toString seasonId) = none →
      getSeasonTabName env seasonId w =
        (Outcome.resolved none,
          (w.log (SeasonEffect.cacheGet (env.SEASON_TAB_PREFIX ++ toString seasonId))).log
            (SeasonEffect.dynamoDbGetItem seasonId))) ∧
    (w.cache.get (rosterCacheKey env.toSeasonEnv seasonId) = none →
      getSeasonRosterById env.toSeasonEnv seasonId w =
        (Outcome.resolved none,
          (w.log (SeasonEffect.cacheGet (rosterCacheKey env.toSeasonEnv seasonId))).log
            (SeasonEffect.dynamoDbGetItem seasonId))) ∧
    (w.cache.get (env.SEASON_CODE_PREFIX ++ toString seasonId) = none →
      getSeasonShortName env seasonId w =
        (Outcome.rejected (JsError.typeError "obj['SeasonShortName']"),
          (w.log (SeasonEffect.cacheGet (env.SEASON_CODE_PREFIX ++ toString seasonId))).log
            (SeasonEffect.dynamoDbGetItem seasonId))) ∧
    (w.cache.get (env.SEASON_INFO_PREFIX ++ toString seasonId) = none →
      getSeasonInformation env seasonId w =
        (Outcome.rejected (JsError.typeError "(await dynamoDbGetItem(..))['Information']"),
          (w.log (SeasonEffect.cacheGet (env.SEASON_INFO_PREFIX ++ toString seasonId))).log
            (SeasonEffect.dynamoDbGetItem seasonId))) ∧
    (w.cache.get (env.SEASON_REGULAR_PREFIX ++ toString seasonId) = none →
      getSeasonRegular env seasonId w =
        (Outcome.rejected (JsError.typeError "(await dynamoDbGetItem(..))['Regular']"),
          (w.log (SeasonEffect.cacheGet (env.SEASON_REGULAR_PREFIX ++ toString seasonId))).log
            (SeasonEffect.dynamoDbGetItem seasonId))) ∧
    (w.cache.get (env.SEASON_PLAYOFF_PREFIX ++ toString seasonId) = none →
      getSeasonPlayoffs env seasonId w =
        (Outcome.rejected (JsError.typeError "(await dynamoDbGetItem(..))['Playoffs']"),
          (w.log (SeasonEffect.cacheGet (env.SEASON_PLAYOFF_PREFIX ++ toString seasonId))).log
            (SeasonEffect.dynamoDbGetItem seasonId))) := by
  refine ⟨?_, ?_, ?_, ?_, ?_, ?_, ?_, ?_⟩
  · intro hc
    exact cacheAside_miss_null _ _ _ _ _ _ _ w hf (isHit_none w _ hc).1
      (by simp [loadInformationText, hdoc])
  · intro hc
    exact cacheAside_miss_null _ _ _ _ _ _ _ w hf (isHit_none w _ hc).1
      (by simp [loadInformationText, hdoc])
  · intro hc
    exact cacheAside_miss_null _ _ _ _ _ _ _ w hf (isHit_none w _ hc).1
      (by simp [loadInformationText, hdoc])
  · intro hc
    rw [getSeasonRosterById_eq_cacheAside]
    exact cacheAside_miss_null _ _ _ _ _ _ _ w hf (isHit_none w _ hc).1
      (by simp [loadSeasonRoster, hdoc])
  · intro hc
    exact cacheAside_miss_rejected _ _ _ _ _ _ _ w _ hf (isHit_none w _ hc).1
      (by simp [loadSeasonShortName, hdoc])
  · intro hc
    exact cacheAside_miss_rejected _ _ _ _ _ _ _ w _ hf (isHit_none w _ hc).1
      (by simp [loadSeasonInformation, hdoc])
  · intro hc
    exact cacheAside_miss_rejected _ _ _ _ _ _ _ w _ hf (isHit_none w _ hc).1
      (by simp [loadSeasonRegular, hdoc])
  · intro hc
    exact cacheAside_miss_rejected _ _ _ _ _ _ _ w _ hf (isHit_none w _ hc).2
      (by simp [loadSeasonPlayoffs, hdoc])

/-- C12 at a concrete input: no season 5 exists and the cache is empty;
`getSeasonName(5)` resolves with `null`, `getSeasonShortName(5)` and
`getSeasonRegular(5)` reject, and none writes to the cache. -/
theorem by_id_accessors_on_missing_season_witness :
    (getSeasonName demoAccessorEnv 5 demoFullSeasonWorld).1 = Outcome.resolved none ∧
    (getSeasonShortName demoAccessorEnv 5 demoFullSeasonWorld).1 =
      Outcome.rejected (JsError.typeError "obj['SeasonShortName']") ∧
    (getSeasonRegular demoAccessorEnv 5 demoFullSeasonWorld).1 =
      Outcome.rejected (JsError.typeError "(await dynamoDbGetItem(..))['Regular']") ∧
    (getSeasonShortName demoAccessorEnv 5 demoFullSeasonWorld).2.cache = [] ∧
    (getSeasonRegular demoAccessorEnv 5 demoFullSeasonWorld).2.cache = [] := by
  have h := by_id_accessors_on_missing_season demoAccessorEnv demoFullSeasonWorld 5
    (fun _ => rfl) (by decide)
  have h1 := h.1 (by decide)
  have h5 := h.2.2.2.2.1 (by decide)
  have h7 := h.2.2.2.2.2.2.1 (by decide)
  rw [h1, h5, h7]
  exact ⟨rfl, rfl, rfl, rfl, rfl⟩

/-! ## `createNewSeason` (C13) -/

theorem maxOf_spec (l : List Nat) (h : l ≠ []) :
    ∃ m, maxOf l = some m ∧ m ∈ l ∧ ∀ k ∈ l, k ≤ m := by
  induction l with
  | nil => exact absurd rfl h
  | cons x xs ih =>
    by_cases hxs : xs = []
    · subst hxs
      refine ⟨x, rfl, List.mem_cons_self _ _, ?_⟩
      intro k hk
      simp only [List.mem_singleton] at hk
      omega
    · obtain ⟨m, hm, hmem, hle⟩ := ih hxs
      refine ⟨max x m, by simp only [maxOf, hm], ?_, ?_⟩
      · rcases le_total x m with hxm | hxm
        · rw [max_eq_right hxm]
          exact List.mem_cons_of_mem _ hmem
        · rw [max_eq_left hxm]
          exact List.mem_cons_self _ _
      · intro k hk
        rcases List.mem_cons.1 hk with rfl | hk
        · exact le_max_left _ _
        · exact le_trans (hle k hk) (le_max_right _ _)

/-- Claim C13: when the season name splits on single spaces into exactly five
tokens, both tables hold at least one item and no call fails,
`createNewSeason` resolves with a season whose `SeasonTime` is the first two
tokens, whose `SeasonTabName` is the first, second and fourth token, whose
`LeagueType` is the fourth token, whose id is the largest stored season id
plus one and whose tournament ids are the largest stored tournament id plus
one and plus two; the regular-season and the playoffs tournament, named after
the season, are put in that order before the season is put, and all three are
stored. -/
theorem createNewSeason_creates_season (env : AdminEnv) (body : NewSeasonBody) (w : AdminWorld)
    (t0 t1 t2 t3 t4 : String)
    (hsplit : jsSplitSpace body.seasonName = [t0, t1, t2, t3, t4])
    (hseason : w.Season ≠ []) (htournament : w.Tournament ≠ [])
    (hfault : ∀ call, env.fault call = none) :
    ∃ (maxSeason maxTournament : Nat) (item : SeasonDbObject) (info : SeasonInformation)
      (reg post : TournamentDbObject),
      (maxSeason ∈ w.Season.map Prod.fst ∧ ∀ k ∈ w.Season.map Prod.fst, k ≤ maxSeason) ∧
      (maxTournament ∈ w.Tournament.map Prod.fst ∧
        ∀ k ∈ w.Tournament.map Prod.fst, k ≤ maxTournament) ∧
      (createNewSeason env body w).1 = Outcome.resolved (maxSeason + 1, item) ∧
      item.Information = some info ∧
      info.SeasonTime = t0 ++ " " ++ t1 ∧
      info.SeasonTabName = t0 ++ " " ++ t1 ++ " " ++ t3 ∧
      info.LeagueType = t3 ∧
      info.TournamentPIds.RegTournamentPId = some (maxTournament + 1) ∧
      info.TournamentPIds.PostTournamentPId = some (maxTournament + 2) ∧
      reg.Information.TournamentName = body.seasonName ++ " Regular Season" ∧
      post.Information.TournamentName = body.seasonName ++ " Playoffs" ∧
      reg.Information.SeasonPId = maxSeason + 1 ∧
      post.Information.SeasonPId = maxSeason + 1 ∧
      (createNewSeason env body w).2.effects = w.effects ++
        [AdminEffect.createTournamentId body.seasonShortName, AdminEffect.scanSeason,
         AdminEffect.scanTournament, AdminEffect.putTournament (maxTournament + 1) reg,
         AdminEffect.putTournament (maxTournament + 2) post,
         AdminEffect.putSeason (maxSeason + 1) item] ∧
      (maxTournament + 1, reg) ∈ (createNewSeason env body w).2.Tournament ∧
      (maxTournament + 2, post) ∈ (createNewSeason env body w).2.Tournament ∧
      seasonGetItem (createNewSeason env body w).2.Season (maxSeason + 1) = some item := by
  obtain ⟨ms, hms, hmsMem, hmsLe⟩ :=
    maxOf_spec (w.Season.map Prod.fst) (by simpa using hseason)
  obtain ⟨mt, hmt, hmtMem, hmtLe⟩ :=
    maxOf_spec (w.Tournament.map Prod.fst) (by simpa using htournament)
  have hrun : createNewSeason env body w =
      (Outcome.resolved (ms + 1,
          newSeasonItem env body (t0 ++ " " ++ t1 ++ " " ++ t3) (t0 ++ " " ++ t1) t3
            (env.createTournamentId body.seasonShortName) (mt + 1) (mt + 2)),
        ((((((w.log (AdminEffect.createTournamentId body.seasonShortName)).log
          AdminEffect.scanSeason).log AdminEffect.scanTournament).putTournament (mt + 1)
            (newTournamentItem body (t0 ++ " " ++ t1) (ms + 1) 0)).putTournament (mt + 2)
            (newTournamentItem body (t0 ++ " " ++ t1) (ms + 1) 1)).putSeason (ms + 1)
          (newSeasonItem env body (t0 ++ " " ++ t1 ++ " " ++ t3) (t0 ++ " " ++ t1) t3
            (env.createTournamentId body.seasonShortName) (mt + 1) (mt + 2)))) := by
    unfold createNewSeason
    simp only [hsplit, hfault, AdminWorld.log, hms, hmt]
  refine ⟨ms, mt, _, _, newTournamentItem body (t0 ++ " " ++ t1) (ms + 1) 0,
    newTournamentItem body (t0 ++ " " ++ t1) (ms + 1) 1, ⟨hmsMem, hmsLe⟩, ⟨hmtMem, hmtLe⟩,
    by rw [hrun], rfl, rfl, rfl, rfl, rfl, rfl, ?_, ?_, rfl, rfl, ?_, ?_, ?_, ?_⟩
  · simp only [newTournamentItem, if_true, String.append_assoc]
    rfl
  · simp only [newTournamentItem, String.append_assoc]
    rfl
  · rw [hrun]
    simp only [AdminWorld.putSeason, AdminWorld.putTournament, AdminWorld.log,
      List.append_assoc, List.cons_append, List.nil_append]
  · rw [hrun]
    simp only [AdminWorld.putSeason, AdminWorld.putTournament, AdminWorld.log]
    refine List.mem_append_left _ (List.mem_filter.2
      ⟨List.mem_append_right _ (List.mem_singleton_self _), ?_⟩)
    simp
  · rw [hrun]
    simp only [AdminWorld.putSeason, AdminWorld.putTournament, AdminWorld.log]
    exact List.mem_append_right _ (List.mem_singleton_self _)
  · rw [hrun]
    exact seasonGetItem_put_self _ _ _

theorem createNewSeason_creates_season_witness :
    jsSplitSpace demoNewSeasonBody.seasonName = ["Summer", "2021", "Aegis", "Guardians", "League"] ∧
    (createNewSeason demoAdminEnv demoNewSeasonBody demoAdminWorld).1 =
      Outcome.resolved (8,
        newSeasonItem demoAdminEnv demoNewSeasonBody "Summer 2021 Guardians" "Summer 2021"
          "Guardians" 4243 13 14) ∧
    ∃ (maxSeason maxTournament : Nat) (item : SeasonDbObject) (info : SeasonInformation)
      (reg post : TournamentDbObject),
      (maxSeason ∈ demoAdminWorld.Season.map Prod.fst ∧
        ∀ k ∈ demoAdminWorld.Season.map Prod.fst, k ≤ maxSeason) ∧
      (maxTournament ∈ demoAdminWorld.Tournament.map Prod.fst ∧
        ∀ k ∈ demoAdminWorld.Tournament.map Prod.fst, k ≤ maxTournament) ∧
      (createNewSeason demoAdminEnv demoNewSeasonBody demoAdminWorld).1 =
        Outcome.resolved (maxSeason + 1, item) ∧
      item.Information = some info ∧
      info.SeasonTime = "Summer" ++ " " ++ "2021" ∧
      info.SeasonTabName = "Summer" ++ " " ++ "2021" ++ " " ++ "Guardians" ∧
      info.LeagueType = "Guardians" ∧
      info.TournamentPIds.RegTournamentPId = some (maxTournament + 1) ∧
      info.TournamentPIds.PostTournamentPId = some (maxTournament + 2) ∧
      reg.Information.TournamentName = demoNewSeasonBody.seasonName ++ " Regular Season" ∧
      post.Information.TournamentName = demoNewSeasonBody.seasonName ++ " Playoffs" ∧
      reg.Information.SeasonPId = maxSeason + 1 ∧
      post.Information.SeasonPId = maxSeason + 1 ∧
      (createNewSeason demoAdminEnv demoNewSeasonBody demoAdminWorld).2.effects =
        demoAdminWorld.effects ++
        [AdminEffect.createTournamentId demoNewSeasonBody.seasonShortName,
         AdminEffect.scanSeason, AdminEffect.scanTournament,
         AdminEffect.putTournament (maxTournament + 1) reg,
         AdminEffect.putTournament (maxTournament + 2) post,
         AdminEffect.putSeason (maxSeason + 1) item] ∧
      (maxTournament + 1, reg) ∈
        (createNewSeason demoAdminEnv demoNewSeasonBody demoAdminWorld).2.Tournament ∧
      (maxTournament + 2, post) ∈
        (createNewSeason demoAdminEnv demoNewSeasonBody demoAdminWorld).2.Tournament ∧
      seasonGetItem (createNewSeason demoAdminEnv demoNewSeasonBody demoAdminWorld).2.Season
        (maxSeason + 1) = some item :=
  ⟨by decide, by decide,
    createNewSeason_creates_season demoAdminEnv demoNewSeasonBody demoAdminWorld
      "Summer" "2021" "Aegis" "Guardians" "League" (by decide) (by decide) (by decide)
      (fun _ => rfl)⟩

/-! ## `generateNewCodes` (C14, C15, C16) -/

theorem callGenerateTournamentCodes_ok (env : AdminEnv)
    (hapi : ∀ before request, ∃ r, env.generateTournamentCodes before request = Except.ok r)
    (request : CodesRequest) (w : AdminWorld) :
    ∃ r, callGenerateTournamentCodes env request w =
      (Except.ok r, w.log (AdminEffect.generateTournamentCodes request (some r))) := by
  obtain ⟨r, hr⟩ := hapi w.effects request
  exact ⟨r, by simp only [callGenerateTournamentCodes, hr]⟩

theorem generatePrimaryCodes_ok (env : AdminEnv)
    (hapi : ∀ before request, ∃ r, env.generateTournamentCodes before request = Except.ok r)
    (weekUppercase : String) (riot : Option Nat) (short : Option String) :
    ∀ (n : Nat) (rest : List String), rest.length ≤ n →
      ∀ (primary : List PrimaryCodesJson) (retried : Nat) (w : AdminWorld),
      ∃ resps : List AwsResponse, resps.length = (pairsOf rest).length ∧
        generatePrimaryCodes env weekUppercase riot short rest primary retried w =
          (Except.ok (primary ++ List.zipWith primaryRecord (pairsOf rest) resps,
              retried + (resps.map AwsResponse.timedOut).sum),
            { w with effects := w.effects ++
                List.zipWith (pairEffect weekUppercase riot short) (pairsOf rest) resps }) := by
  intro n
  induction n with
  | zero =>
    intro rest hlen primary retried w
    have hnil : rest = [] := List.length_eq_zero.1 (Nat.le_zero.1 hlen)
    subst hnil
    exact ⟨[], rfl, by simp [generatePrimaryCodes, pairsOf]⟩
  | succ n ih =>
    intro rest hlen primary retried w
    match rest, hlen with
    | [], _ => exact ⟨[], rfl, by simp [generatePrimaryCodes, pairsOf]⟩
    | [teamName1], _ =>
      obtain ⟨r, hr⟩ := callGenerateTournamentCodes_ok env hapi
        (pairRequest weekUppercase riot short teamName1 none) w
      refine ⟨[r], rfl, ?_⟩
      simp [generatePrimaryCodes, hr, pairsOf, primaryRecord, pairEffect, AdminWorld.log]
    | teamName1 :: teamName2 :: rest, hlen =>
      obtain ⟨r, hr⟩ := callGenerateTournamentCodes_ok env hapi
        (pairRequest weekUppercase riot short teamName1 (some teamName2)) w
      have hlen' : rest.length ≤ n := by
        simp only [List.length_cons] at hlen
        omega
      obtain ⟨resps, hl, hrun⟩ := ih rest hlen'
        (primary ++ [{ Team1 := teamName1, Team2 := some teamName2, Codes := r.data }])
        (retried + r.timedOut)
        (w.log (AdminEffect.generateTournamentCodes
          (pairRequest weekUppercase riot short teamName1 (some teamName2)) (some r)))
      refine ⟨r :: resps, by simp [pairsOf, hl], ?_⟩
      simp only [generatePrimaryCodes, hr, hrun]
      simp [pairsOf, primaryRecord, pairEffect, AdminWorld.log, Nat.add_assoc]

theorem ensureWeekEntry_ok (env : AdminEnv)
    (hapi : ∀ before request, ∃ r, env.generateTournamentCodes before request = Except.ok r)
    (weekUppercase : String) (riot : Option Nat) (short : Option String)
    (weeks : JsObj WeekCodesJson) (w : AdminWorld) :
    ∃ (backups : List AwsResponse) (entry : WeekCodesJson) (weeks1 : JsObj WeekCodesJson),
      ensureWeekEntry env weekUppercase riot short weeks w =
        (Except.ok (weeks1, (backups.map AwsResponse.timedOut).sum),
          { w with effects := w.effects ++
              backups.map (backupEffect weekUppercase riot short) }) ∧
      weeks1.get weekUppercase = some entry ∧
      (∀ k, k ≠ weekUppercase → weeks1.get k = weeks.get k) ∧
      (∀ old, weeks.get weekUppercase = some old → backups = [] ∧ entry = old) ∧
      (weeks.get weekUppercase = none → ∃ b, backups = [b] ∧
        entry = { Timestamp := nowSeconds env, Primary := [], Backups := b.data }) := by
  cases hw : weeks.get weekUppercase with
  | some old =>
    refine ⟨[], old, weeks, ?_, hw, fun _ _ => rfl, ?_, ?_⟩
    · simp [ensureWeekEntry, hw]
    · intro old' h
      exact ⟨rfl, (Option.some.inj h)⟩
    · intro h
      cases h
  | none =>
    obtain ⟨b, hb⟩ := callGenerateTournamentCodes_ok env hapi
      (backupRequest weekUppercase riot short) w
    refine ⟨[b], WeekCodesJson.mk (nowSeconds env) [] b.data,
      weeks.set weekUppercase (WeekCodesJson.mk (nowSeconds env) [] b.data), ?_,
      JsObj.get_set_self weeks weekUppercase _,
      fun k hk => JsObj.get_set_other weeks weekUppercase k _ hk, ?_, ?_⟩
    · simp [ensureWeekEntry, hw, hb, backupEffect, AdminWorld.log]
    · intro old h
      cases h
    · intro _
      exact ⟨b, rfl, rfl⟩

theorem storedWeeks_update (table : List (Nat × SeasonDbObject))
    (tournaments : List (Nat × TournamentDbObject)) (effects : List AdminEffect)
    (seasonId : Nat) (seasonObject : SeasonDbObject) (weeks weeks2 : JsObj WeekCodesJson)
    (hdoc : seasonGetItem table seasonId = some seasonObject)
    (hweeks : codesWeeksOf seasonObject = some weeks) :
    storedWeeks { Season := seasonUpdateCodesWeeks table seasonId weeks2,
                  Tournament := tournaments, effects := effects } seasonId = some weeks2 := by
  simp only [storedWeeks, seasonUpdateCodesWeeks, hdoc, seasonGetItem_put_self, Option.bind,
    codesWeeksOf]
  cases hc : seasonObject.Codes with
  | none => simp [codesWeeksOf, hc] at hweeks
  | some codes => simp

theorem generateNewCodes_resolves (env : AdminEnv) (seasonId : Nat) (week : String)
    (teamList : List String) (w : AdminWorld) (seasonObject : SeasonDbObject)
    (weeks : JsObj WeekCodesJson)
    (hget : env.fault AdminCall.getSeason = none)
    (hupd : env.fault AdminCall.updateSeason = none)
    (hapi : ∀ before request, ∃ r, env.generateTournamentCodes before request = Except.ok r)
    (hdoc : seasonGetItem w.Season seasonId = some seasonObject)
    (hweeks : codesWeeksOf seasonObject = some weeks)
    (heven : (nonEmptyTeams teamList).length % 2 = 0) :
    ∃ (backups resps : List AwsResponse) (entry : WeekCodesJson)
      (weeks2 : JsObj WeekCodesJson),
      resps.length = (pairsOf (nonEmptyTeams teamList)).length ∧
      (∀ old, weeks.get (toUpperCase week) = some old → backups = [] ∧ entry = old) ∧
      (weeks.get (toUpperCase week) = none → ∃ b, backups = [b] ∧
        entry = { Timestamp := nowSeconds env, Primary := [], Backups := b.data }) ∧
      weeks2.get (toUpperCase week) = some
        { entry with Primary := entry.Primary ++
            List.zipWith primaryRecord (pairsOf (nonEmptyTeams teamList)) resps } ∧
      (∀ k, k ≠ toUpperCase week → weeks2.get k = weeks.get k) ∧
      generateNewCodes env seasonId week teamList w =
        (Outcome.resolved
          { response := msgCodesGenerated seasonObject.SeasonShortName,
            numMatches := (nonEmptyTeams teamList).length / 2,
            timesRetried := (backups.map AwsResponse.timedOut).sum +
              (resps.map AwsResponse.timedOut).sum },
         { Season := seasonUpdateCodesWeeks w.Season seasonId weeks2,
           Tournament := w.Tournament,
           effects := w.effects ++ [AdminEffect.getSeason seasonId] ++
             backups.map (backupEffect (toUpperCase week) (riotTournamentIdOf seasonObject)
               seasonObject.SeasonShortName) ++
             List.zipWith (pairEffect (toUpperCase week) (riotTournamentIdOf seasonObject)
               seasonObject.SeasonShortName) (pairsOf (nonEmptyTeams teamList)) resps ++
             [AdminEffect.updateSeasonCodesWeeks seasonId weeks2] }) := by
  obtain ⟨backups, entry, weeks1, hens, hget1, hother1, hold, hnew⟩ :=
    ensureWeekEntry_ok env hapi (toUpperCase week) (riotTournamentIdOf seasonObject)
      seasonObject.SeasonShortName weeks (w.log (AdminEffect.getSeason seasonId))
  obtain ⟨resps, hl, hloop⟩ :=
    generatePrimaryCodes_ok env hapi (toUpperCase week) (riotTournamentIdOf seasonObject)
      seasonObject.SeasonShortName _ (nonEmptyTeams teamList) le_rfl entry.Primary
      (backups.map AwsResponse.timedOut).sum
      { (w.log (AdminEffect.getSeason seasonId)) with
        effects := (w.log (AdminEffect.getSeason seasonId)).effects ++
          backups.map (backupEffect (toUpperCase week) (riotTournamentIdOf seasonObject)
            seasonObject.SeasonShortName) }
  refine ⟨backups, resps, entry, weeks1.set (toUpperCase week)
    { entry with Primary := entry.Primary ++
        List.zipWith primaryRecord (pairsOf (nonEmptyTeams teamList)) resps },
    hl, hold, hnew, JsObj.get_set_self _ _ _,
    fun k hk => (JsObj.get_set_other _ _ _ _ hk).trans (hother1 k hk), ?_⟩
  have hw0 : (w.log (AdminEffect.getSeason seasonId)).Season = w.Season := rfl
  unfold generateNewCodes
  simp only [hget, hw0, hdoc, hweeks, heven, Nat.lt_irrefl, gt_iff_lt, if_false]
  unfold generateNewCodesBody
  simp only [hens, hget1, hloop, hupd]
  simp only [AdminWorld.log, List.append_assoc]

theorem pairsOf_length : ∀ (n : Nat) (l : List String), l.length = 2 * n →
    (pairsOf l).length = n := by
  intro n
  induction n with
  | zero =>
    intro l hl
    have hnil : l = [] := List.length_eq_zero.1 (by omega)
    subst hnil
    rfl
  | succ n ih =>
    intro l hl
    match l, hl with
    | [], hl => simp at hl
    | [_], hl =>
      simp only [List.length_singleton] at hl
      omega
    | a :: b :: rest, hl =>
      have hrest : rest.length = 2 * n := by
        simp only [List.length_cons] at hl
        omega
      simp only [pairsOf, List.length_cons, ih rest hrest]

theorem pairsOf_getElem : ∀ (k : Nat) (l : List String) (a b : String),
    l[2 * k]? = some a → l[2 * k + 1]? = some b → (pairsOf l)[k]? = some (a, some b) := by
  intro k
  induction k with
  | zero =>
    intro l a b ha hb
    match l, ha, hb with
    | [], ha, _ => simp at ha
    | [_], _, hb => simp at hb
    | x :: y :: rest, ha, hb =>
      simp only [Nat.mul_zero, List.getElem?_cons_zero, Option.some.injEq] at ha
      simp only [Nat.mul_zero, Nat.zero_add, List.getElem?_cons_succ, List.getElem?_cons_zero,
        Option.some.injEq] at hb
      subst ha
      subst hb
      simp only [pairsOf, List.getElem?_cons_zero]
  | succ k ih =>
    intro l a b ha hb
    match l, ha, hb with
    | [], ha, _ => simp at ha
    | [_], _, hb => simp at hb
    | x :: y :: rest, ha, hb =>
      have h2 : 2 * (k + 1) = (2 * k + 1) + 1 := by omega
      have h3 : 2 * (k + 1) + 1 = (2 * k + 1 + 1) + 1 := by omega
      rw [h2] at ha
      rw [h3] at hb
      simp only [List.getElem?_cons_succ] at ha hb
      simp only [pairsOf, List.getElem?_cons_succ]
      exact ih rest a b ha hb

theorem mem_zipWith_exists {α β γ : Type} (f : α → β → γ) :
    ∀ (as : List α) (bs : List β) (c : γ), c ∈ List.zipWith f as bs → ∃ a b, c = f a b := by
  intro as
  induction as with
  | nil =>
    intro bs c h
    simp at h
  | cons a as ih =>
    intro bs c h
    cases bs with
    | nil => simp at h
    | cons b bs =>
      simp only [List.zipWith_cons_cons, List.mem_cons] at h
      rcases h with h | h
      · exact ⟨a, b, h⟩
      · exact ih bs c h

theorem demoGenerateTournamentCodes_ok (before : List AdminEffect) (request : CodesRequest) :
    ∃ r, demoAdminEnv.generateTournamentCodes before request = Except.ok r := by
  cases h : request.team1 with
  | none =>
    exact ⟨{ data := ["B1", "B2", "B3", "B4", "B5", "B6", "B7", "B8", "B9", "B10"],
             timedOut := 0 }, by simp only [demoAdminEnv, demoGenerateTournamentCodes, h]⟩
  | some t =>
    exact ⟨{ data := [request.week ++ "-" ++ t ++ "-" ++ renderProperty request.team2],
             timedOut := 1 }, by simp only [demoAdminEnv, demoGenerateTournamentCodes, h]⟩

/-- Claim C14: for a stored season with a `Codes.Weeks` object, when the number
of non-empty entries of the team list is odd `generateNewCodes` rejects with
the message that states that number, having done nothing but read the season:
no call of the code-generation API and no write to the table; when the number
is even the run goes on with the part of the function after the check, and
resolves if the code-generation API and the update do not fail. -/
theorem generateNewCodes_checks_team_count (env : AdminEnv) (seasonId : Nat) (week : String)
    (teamList : List String) (w : AdminWorld) (seasonObject : SeasonDbObject)
    (weeks : JsObj WeekCodesJson)
    (hget : env.fault AdminCall.getSeason = none)
    (hdoc : seasonGetItem w.Season seasonId = some seasonObject)
    (hweeks : codesWeeksOf seasonObject = some weeks) :
    ((nonEmptyTeams teamList).length % 2 = 1 →
      generateNewCodes env seasonId week teamList w =
        (Outcome.rejected (JsError.rejection (msgOddTeamList (nonEmptyTeams teamList).length)),
          { w with effects := w.effects ++ [AdminEffect.getSeason seasonId] })) ∧
    ((nonEmptyTeams teamList).length % 2 = 0 →
      generateNewCodes env seasonId week teamList w =
        generateNewCodesBody env seasonId (toUpperCase week) seasonObject.SeasonShortName
          (riotTournamentIdOf seasonObject) weeks (nonEmptyTeams teamList)
          (w.log (AdminEffect.getSeason seasonId))) ∧
    ((nonEmptyTeams teamList).length % 2 = 0 →
      env.fault AdminCall.updateSeason = none →
      (∀ before request, ∃ r, env.generateTournamentCodes before request = Except.ok r) →
      ∃ res w', generateNewCodes env seasonId week teamList w = (Outcome.resolved res, w')) := by
  have hw0 : (w.log (AdminEffect.getSeason seasonId)).Season = w.Season := rfl
  refine ⟨?_, ?_, ?_⟩
  · intro hodd
    unfold generateNewCodes
    simp only [hget, hw0, hdoc, hweeks, hodd, gt_iff_lt, Nat.lt_one_iff, Nat.zero_lt_one,
      if_true, AdminWorld.log]
  · intro heven
    unfold generateNewCodes
    simp only [hget, hw0, hdoc, hweeks, heven, Nat.lt_irrefl, gt_iff_lt, if_false]
  · intro heven hupd hapi
    obtain ⟨_, _, _, _, _, _, _, _, _, hrun⟩ :=
      generateNewCodes_resolves env seasonId week teamList w seasonObject weeks hget hupd hapi
        hdoc hweeks heven
    exact ⟨_, _, hrun⟩

theorem generateNewCodes_checks_team_count_witness :
    demoAdminEnv.fault AdminCall.getSeason = none ∧
    seasonGetItem demoAdminWorld.Season 3 = some demoCodesSeason ∧
    codesWeeksOf demoCodesSeason = some [] ∧
    (nonEmptyTeams ["Alpha", "", "Beta", "Gamma"]).length % 2 = 1 ∧
    generateNewCodes demoAdminEnv 3 "w1" ["Alpha", "", "Beta", "Gamma"] demoAdminWorld =
      (Outcome.rejected (JsError.rejection
        "Team List provided does not have an even amount of teams (Length: 3)."),
        { demoAdminWorld with effects := [AdminEffect.getSeason 3] }) ∧
    (nonEmptyTeams ["Alpha", "Beta", "", "Gamma", "Delta"]).length % 2 = 0 ∧
    ∃ res w', generateNewCodes demoAdminEnv 3 "w1" ["Alpha", "Beta", "", "Gamma", "Delta"]
      demoAdminWorld = (Outcome.resolved res, w') :=
  ⟨rfl, by decide, by decide, by decide,
    (generateNewCodes_checks_team_count demoAdminEnv 3 "w1" ["Alpha", "", "Beta", "Gamma"]
      demoAdminWorld demoCodesSeason [] rfl (by decide) (by decide)).1 (by decide),
    by decide,
    (generateNewCodes_checks_team_count demoAdminEnv 3 "w1"
      ["Alpha", "Beta", "", "Gamma", "Delta"] demoAdminWorld demoCodesSeason [] rfl
      (by decide) (by decide)).2.2 (by decide) rfl
      demoGenerateTournamentCodes_ok⟩

/-- Claim C15: when the stored `Codes.Weeks` object of the season already has
an entry for the upper-cased week, the team list has an even number of
non-empty entries and no call fails, `generateNewCodes` resolves, and the
weeks object it persists has under that week the old `Timestamp` and
`Backups` and the old `Primary` list followed by the new records, and under
every other key what was there before; between reading the season and the
update it calls the code-generation API for the matches only, each call
naming a first team and no count, so no backup codes are requested. -/
theorem generateNewCodes_keeps_existing_week (env : AdminEnv) (seasonId : Nat) (week : String)
    (teamList : List String) (w : AdminWorld) (seasonObject : SeasonDbObject)
    (weeks : JsObj WeekCodesJson) (old : WeekCodesJson)
    (hget : env.fault AdminCall.getSeason = none)
    (hupd : env.fault AdminCall.updateSeason = none)
    (hapi : ∀ before request, ∃ r, env.generateTournamentCodes before request = Except.ok r)
    (hdoc : seasonGetItem w.Season seasonId = some seasonObject)
    (hweeks : codesWeeksOf seasonObject = some weeks)
    (heven : (nonEmptyTeams teamList).length % 2 = 0)
    (hold : weeks.get (toUpperCase week) = some old) :
    ∃ (resps : List AwsResponse) (pairCalls : List AdminEffect)
      (weeks2 : JsObj WeekCodesJson) (res : NewCodesResult) (w' : AdminWorld),
      generateNewCodes env seasonId week teamList w = (Outcome.resolved res, w') ∧
      storedWeeks w' seasonId = some weeks2 ∧
      weeks2.get (toUpperCase week) = some
        { Timestamp := old.Timestamp,
          Primary := old.Primary ++
            List.zipWith primaryRecord (pairsOf (nonEmptyTeams teamList)) resps,
          Backups := old.Backups } ∧
      (∀ k, k ≠ toUpperCase week → weeks2.get k = weeks.get k) ∧
      w'.effects = w.effects ++ [AdminEffect.getSeason seasonId] ++ pairCalls ++
        [AdminEffect.updateSeasonCodesWeeks seasonId weeks2] ∧
      pairCalls = List.zipWith (pairEffect (toUpperCase week) (riotTournamentIdOf seasonObject)
        seasonObject.SeasonShortName) (pairsOf (nonEmptyTeams teamList)) resps ∧
      (∀ effect ∈ pairCalls, ∃ request response,
        effect = AdminEffect.generateTournamentCodes request response ∧
        request.team1 ≠ none ∧ request.count = none) := by
  obtain ⟨backups, resps, entry, weeks2, _, hkeep, _, hentry, hother, hrun⟩ :=
    generateNewCodes_resolves env seasonId week teamList w seasonObject weeks hget hupd hapi
      hdoc hweeks heven
  obtain ⟨hb, he⟩ := hkeep old hold
  subst hb
  subst he
  refine ⟨resps, _, weeks2, _, _, hrun, storedWeeks_update _ _ _ _ _ _ _ hdoc hweeks, hentry,
    hother, ?_, rfl, ?_⟩
  · simp only [List.map_nil, List.append_nil]
  · intro effect hmem
    obtain ⟨pair, r, hpr⟩ := mem_zipWith_exists _ _ _ _ hmem
    refine ⟨_, _, hpr, ?_, rfl⟩
    simp [pairRequest]

theorem generateNewCodes_keeps_existing_week_witness :
    seasonGetItem demoWeekWorld.Season 3 = some demoWeekSeason ∧
    (nonEmptyTeams ["Alpha", "Beta"]).length % 2 = 0 ∧
    storedWeeks demoWeekWorld 3 = some demoWeeks ∧
    demoWeeks.get (toUpperCase "w1") = some demoWeekEntry ∧
    storedWeeks (generateNewCodes demoAdminEnv 3 "w1" ["Alpha", "Beta"] demoWeekWorld).2 3 = some
      [("W1", { Timestamp := 1600000000,
                Primary := [{ Team1 := "Old1", Team2 := some "Old2", Codes := ["X1"] },
                            { Team1 := "Alpha", Team2 := some "Beta",
                              Codes := ["W1-Alpha-Beta"] }],
                Backups := ["B0"] }),
       ("W2", { Timestamp := 1600600000, Primary := [], Backups := ["C0"] })] ∧
    ∃ (resps : List AwsResponse) (pairCalls : List AdminEffect)
      (weeks2 : JsObj WeekCodesJson) (res : NewCodesResult) (w' : AdminWorld),
      generateNewCodes demoAdminEnv 3 "w1" ["Alpha", "Beta"] demoWeekWorld =
        (Outcome.resolved res, w') ∧
      storedWeeks w' 3 = some weeks2 ∧
      weeks2.get (toUpperCase "w1") = some
        { Timestamp := demoWeekEntry.Timestamp,
          Primary := demoWeekEntry.Primary ++
            List.zipWith primaryRecord (pairsOf (nonEmptyTeams ["Alpha", "Beta"])) resps,
          Backups := demoWeekEntry.Backups } ∧
      (∀ k, k ≠ toUpperCase "w1" → weeks2.get k = demoWeeks.get k) ∧
      w'.effects = demoWeekWorld.effects ++ [AdminEffect.getSeason 3] ++ pairCalls ++
        [AdminEffect.updateSeasonCodesWeeks 3 weeks2] ∧
      pairCalls = List.zipWith (pairEffect (toUpperCase "w1") (riotTournamentIdOf demoWeekSeason)
        demoWeekSeason.SeasonShortName) (pairsOf (nonEmptyTeams ["Alpha", "Beta"])) resps ∧
      (∀ effect ∈ pairCalls, ∃ request response,
        effect = AdminEffect.generateTournamentCodes request response ∧
        request.team1 ≠ none ∧ request.count = none) :=
  ⟨by decide, by decide, by decide, by decide, by decide,
    generateNewCodes_keeps_existing_week demoAdminEnv 3 "w1" ["Alpha", "Beta"] demoWeekWorld
      demoWeekSeason demoWeeks demoWeekEntry rfl rfl demoGenerateTournamentCodes_ok (by decide)
      rfl (by decide) (by decide)⟩

/-- Claim C16: for a stored season with a `Codes.Weeks` object, a team list
with `2 * n` non-empty entries and no failing call, `generateNewCodes`
resolves with `numMatches = n` and with `timesRetried` the sum of the
`timedOut` of every call of the code-generation API it made (the backup
request, made only when the week had no entry, and the `n` match requests);
it appends to the `Primary` list of the week exactly `n` records, the `k`-th
of them with the non-empty entries `2 * k` and `2 * k + 1` as `Team1` and
`Team2` and with the `data` the `k`-th match request answered, and persists
the weeks object with that entry. -/
theorem generateNewCodes_appends_record_per_pair (env : AdminEnv) (seasonId : Nat)
    (week : String) (teamList : List String) (w : AdminWorld) (seasonObject : SeasonDbObject)
    (weeks : JsObj WeekCodesJson) (n : Nat)
    (hget : env.fault AdminCall.getSeason = none)
    (hupd : env.fault AdminCall.updateSeason = none)
    (hapi : ∀ before request, ∃ r, env.generateTournamentCodes before request = Except.ok r)
    (hdoc : seasonGetItem w.Season seasonId = some seasonObject)
    (hweeks : codesWeeksOf seasonObject = some weeks)
    (hlen : (nonEmptyTeams teamList).length = 2 * n) :
    ∃ (backups resps : List AwsResponse) (entry : WeekCodesJson)
      (newRecords : List PrimaryCodesJson) (pairCalls : List AdminEffect)
      (weeks2 : JsObj WeekCodesJson) (res : NewCodesResult) (w' : AdminWorld),
      generateNewCodes env seasonId week teamList w = (Outcome.resolved res, w') ∧
      res.numMatches = n ∧
      res.timesRetried = (backups.map AwsResponse.timedOut).sum +
        (resps.map AwsResponse.timedOut).sum ∧
      w'.effects = w.effects ++ [AdminEffect.getSeason seasonId] ++
        backups.map (backupEffect (toUpperCase week) (riotTournamentIdOf seasonObject)
          seasonObject.SeasonShortName) ++ pairCalls ++
        [AdminEffect.updateSeasonCodesWeeks seasonId weeks2] ∧
      storedWeeks w' seasonId = some weeks2 ∧
      (∀ old, weeks.get (toUpperCase week) = some old → backups = [] ∧ entry = old) ∧
      (weeks.get (toUpperCase week) = none → ∃ b, backups = [b] ∧
        entry = { Timestamp := nowSeconds env, Primary := [], Backups := b.data }) ∧
      weeks2.get (toUpperCase week) = some
        { entry with Primary := entry.Primary ++ newRecords } ∧
      newRecords.length = n ∧ pairCalls.length = n ∧ resps.length = n ∧
      ∀ k, k < n → ∃ (a b : String) (r : AwsResponse),
        (nonEmptyTeams teamList)[2 * k]? = some a ∧
        (nonEmptyTeams teamList)[2 * k + 1]? = some b ∧
        resps[k]? = some r ∧
        newRecords[k]? = some { Team1 := a, Team2 := some b, Codes := r.data } ∧
        pairCalls[k]? = some (AdminEffect.generateTournamentCodes
          (pairRequest (toUpperCase week) (riotTournamentIdOf seasonObject)
            seasonObject.SeasonShortName a (some b)) (some r)) := by
  have heven : (nonEmptyTeams teamList).length % 2 = 0 := by omega
  obtain ⟨backups, resps, entry, weeks2, hl, hkeep, hnew, hentry, _, hrun⟩ :=
    generateNewCodes_resolves env seasonId week teamList w seasonObject weeks hget hupd hapi
      hdoc hweeks heven
  have hpairs : (pairsOf (nonEmptyTeams teamList)).length = n := pairsOf_length n _ hlen
  rw [hpairs] at hl
  refine ⟨backups, resps, entry, _, _, weeks2, _, _, hrun, ?_, rfl, rfl,
    storedWeeks_update _ _ _ _ _ _ _ hdoc hweeks, hkeep, hnew, hentry, ?_, ?_, hl, ?_⟩
  · show (nonEmptyTeams teamList).length / 2 = n
    omega
  · simp only [List.length_zipWith, hpairs, hl, min_self]
  · simp only [List.length_zipWith, hpairs, hl, min_self]
  · intro k hk
    have h0 : 2 * k < (nonEmptyTeams teamList).length := by omega
    have h1 : 2 * k + 1 < (nonEmptyTeams teamList).length := by omega
    have hr : k < resps.length := by omega
    have ha : (nonEmptyTeams teamList)[2 * k]? = some ((nonEmptyTeams teamList)[2 * k]) :=
      List.getElem?_eq_getElem h0
    have hb : (nonEmptyTeams teamList)[2 * k + 1]? =
        some ((nonEmptyTeams teamList)[2 * k + 1]) := List.getElem?_eq_getElem h1
    have hrk : resps[k]? = some (resps[k]) := List.getElem?_eq_getElem hr
    have hp := pairsOf_getElem k _ _ _ ha hb
    refine ⟨_, _, _, ha, hb, hrk, ?_, ?_⟩
    · simp only [List.getElem?_zipWith, hp, hrk, primaryRecord]
    · simp only [List.getElem?_zipWith, hp, hrk, pairEffect]

theorem generateNewCodes_appends_record_per_pair_witness :
    seasonGetItem demoAdminWorld.Season 3 = some demoCodesSeason ∧
    (nonEmptyTeams ["Alpha", "Beta", "Gamma", "Delta"]).length = 2 * 2 ∧
    (generateNewCodes demoAdminEnv 3 "w1" ["Alpha", "Beta", "Gamma", "Delta"]
      demoAdminWorld).1 = Outcome.resolved
        { response := "Season 'w2021agl' successfully generated new codes.",
          numMatches := 2, timesRetried := 2 } ∧
    storedWeeks (generateNewCodes demoAdminEnv 3 "w1" ["Alpha", "Beta", "Gamma", "Delta"]
      demoAdminWorld).2 3 = some
      [("W1", { Timestamp := 1625000001,
                Primary := [{ Team1 := "Alpha", Team2 := some "Beta",
                              Codes := ["W1-Alpha-Beta"] },
                            { Team1 := "Gamma", Team2 := some "Delta",
                              Codes := ["W1-Gamma-Delta"] }],
                Backups := ["B1", "B2", "B3", "B4", "B5", "B6", "B7", "B8", "B9", "B10"] })] ∧
    ∃ (backups resps : List AwsResponse) (entry : WeekCodesJson)
      (newRecords : List PrimaryCodesJson) (pairCalls : List AdminEffect)
      (weeks2 : JsObj WeekCodesJson) (res : NewCodesResult) (w' : AdminWorld),
      generateNewCodes demoAdminEnv 3 "w1" ["Alpha", "Beta", "Gamma", "Delta"] demoAdminWorld =
        (Outcome.resolved res, w') ∧
      res.numMatches = 2 ∧
      res.timesRetried = (backups.map AwsResponse.timedOut).sum +
        (resps.map AwsResponse.timedOut).sum ∧
      w'.effects = demoAdminWorld.effects ++ [AdminEffect.getSeason 3] ++
        backups.map (backupEffect (toUpperCase "w1") (riotTournamentIdOf demoCodesSeason)
          demoCodesSeason.SeasonShortName) ++ pairCalls ++
        [AdminEffect.updateSeasonCodesWeeks 3 weeks2] ∧
      storedWeeks w' 3 = some weeks2 ∧
      (∀ old, JsObj.get ([] : JsObj WeekCodesJson) (toUpperCase "w1") = some old →
        backups = [] ∧ entry = old) ∧
      (JsObj.get ([] : JsObj WeekCodesJson) (toUpperCase "w1") = none → ∃ b, backups = [b] ∧
        entry = { Timestamp := nowSeconds demoAdminEnv, Primary := [], Backups := b.data }) ∧
      weeks2.get (toUpperCase "w1") = some
        { entry with Primary := entry.Primary ++ newRecords } ∧
      newRecords.length = 2 ∧ pairCalls.length = 2 ∧ resps.length = 2 ∧
      ∀ k, k < 2 → ∃ (a b : String) (r : AwsResponse),
        (nonEmptyTeams ["Alpha", "Beta", "Gamma", "Delta"])[2 * k]? = some a ∧
        (nonEmptyTeams ["Alpha", "Beta", "Gamma", "Delta"])[2 * k + 1]? = some b ∧
        resps[k]? = some r ∧
        newRecords[k]? = some { Team1 := a, Team2 := some b, Codes := r.data } ∧
        pairCalls[k]? = some (AdminEffect.generateTournamentCodes
          (pairRequest (toUpperCase "w1") (riotTournamentIdOf demoCodesSeason)
            demoCodesSeason.SeasonShortName a (some b)) (some r)) :=
  ⟨by decide, by decide, by decide, by decide,
    generateNewCodes_appends_record_per_pair demoAdminEnv 3 "w1"
      ["Alpha", "Beta", "Gamma", "Delta"] demoAdminWorld demoCodesSeason [] 2 rfl rfl
      demoGenerateTournamentCodes_ok (by decide) rfl (by decide)⟩

end DoowanStats
